import Mathlib

/-!
# Compass NPU user-mode driver: relocation engine, tensor I/O and job completion

A shallow embedding of `JobBase` (`Linux/driver/umd/src/common/job_base.cpp`),
of the declarations of `graph.h` that it consumes and of the completion path of
`Aipu` (`Linux/driver/umd/src/device/aipu/aipu.cpp`), followed by the
properties proved about them.

Conventions of the embedding:

* C unsigned integers are natural numbers; every place where the C code
  truncates (a `uint32_t` or a `DEV_PA_64` result) carries an explicit
  `% 2 ^ 32` or `% 2 ^ 64`.
* Memory is a function from byte address to byte value, read and written in
  little-endian order, the byte order of the hosts the driver runs on.
* `std::vector<T*>` arguments are lists of the pointed-to descriptors.
* `LOG` calls and the `DUMP_RO_ENTRY` block (compiled out, the symbol is defined
  as 0) have no effect on the state and are left out.
* A call that does not return (it dereferences a null pointer, or waits without
  end) has no result: its status or return value is `none`.
-/

namespace aipudrv

/-! ## Status codes and memory -/

/-- The `aipu_status_t` codes returned by the functions embedded here. -/
inductive aipu_status_t where
  | AIPU_STATUS_SUCCESS
  | AIPU_STATUS_ERROR_NULL_PTR
  | AIPU_STATUS_ERROR_INVALID_TENSOR_ID
  | AIPU_STATUS_ERROR_INVALID_OP
  | AIPU_STATUS_ERROR_INVALID_SIZE
  | AIPU_STATUS_ERROR_INVALID_PARTITION_ID
  deriving DecidableEq, Repr

open aipu_status_t

/-- Byte-addressed memory: the value stored at each byte address. -/
abbrev Mem := Nat → Nat

/-- One byte of memory. -/
def Mem.read8 (m : Mem) (a : Nat) : Nat := m a % 256

/-- Store the low byte of `v` at address `a`. -/
def Mem.write8 (m : Mem) (a v : Nat) : Mem :=
  fun x => if x = a then v % 256 else m x

/-- The 4-byte little-endian word at `a`, as `memcpy(&val, a, 4)` reads it. -/
def Mem.read32 (m : Mem) (a : Nat) : Nat :=
  m.read8 a + 256 * m.read8 (a + 1) + 65536 * m.read8 (a + 2) + 16777216 * m.read8 (a + 3)

/-- Store the 32-bit word `v` in the 4 bytes at `a`, as `memcpy(a, &val, 4)` does. -/
def Mem.write32 (m : Mem) (a v : Nat) : Mem :=
  (((m.write8 a v).write8 (a + 1) (v / 256)).write8 (a + 2) (v / 65536)).write8 (a + 3)
    (v / 16777216)

/-- Modelled from the spec: `get_low_32` of `utils/helper.h` (not part of the
sources at hand), the low 32 bits of a 64-bit address. -/
def get_low_32 (x : Nat) : Nat := x % 2 ^ 32

/-- The complement `~x` of a `uint32_t`. -/
def not32 (x : Nat) : Nat := 4294967295 - x % 2 ^ 32

/-! ## Data model (`graph.h` and the buffer descriptor used by `job_base.cpp`) -/

/-- Values of `enum GraphRemapLoadType`. -/
def PARAM_MAP_LOAD_TYPE_REUSE : Nat := 0

/-- Second enumerator of `enum GraphRemapLoadType`. -/
def PARAM_MAP_LOAD_TYPE_STATIC : Nat := 1

/-- Record `struct GraphParamMapLoadDesc`; every field is a `uint32_t`. -/
structure GraphParamMapLoadDesc where
  offset_in_map : Nat
  load_type : Nat
  buf_type : Nat
  ref_section_iter : Nat
  ref_sub_section_iter : Nat
  sub_section_offset : Nat
  addr_mask : Nat
  deriving DecidableEq, Repr, Inhabited

/-- The fields of `struct BufferDesc` that `job_base.cpp` reads: physical
address, size, requested size, ASID base and ASID-relative address. -/
structure BufferDesc where
  pa : Nat
  size : Nat
  req_size : Nat
  asid_base : Nat
  align_asid_pa : Nat
  deriving DecidableEq, Repr, Inhabited

/-! ## `JobBase::setup_rodata` -/

/-- The filter test of `setup_rodata` (the `continue` of the loop body): with a
DMA-buffer-index set, an entry is passed over when its index is not in the set
or its load type is not REUSE. -/
def rodata_skipped (dma_buf_idx : Option (List Nat)) (p : GraphParamMapLoadDesc) : Bool :=
  match dma_buf_idx with
  | none => false
  | some s => s.count p.ref_section_iter == 0 || p.load_type != PARAM_MAP_LOAD_TYPE_REUSE

/-- The pointer `entry` of `setup_rodata`: into the rodata mapping below
`rodata.req_size`, into the descriptor mapping from there on. `dcr_va` is
`none` for the null pointer; an `entry` computed from it is `none`: it points
into no buffer and the `memcpy` through it faults. -/
def rodata_entry (ro_va : Nat) (dcr_va : Option Nat) (rodata : BufferDesc)
    (p : GraphParamMapLoadDesc) : Option Nat :=
  if p.offset_in_map < rodata.req_size then some (ro_va + p.offset_in_map)
  else
    match dcr_va with
    | none => none
    | some va => some (va + p.offset_in_map - rodata.req_size)

/-- The value `sub_sec_pa_32` of `setup_rodata`, `none` when the bounds check
jumps to `finish`. A load type that is neither REUSE nor STATIC leaves it 0. -/
def rodata_sub_sec_pa_32 (reuse_buf static_buf : List BufferDesc)
    (p : GraphParamMapLoadDesc) : Option Nat :=
  if p.load_type = PARAM_MAP_LOAD_TYPE_REUSE then
    if p.ref_section_iter ≥ reuse_buf.length then none
    else some ((get_low_32 (reuse_buf.getD p.ref_section_iter default).align_asid_pa
      + p.sub_section_offset) % 2 ^ 32)
  else if p.load_type = PARAM_MAP_LOAD_TYPE_STATIC then
    if p.ref_section_iter ≥ static_buf.length then none
    else some (get_low_32 (((static_buf.getD p.ref_section_iter default).align_asid_pa
      + p.sub_section_offset) % 2 ^ 64))
  else some 0

/-- The word `finl_val` written back by `setup_rodata`. -/
def rodata_finl_val (sub_sec_pa_32 addr_mask init_val : Nat) : Nat :=
  (sub_sec_pa_32 &&& addr_mask) ||| (init_val &&& not32 addr_mask)

/-- The `for` loop of `setup_rodata` over the parameter map, threading the
memory that holds the rodata and descriptor mappings. The `uint32_t` index
reaches every entry of a map with fewer than `2 ^ 32` entries. The result is
the value of `ret` at `finish` and the memory; the status is `none` when the
call does not return, because the first `memcpy` of an entry goes through a
pointer computed from the null `dcr_va` (the bounds check on the buffer index
comes before that `memcpy`). -/
def setup_rodata_loop (reuse_buf static_buf : List BufferDesc) (rodata : BufferDesc)
    (ro_va : Nat) (dcr_va : Option Nat) (dma_buf_idx : Option (List Nat)) :
    List GraphParamMapLoadDesc → Mem → Option aipu_status_t × Mem
  | [], m => (some AIPU_STATUS_SUCCESS, m)
  | p :: ps, m =>
    if rodata_skipped dma_buf_idx p then
      setup_rodata_loop reuse_buf static_buf rodata ro_va dcr_va dma_buf_idx ps m
    else
      match rodata_sub_sec_pa_32 reuse_buf static_buf p with
      | none => (some AIPU_STATUS_ERROR_INVALID_SIZE, m)
      | some sub_sec_pa_32 =>
        match rodata_entry ro_va dcr_va rodata p with
        | none => (none, m)
        | some entry =>
          let init_val := m.read32 entry
          let finl_val := rodata_finl_val sub_sec_pa_32 p.addr_mask init_val
          setup_rodata_loop reuse_buf static_buf rodata ro_va dcr_va dma_buf_idx ps
            (m.write32 entry finl_val)

/-- The pointer `dcr_va` of `setup_rodata`: null (`none`) unless a descriptor
buffer of non-zero size is given. -/
def rodata_dcr_va (pa_to_va : Nat → Nat → Nat) (dcr : Option BufferDesc) : Option Nat :=
  match dcr with
  | none => none
  | some d => if d.size ≠ 0 then some (pa_to_va d.pa d.size) else none

/-- Function `JobBase::setup_rodata`. `pa_to_va pa size` is the address that
`m_mem->pa_to_va` stores for a buffer (its implementation is outside the
sources at hand and is taken to map the buffer). The result is the returned
status, `none` when the call faults on the null descriptor pointer instead of
returning, and the memory after the call. -/
def setup_rodata (pa_to_va : Nat → Nat → Nat) (param_map : List GraphParamMapLoadDesc)
    (reuse_buf static_buf : List BufferDesc) (rodata : BufferDesc) (dcr : Option BufferDesc)
    (dma_buf_idx : Option (List Nat)) (m : Mem) : Option aipu_status_t × Mem :=
  setup_rodata_loop reuse_buf static_buf rodata (pa_to_va rodata.pa rodata.size)
    (rodata_dcr_va pa_to_va dcr) dma_buf_idx param_map m

/-! ## `JobBase::get_base_pa` and `JobBase::setup_remap` -/

/-- The section-type enumerators that `get_base_pa` compares against. Their
declaration is outside the sources at hand, so their values are parameters. -/
structure SectionTypeIds where
  SECTION_TYPE_RODATA : Int
  SECTION_TYPE_DESCRIPTOR : Int
  SECTION_TYPE_TEXT : Int
  deriving DecidableEq, Repr

/-- The fields of `struct RemapEntry` that `setup_remap` reads. -/
structure RemapEntry where
  type : Int
  next_addr_entry_offset : Nat
  next_type : Int
  next_offset : Nat
  deriving DecidableEq, Repr, Inhabited

/-- Subtraction of two `DEV_PA_64` values, wrapping at `2 ^ 64`. -/
def sub64 (a b : Nat) : Nat := (a + (2 ^ 64 - b % 2 ^ 64)) % 2 ^ 64

/-- Function `JobBase::get_base_pa`; `m_text` is the graph text buffer
`get_graph().m_text`. A section type that selects no buffer yields 0. -/
def get_base_pa (ids : SectionTypeIds) (m_text : BufferDesc) (sec_type : Int)
    (rodata : BufferDesc) (descriptor : Option BufferDesc) (align_asid : Bool) : Nat :=
  let r : Nat × Nat :=
    if sec_type = ids.SECTION_TYPE_RODATA then
      (rodata.pa, sub64 rodata.pa rodata.asid_base)
    else
      match descriptor, decide (sec_type = ids.SECTION_TYPE_DESCRIPTOR) with
      | some d, true => (d.pa, sub64 d.pa d.asid_base)
      | _, _ =>
        if sec_type = ids.SECTION_TYPE_TEXT then (m_text.pa, sub64 m_text.pa m_text.asid_base)
        else (0, 0)
  if align_asid = false then r.1 else r.2

/-- The destination address `dest` computed by `setup_remap` for one entry. -/
def remap_dest (ids : SectionTypeIds) (m_text rodata : BufferDesc)
    (descriptor : Option BufferDesc) (e : RemapEntry) : Nat :=
  (get_base_pa ids m_text e.type rodata descriptor false + e.next_addr_entry_offset) % 2 ^ 64

/-- The `DEV_PA_32` value `pa` computed by `setup_remap` for one entry. -/
def remap_pa (ids : SectionTypeIds) (m_text rodata : BufferDesc)
    (descriptor : Option BufferDesc) (e : RemapEntry) : Nat :=
  ((get_base_pa ids m_text e.next_type rodata descriptor true + e.next_offset) % 2 ^ 64) % 2 ^ 32

/-- Function `JobBase::setup_remap` over the graph's `m_remap` table, on the
device memory addressed by physical address.
Modelled from the spec: `m_mem->write32(dest, pa)` (the memory class is outside
the sources at hand) writes the 4-byte value at the destination. -/
def setup_remap (ids : SectionTypeIds) (m_text rodata : BufferDesc)
    (descriptor : Option BufferDesc) : List RemapEntry → Mem → Mem
  | [], mem => mem
  | e :: es, mem =>
    setup_remap ids m_text rodata descriptor es
      (mem.write32 (remap_dest ids m_text rodata descriptor e)
        (remap_pa ids m_text rodata descriptor e))

/-! ## `JobBase::create_io_buffers` -/

/-- The fields of `struct GraphIOTensorDesc` that `create_io_buffers` reads. -/
structure GraphIOTensorDesc where
  id : Nat
  size : Nat
  data_type : Nat
  ref_section_iter : Nat
  offset_in_section : Nat
  deriving DecidableEq, Repr, Inhabited

/-- The fields of `struct JobIOBuffer` used by `job_base.cpp`. -/
structure JobIOBuffer where
  id : Nat
  size : Nat
  type : Nat
  pa : Nat
  align_asid_pa : Nat
  ref_section_iter : Nat
  dmabuf_fd : Int
  dmabuf_size : Nat
  offset_in_dmabuf : Nat
  dump_ignore_flag : Bool
  deriving DecidableEq, Repr, Inhabited

/-- Modelled from the spec: `JobIOBuffer::init` (declared outside the sources at
hand) records the tensor's ID, byte size, element type, physical address,
ASID-relative address and the index of the per-job buffer it is carved from; a
fresh binding is not backed by shared DMA memory. -/
def JobIOBuffer.init (id size type pa align_asid_pa ref_section_iter : Nat) : JobIOBuffer :=
  { id := id, size := size, type := type, pa := pa, align_asid_pa := align_asid_pa,
    ref_section_iter := ref_section_iter, dmabuf_fd := -1, dmabuf_size := 0,
    offset_in_dmabuf := 0, dump_ignore_flag := false }

/-- The body of the `for` loop of `create_io_buffers` over the descriptors it
visits. `reuses[sec_iter]` past the end of the vector is undefined behaviour in
the source: the result is then `none`. -/
def create_io_buffers_loop (reuses : List BufferDesc) :
    List GraphIOTensorDesc → List JobIOBuffer → Option (List JobIOBuffer)
  | [], bufs => some bufs
  | d :: ds, bufs =>
    match reuses[d.ref_section_iter]? with
    | none => none
    | some r =>
      create_io_buffers_loop reuses ds
        (bufs ++ [JobIOBuffer.init d.id d.size d.data_type
          ((r.pa + d.offset_in_section) % 2 ^ 64)
          ((r.align_asid_pa + d.offset_in_section) % 2 ^ 64) d.ref_section_iter])

/-- Function `JobBase::create_io_buffers` (the three-argument overload). The
count `cnt` is a `uint32_t`, so the loop visits the first
`desc.size() mod 2 ^ 32` descriptors. -/
def create_io_buffers (bufs : List JobIOBuffer) (desc : List GraphIOTensorDesc)
    (reuses : List BufferDesc) : Option (List JobIOBuffer) :=
  create_io_buffers_loop reuses (desc.take (desc.length % 2 ^ 32)) bufs

/-! ## Tensor transfer: `load_tensor`, `load_output_tensor`, `get_tensor` -/

/-- The job status values that `job_base.cpp` and the device layer name. -/
inductive aipu_job_status_t where
  | AIPU_JOB_STATUS_NO_STATUS
  | AIPU_JOB_STATUS_DONE
  | AIPU_JOB_STATUS_EXCEPTION
  | AIPU_JOB_STATUS_INIT
  | AIPU_JOB_STATUS_SCHED
  | AIPU_JOB_STATUS_BIND
  deriving DecidableEq, Repr

/-- The tensor types of the `switch` of `get_tensor`; `AIPU_TENSOR_TYPE_OTHER`
stands for every value that reaches its `default` label. -/
inductive aipu_tensor_type_t where
  | AIPU_TENSOR_TYPE_INPUT
  | AIPU_TENSOR_TYPE_OUTPUT
  | AIPU_TENSOR_TYPE_INTER_DUMP
  | AIPU_TENSOR_TYPE_PRINTF
  | AIPU_TENSOR_TYPE_PROFILER
  | AIPU_TENSOR_TYPE_LAYER_COUNTER
  | AIPU_TENSOR_TYPE_ERROR_CODE
  | AIPU_TENSOR_TYPE_OUT_TENSOR_SHAPE
  | AIPU_TENSOR_TYPE_OTHER (raw : Nat)
  deriving DecidableEq, Repr

/-- The accelerator ISA versions named in the sources. -/
inductive aipu_isa_version_t where
  | AIPU_ISA_VERSION_ZHOUYI_V1
  | AIPU_ISA_VERSION_ZHOUYI_V2_2
  | AIPU_ISA_VERSION_ZHOUYI_V3
  | AIPU_ISA_VERSION_ZHOUYI_V3_1
  deriving DecidableEq, Repr

open aipu_job_status_t aipu_tensor_type_t aipu_isa_version_t

/-- The members of `JobBase` that the tensor transfers and the status queries
read: the status, the IO-buffer list of each tensor category, the job id
(`get_id()`), whether a completion callback is registered (`get_job_cb()` is
not null), the number of executable subgraphs (`get_subgraph_cnt()`) and the
`en_fast_perf` flag of the job's configuration. -/
structure JobBase where
  m_status : aipu_job_status_t
  m_inputs : List JobIOBuffer
  m_outputs : List JobIOBuffer
  m_inter_dumps : List JobIOBuffer
  m_profiler : List JobIOBuffer
  m_printf : List JobIOBuffer
  m_layer_counter : List JobIOBuffer
  m_err_code : List JobIOBuffer
  m_segmmus : List JobIOBuffer
  m_outputs_shape : List JobIOBuffer
  m_id : Nat := 0
  m_job_cb : Bool := false
  m_subgraph_cnt : Nat := 1
  en_fast_perf : Bool := false

/-- What the tensor transfers act on outside the job object: the device memory
behind `m_mem` (by physical address), whether `mmap` of a DMA-buffer descriptor
with a given length succeeds, and the bytes of the shared buffer behind each
descriptor (by offset from the start of the mapping). -/
structure TensorEnv where
  mem : Mem
  mmap_ok : Int → Nat → Bool
  dmabuf : Int → Mem

/-- The `memcpy(dst + doff, src + soff, n)` of `n` bytes between two buffers. -/
def Mem.copy (dst : Mem) (doff : Nat) (src : Mem) (soff n : Nat) : Mem :=
  fun x => if doff ≤ x ∧ x < doff + n then src.read8 (soff + (x - doff)) else dst x

/-- Function `JobBase::readwrite_dma_buf`: the return value (0, or -1 when the
mapping fails), the environment and the caller's buffer after the call. With
`read` the tensor's bytes are copied out of the mapping into `data`, otherwise
from `data` into the mapping. -/
def readwrite_dma_buf (env : TensorEnv) (iobuf : JobIOBuffer) (data : Mem) (read : Bool) :
    Int × TensorEnv × Mem :=
  if env.mmap_ok iobuf.dmabuf_fd iobuf.dmabuf_size = false then (-1, env, data)
  else if read then
    (0, env, Mem.copy data 0 (env.dmabuf iobuf.dmabuf_fd) iobuf.offset_in_dmabuf iobuf.size)
  else
    (0, { env with dmabuf := fun fd =>
            if fd = iobuf.dmabuf_fd then
              Mem.copy (env.dmabuf fd) iobuf.offset_in_dmabuf data 0 iobuf.size
            else env.dmabuf fd },
      data)

/-- The transfer shared by `load_tensor` and `load_output_tensor` once the
checks have passed.
Modelled from the spec: `m_mem->write(pa, data, size)` (the memory class is
outside the sources at hand) is a plain memory copy into device memory. -/
def load_into (env : TensorEnv) (iobuf : JobIOBuffer) (data : Mem) : TensorEnv :=
  if iobuf.dmabuf_fd < 0 then
    { env with mem := Mem.copy env.mem iobuf.pa data 0 iobuf.size }
  else (readwrite_dma_buf env iobuf data false).2.1

/-- Function `JobBase::load_tensor`. `data` is `none` for a null pointer,
otherwise the caller's buffer addressed by byte offset. -/
def load_tensor (job : JobBase) (env : TensorEnv) (tensor : Nat) (data : Option Mem) :
    aipu_status_t × TensorEnv :=
  match data with
  | none => (AIPU_STATUS_ERROR_NULL_PTR, env)
  | some d =>
    if tensor ≥ job.m_inputs.length then (AIPU_STATUS_ERROR_INVALID_TENSOR_ID, env)
    else if job.m_status ≠ AIPU_JOB_STATUS_INIT ∧ job.m_status ≠ AIPU_JOB_STATUS_DONE ∧
        job.m_status ≠ AIPU_JOB_STATUS_BIND then (AIPU_STATUS_ERROR_INVALID_OP, env)
    else (AIPU_STATUS_SUCCESS, load_into env (job.m_inputs.getD tensor default) d)

/-- Function `JobBase::load_output_tensor`. -/
def load_output_tensor (job : JobBase) (env : TensorEnv) (tensor : Nat) (data : Option Mem) :
    aipu_status_t × TensorEnv :=
  match data with
  | none => (AIPU_STATUS_ERROR_NULL_PTR, env)
  | some d =>
    if tensor ≥ job.m_outputs.length then (AIPU_STATUS_ERROR_INVALID_TENSOR_ID, env)
    else if job.m_status ≠ AIPU_JOB_STATUS_INIT ∧ job.m_status ≠ AIPU_JOB_STATUS_DONE ∧
        job.m_status ≠ AIPU_JOB_STATUS_BIND then (AIPU_STATUS_ERROR_INVALID_OP, env)
    else (AIPU_STATUS_SUCCESS, load_into env (job.m_outputs.getD tensor default) d)

/-- The outcome of the `switch` of `get_tensor`. -/
inductive TensorSelect where
  | unsupported
  | null_vec
  | vec (bufs : List JobIOBuffer)

/-- The `switch (type)` of `get_tensor`: the `default` label returns,
`AIPU_TENSOR_TYPE_PRINTF` on ISA V3 leaves `iobuffer_vec` null, every other
case points it at one of the job's lists. -/
def get_tensor_select (job : JobBase) (isa : aipu_isa_version_t) (type : aipu_tensor_type_t) :
    TensorSelect :=
  match type with
  | AIPU_TENSOR_TYPE_INPUT => .vec job.m_inputs
  | AIPU_TENSOR_TYPE_OUTPUT => .vec job.m_outputs
  | AIPU_TENSOR_TYPE_INTER_DUMP => .vec job.m_inter_dumps
  | AIPU_TENSOR_TYPE_PRINTF =>
    if isa = AIPU_ISA_VERSION_ZHOUYI_V3 then .null_vec else .vec job.m_printf
  | AIPU_TENSOR_TYPE_PROFILER => .vec job.m_profiler
  | AIPU_TENSOR_TYPE_LAYER_COUNTER => .vec job.m_layer_counter
  | AIPU_TENSOR_TYPE_ERROR_CODE => .vec job.m_err_code
  | AIPU_TENSOR_TYPE_OUT_TENSOR_SHAPE => .vec job.m_outputs_shape
  | AIPU_TENSOR_TYPE_OTHER _ => .unsupported

/-- Function `JobBase::get_tensor`: the returned status and the caller's buffer
after the call (`none` for a null `data`). `isa` is what
`m_dev->get_npu_version()` returns. The result is `none` when the function
dereferences the null `iobuffer_vec` and so returns nothing.
Modelled from the spec: `m_mem->read(pa, data, size)` (the memory class is
outside the sources at hand) is a plain memory copy out of device memory. -/
def get_tensor (job : JobBase) (env : TensorEnv) (isa : aipu_isa_version_t)
    (type : aipu_tensor_type_t) (tensor : Nat) (data : Option Mem) :
    Option (aipu_status_t × Option Mem) :=
  match data with
  | none => some (AIPU_STATUS_ERROR_NULL_PTR, none)
  | some d =>
    if job.m_status ≠ AIPU_JOB_STATUS_DONE then some (AIPU_STATUS_ERROR_INVALID_OP, some d)
    else
      match get_tensor_select job isa type with
      | .unsupported => some (AIPU_STATUS_ERROR_INVALID_OP, some d)
      | .null_vec => none
      | .vec iobuffer_vec =>
        if tensor ≥ iobuffer_vec.length then some (AIPU_STATUS_ERROR_INVALID_TENSOR_ID, some d)
        else
          let iobuf := iobuffer_vec.getD tensor default
          if iobuf.dmabuf_fd < 0 then
            some (AIPU_STATUS_SUCCESS, some (Mem.copy d 0 env.mem iobuf.pa iobuf.size))
          else some (AIPU_STATUS_SUCCESS, some (readwrite_dma_buf env iobuf d true).2.2)

/-! ## Job lifecycle: `validate_schedule_status`, `get_status`, `get_status_blocking` -/

/-- Function `JobBase::validate_schedule_status`: the returned status and the
job after the call (the function assigns nothing). -/
def validate_schedule_status (job : JobBase) : aipu_status_t × JobBase :=
  if job.m_status = AIPU_JOB_STATUS_INIT ∨ job.m_status = AIPU_JOB_STATUS_DONE ∨
      job.m_status = AIPU_JOB_STATUS_BIND then (AIPU_STATUS_SUCCESS, job)
  else (AIPU_STATUS_ERROR_INVALID_OP, job)

/-- Record `aipu_job_status_desc`: a completion record of the kernel driver.
The kernel-side `AIPU_JOB_STATE_DONE` and `AIPU_JOB_STATE_EXCEPTION` are the
values `AIPU_JOB_STATUS_DONE` and `AIPU_JOB_STATUS_EXCEPTION` that `m_status`
is compared against after being assigned a record's state. -/
structure aipu_job_status_desc where
  job_id : Nat
  state : aipu_job_status_t
  deriving DecidableEq, Repr

/-- What a status query does besides computing its results, in the order in
which it happens: calls into the device object, the completion callback, and
the hooks of the job. -/
inductive JobEvent where
  | dev_get_status
  | dev_poll_status (time_out : Int)
  | job_callback (id : Nat) (status : aipu_job_status_t)
  | parse_dynamic_out_shape
  | dump_job_private_buffers_after_run
  | dump_job_shared_buffers_after_run
  | dev_dump_profiling
  deriving DecidableEq, Repr

/-- What a call into the device object (`m_dev->get_status` or
`m_dev->poll_status`, both virtual) leaves behind: its result after
`convert_ll_status`, the records it stored in `jobs_status`, and the status of
the job after the call (the device layer may update it). -/
structure DevReply where
  ret : aipu_status_t
  jobs_status : List aipu_job_status_desc
  m_status : aipu_job_status_t

/-- The result of a status query: the returned code, the value stored in
`*status` (`none` when the function returns before storing one), the status of
the job after the call, and what the call did. -/
structure StatusQuery where
  ret : aipu_status_t
  status : Option aipu_job_status_t
  m_status : aipu_job_status_t
  trace : List JobEvent
  deriving DecidableEq, Repr

/-- Function `JobBase::get_status`. `dev` is what `m_dev->get_status(jobs_status,
1, this)` leaves behind when it is called, `runtime_err_code` what
`get_runtime_err_code()` returns. -/
def JobBase.get_status (job : JobBase) (dev : DevReply) (runtime_err_code : aipu_status_t) :
    StatusQuery :=
  if job.m_subgraph_cnt = 0 then
    let jobs_status : List aipu_job_status_desc :=
      [{ job_id := 0, state := AIPU_JOB_STATUS_DONE }]
    let m_status :=
      match jobs_status with
      | [] => job.m_status
      | desc :: _ => desc.state
    if m_status = AIPU_JOB_STATUS_DONE ∨ m_status = AIPU_JOB_STATUS_EXCEPTION then
      { ret := runtime_err_code, status := some m_status, m_status := m_status,
        trace := [JobEvent.dump_job_private_buffers_after_run,
          JobEvent.dump_job_shared_buffers_after_run] }
    else
      { ret := runtime_err_code, status := some AIPU_JOB_STATUS_NO_STATUS,
        m_status := m_status, trace := [] }
  else if dev.ret ≠ AIPU_STATUS_SUCCESS then
    { ret := dev.ret, status := none, m_status := dev.m_status,
      trace := [JobEvent.dev_get_status] }
  else
    let m_status :=
      match dev.jobs_status with
      | [] => dev.m_status
      | desc :: _ => desc.state
    if m_status = AIPU_JOB_STATUS_DONE ∨ m_status = AIPU_JOB_STATUS_EXCEPTION then
      { ret := runtime_err_code, status := some m_status, m_status := m_status,
        trace := [JobEvent.dev_get_status, JobEvent.dump_job_private_buffers_after_run,
          JobEvent.dump_job_shared_buffers_after_run] }
    else
      { ret := runtime_err_code, status := some AIPU_JOB_STATUS_NO_STATUS,
        m_status := m_status, trace := [JobEvent.dev_get_status] }

/-- Function `JobBase::get_status_blocking`. `dev` is what `m_dev->poll_status`
leaves behind when it is called, `parse_ret` what `parse_dynamic_out_shape()`
returns, `runtime_err_code` what `get_runtime_err_code()` returns. -/
def JobBase.get_status_blocking (job : JobBase) (time_out : Int) (dev : DevReply)
    (parse_ret runtime_err_code : aipu_status_t) : StatusQuery :=
  let profiling := if job.en_fast_perf then [JobEvent.dev_dump_profiling] else []
  if job.m_subgraph_cnt = 0 then
    let m_status := AIPU_JOB_STATUS_DONE
    let cb := if job.m_job_cb then [JobEvent.job_callback job.m_id m_status] else []
    if m_status = AIPU_JOB_STATUS_DONE ∨ m_status = AIPU_JOB_STATUS_EXCEPTION then
      { ret := runtime_err_code, status := some m_status, m_status := m_status,
        trace := cb ++ [JobEvent.dump_job_private_buffers_after_run,
          JobEvent.dump_job_shared_buffers_after_run] ++ profiling }
    else
      { ret := runtime_err_code, status := some AIPU_JOB_STATUS_NO_STATUS,
        m_status := m_status, trace := cb }
  else if dev.ret ≠ AIPU_STATUS_SUCCESS then
    { ret := dev.ret, status := none, m_status := dev.m_status,
      trace := [JobEvent.dev_poll_status time_out] }
  else if parse_ret ≠ AIPU_STATUS_SUCCESS then
    { ret := parse_ret, status := none, m_status := dev.m_status,
      trace := [JobEvent.dev_poll_status time_out, JobEvent.parse_dynamic_out_shape] }
  else
    let m_status := dev.m_status
    if m_status = AIPU_JOB_STATUS_DONE ∨ m_status = AIPU_JOB_STATUS_EXCEPTION then
      { ret := runtime_err_code, status := some m_status, m_status := m_status,
        trace := [JobEvent.dev_poll_status time_out, JobEvent.parse_dynamic_out_shape,
          JobEvent.dump_job_private_buffers_after_run,
          JobEvent.dump_job_shared_buffers_after_run] ++ profiling }
    else
      { ret := runtime_err_code, status := some AIPU_JOB_STATUS_NO_STATUS,
        m_status := m_status,
        trace := [JobEvent.dev_poll_status time_out, JobEvent.parse_dynamic_out_shape] }

/-! ## Device completion path: `Aipu::get_status` and `Aipu::poll_status` -/

/-- The `aipu_ll_status_t` codes returned by the completion path. -/
inductive aipu_ll_status_t where
  | AIPU_LL_STATUS_SUCCESS
  | AIPU_LL_STATUS_JOB_NO_DONE
  | AIPU_LL_STATUS_ERROR_IOCTL_QUERY_STATUS_FAIL
  | AIPU_LL_STATUS_ERROR_POLL_FAIL
  | AIPU_LL_STATUS_ERROR_POLL_TIMEOUT
  | AIPU_LL_STATUS_ERROR_IOCTL_TICK_COUNTER
  deriving DecidableEq, Repr

open aipu_ll_status_t

/-- What the completion path does to jobs, in order: a status overwrite of the
job behind a pointer (with the status it replaces) and a callback invocation
with its two arguments. -/
inductive DevEvent where
  | update_job_status (job : Nat) (old new : aipu_job_status_t)
  | job_callback (job_id : Nat) (state : aipu_job_status_t)
  deriving DecidableEq, Repr

/-- The state of a call on the completion path, run by one thread with no other
thread touching the jobs: the value returned (`none` while the call has not
returned: it spins on a job status or waits in `poll`), the job object behind
each `JobBase` pointer, and what the call has done so far. -/
structure DevRun where
  ret : Option aipu_ll_status_t
  jobs : Nat → JobBase
  trace : List DevEvent

/-- Modelled from the spec: `JobBase::update_job_status` (declared outside the
sources at hand) stores the reported state as the status of the job behind
pointer `p`. -/
def update_job_status (jobs : Nat → JobBase) (p : Nat) (state : aipu_job_status_t) :
    Nat → JobBase :=
  fun q => if q = p then { jobs q with m_status := state } else jobs q

/-- The `for` loop of `Aipu::get_status` over the records of one batch.
`get_job` is the job table of the polled job's graph (`get_base_graph().get_job`,
`none` for a null pointer), `job` the pointer of the polled job, `ret` the
result so far. The `while` on the status of `done_job` has an empty body: run
alone, it ends at once when the status is SCHED and never otherwise. -/
def Aipu.get_status_loop (get_job : Nat → Option Nat) (job : Nat) :
    List aipu_job_status_desc → aipu_ll_status_t → (Nat → JobBase) → List DevEvent → DevRun
  | [], ret, jobs, tr => { ret := some ret, jobs := jobs, trace := tr }
  | r :: rs, ret, jobs, tr =>
    match get_job r.job_id with
    | none => Aipu.get_status_loop get_job job rs ret jobs tr
    | some done_job =>
      if (jobs done_job).m_status ≠ AIPU_JOB_STATUS_SCHED then
        { ret := none, jobs := jobs, trace := tr }
      else
        let jobs1 := update_job_status jobs done_job r.state
        let tr1 := tr ++ [DevEvent.update_job_status done_job (jobs done_job).m_status r.state]
          ++ (if (jobs1 done_job).m_job_cb then [DevEvent.job_callback r.job_id r.state] else [])
        Aipu.get_status_loop get_job job rs
          (if done_job = job then AIPU_LL_STATUS_SUCCESS else ret) jobs1 tr1

/-- Function `Aipu::get_status(max_cnt, of_this_thread, jobbase)`. `kret` is the
return value of the `AIPU_IOCTL_QUERY_STATUS` request and `batch` the
`poll_cnt` records it stored. -/
def Aipu.get_status (get_job : Nat → Option Nat) (kret : Int)
    (batch : List aipu_job_status_desc) (job : Nat) (jobs : Nat → JobBase) : DevRun :=
  if kret ≠ 0 then
    { ret := some AIPU_LL_STATUS_ERROR_IOCTL_QUERY_STATUS_FAIL, jobs := jobs, trace := [] }
  else Aipu.get_status_loop get_job job batch AIPU_LL_STATUS_JOB_NO_DONE jobs []

/-- One wake-up of the OS `poll` in `Aipu::poll_status`: its return value,
whether `revents` has `POLLIN`, and the answer of the status-query request that
`get_status` makes after it. -/
structure PollRound where
  kret : Int
  pollin : Bool
  query_kret : Int
  batch : List aipu_job_status_desc
  deriving DecidableEq, Repr

/-- The `do ... while (time_out == -1)` loop of `Aipu::poll_status`, one OS poll
result per pass that reaches `poll`. A `continue` jumps to the loop condition.
The call has not returned when it spins on a job that is not in SCHED status
with `time_out == -1`, or when it waits in `poll` past the last result given. -/
def Aipu.poll_status_loop (get_job : Nat → Option Nat) (time_out : Int) (job : Nat) :
    List PollRound → aipu_ll_status_t → (Nat → JobBase) → List DevEvent → DevRun
  | [], ret, jobs, tr =>
    if (jobs job).m_status ≠ AIPU_JOB_STATUS_SCHED then
      if time_out = -1 then { ret := none, jobs := jobs, trace := tr }
      else { ret := some ret, jobs := jobs, trace := tr }
    else { ret := none, jobs := jobs, trace := tr }
  | r :: rs, ret, jobs, tr =>
    if (jobs job).m_status ≠ AIPU_JOB_STATUS_SCHED then
      if time_out = -1 then { ret := none, jobs := jobs, trace := tr }
      else { ret := some ret, jobs := jobs, trace := tr }
    else if r.kret < 0 then
      { ret := some AIPU_LL_STATUS_ERROR_POLL_FAIL, jobs := jobs, trace := tr }
    else if r.kret = 0 then
      { ret := some AIPU_LL_STATUS_ERROR_POLL_TIMEOUT, jobs := jobs, trace := tr }
    else if r.pollin then
      let g := Aipu.get_status get_job r.query_kret r.batch job jobs
      match g.ret with
      | none => { ret := none, jobs := g.jobs, trace := tr ++ g.trace }
      | some ret1 =>
        if ret1 = AIPU_LL_STATUS_SUCCESS then
          { ret := some ret1, jobs := g.jobs, trace := tr ++ g.trace }
        else if time_out = -1 then
          Aipu.poll_status_loop get_job time_out job rs ret1 g.jobs (tr ++ g.trace)
        else { ret := some ret1, jobs := g.jobs, trace := tr ++ g.trace }
    else if time_out = -1 then Aipu.poll_status_loop get_job time_out job rs ret jobs tr
    else { ret := some ret, jobs := jobs, trace := tr }

/-- Function `Aipu::poll_status(max_cnt, time_out, of_this_thread, jobbase)` on
the sequence `rounds` of OS poll results. -/
def Aipu.poll_status (get_job : Nat → Option Nat) (time_out : Int) (job : Nat)
    (rounds : List PollRound) (jobs : Nat → JobBase) : DevRun :=
  if (jobs job).m_status = AIPU_JOB_STATUS_DONE then
    { ret := some AIPU_LL_STATUS_SUCCESS, jobs := jobs, trace := [] }
  else Aipu.poll_status_loop get_job time_out job rounds AIPU_LL_STATUS_SUCCESS jobs []

/-! ## `Graph` (`graph.h`): sizes of the weight buffers and dynamic-shape sections -/

/-- The fields of `struct BinSection` that `graph.h` reads: the bytes behind the
pointer `va` (by offset) and the size of the section. -/
structure BinSection where
  va : Mem
  size : Nat

/-- The members of `Graph` that the embedded member functions read or write. -/
structure Graph where
  const_size : Nat
  zerocpy_const_size : Nat
  m_bglobalparam : BinSection
  m_dynamic_shape : Bool
  m_input_shape_constraint : List (Nat × List (List Nat))
  m_input_shape_threshhold : List (Nat × List Nat)

/-- Function `Graph::set_const_size`; the three arguments are `uint32_t`. -/
def Graph.set_const_size (g : Graph) (bss_id _const_size _zerocpy_const_size : Nat) : Graph :=
  if bss_id > 0 then g
  else
    let _const_size := if _const_size = 0 then 4096 else _const_size
    { g with const_size := _const_size, zerocpy_const_size := _zerocpy_const_size }

/-- Function `Graph::get_zerocpy_const_size`. -/
def Graph.get_zerocpy_const_size (g : Graph) (bss_id : Nat) : Nat :=
  if bss_id = 0 then g.zerocpy_const_size else 0

/-- Function `Graph::get_const_size`. -/
def Graph.get_const_size (g : Graph) (bss_id : Nat) : Nat :=
  if bss_id = 0 then g.const_size else 0

/-- Function `Graph::set_modle_global_param`: `input_shape_offset` is the
`uint32_t` at the start of the section. -/
def Graph.set_modle_global_param (g : Graph) (mgp_section : BinSection) : Graph :=
  let input_shape_offset := mgp_section.va.read32 0
  if input_shape_offset ≥ mgp_section.size then { g with m_dynamic_shape := false }
  else { g with m_bglobalparam := mgp_section, m_dynamic_shape := true }

/-- Function `Graph::is_dynamic_shape`. -/
def Graph.is_dynamic_shape (g : Graph) : Bool := g.m_dynamic_shape

/-- Function `Graph::get_dynamic_shape_num`. -/
def Graph.get_dynamic_shape_num (g : Graph) : Nat :=
  if !g.is_dynamic_shape then 0 else g.m_input_shape_constraint.length

/-- Constant `SimulatorV3_1::MAX_GROUP_ID`, the number of entries of
`m_group_id_bitmap`. -/
def MAX_GROUP_ID : Nat := 2 ^ 15

/-- The `for` loop of `put_start_group_id`: `i` is the `uint16_t` counter,
`bound` the `int` value `start_group_id + group_cnt`, `writes` the indices of
`m_group_id_bitmap` written so far. The bitmap is indexed past its
`MAX_GROUP_ID` entries as the memory that follows it. `fuel` bounds the number
of tests of the loop condition; `none` means the loop is still running. -/
def put_start_group_id_loop (bound : Int) :
    Nat → Nat → (Nat → Bool) → List Nat → Option ((Nat → Bool) × List Nat)
  | 0, _, _, _ => none
  | fuel + 1, i, bitmap, writes =>
    if (i : Int) < bound then
      put_start_group_id_loop bound fuel ((i + 1) % 2 ^ 16)
        (fun j => if j = i then false else bitmap j) (writes ++ [i])
    else some (bitmap, writes)

/-- Function `SimulatorV3_1::put_start_group_id`, run by one thread: the
returned value, the bitmap after the call and the indices written, or `none`
when the loop has not ended within `fuel` tests of its condition. -/
def put_start_group_id (fuel : Nat) (m_group_id_bitmap : Nat → Bool) (start_group_id : Nat)
    (group_cnt : Int) : Option (Int × (Nat → Bool) × List Nat) :=
  match put_start_group_id_loop ((start_group_id : Int) + group_cnt) fuel start_group_id
      m_group_id_bitmap [] with
  | none => none
  | some (bitmap, writes) => some (0, bitmap, writes)

/-- Constants of `simulator/aipu.h` and `simulator_v3_1.h`. -/
def CLUSTER0_CONFIG : Nat := 0xC00

/-- Control register of cluster 0. -/
def CLUSTER0_CTRL : Nat := 0xC04

/-- Present bit of a cluster configuration register. -/
def CLUSTER_PRESENT : Nat := 0x1000

/-- Enable bit of a cluster control register. -/
def CLUSTER_ENABLE : Nat := 0x1000

/-- Number of partitions, the length of the array `m_cluster_in_part`. -/
def MAX_PART_CNT : Nat := 1

/-- Number of cluster register banks. -/
def MAX_CLUSTER_CNT : Nat := 4

/-- One element of the `clusters` array of a partition capability. -/
structure aipu_cluster_cap where
  core_cnt : Nat
  tec_cnt : Nat
  deriving DecidableEq, Repr

/-- The fields of `aipu_partition_cap` that `parse_cluster_info` writes. The
array `clusters` is kept as the list of the elements written so far (the
elements with index below `cluster_cnt`); the rest of the record is zero. -/
structure aipu_partition_cap where
  id : Nat
  arch : Nat
  version : aipu_isa_version_t
  config : Nat
  cluster_cnt : Nat
  clusters : List aipu_cluster_cap
  deriving DecidableEq, Repr

/-- The members of `SimulatorV3_1` that `parse_cluster_info` reads or writes,
with the register file of the simulated device and the register writes made
(address, value), latest last. -/
structure SimulatorV3_1 where
  m_partition_mode : Nat
  m_partition_cnt : Nat
  m_part_caps : List aipu_partition_cap
  m_cluster_cnt : Nat
  m_core_cnt : Nat
  regs : Nat → Nat
  reg_writes : List (Nat × Nat)

/-- The first loop of `parse_cluster_info`: the number of cluster
configuration registers, among the first `n`, that have the present bit. -/
def present_cluster_cnt (regs : Nat → Nat) : Nat → Nat
  | 0 => 0
  | n + 1 =>
    present_cluster_cnt regs n
      + (if regs (CLUSTER0_CONFIG + 0x20 * n) &&& CLUSTER_PRESENT ≠ 0 then 1 else 0)

/-- The second loop of `parse_cluster_info`, over the cluster indices
`cluster_idx, ..., cluster_idx + remaining - 1`, threading the local `part_cap`.
Modelled from the spec: `read_register` and `write_register` of the simulated
device (implemented outside the sources at hand) read and write a register by
address offset. `arch` is the value of `AIPU_ARCH_ZHOUYI`. -/
def parse_cluster_info_loop (arch : Nat) :
    Nat → Nat → aipu_partition_cap → SimulatorV3_1 → SimulatorV3_1
  | 0, _, _, sim => sim
  | remaining + 1, cluster_idx, part_cap, sim =>
    let reg_val := sim.regs (CLUSTER0_CTRL + 0x20 * cluster_idx)
    if reg_val &&& CLUSTER_ENABLE = 0 then
      parse_cluster_info_loop arch remaining (cluster_idx + 1) part_cap sim
    else
      let reg_val := (reg_val ||| (sim.m_partition_mode <<< 13) % 2 ^ 32) % 2 ^ 32
      let addr := CLUSTER0_CTRL + 0x20 * cluster_idx
      let part_cap1 : aipu_partition_cap :=
        { id := part_cap.cluster_cnt, arch := arch,
          version := AIPU_ISA_VERSION_ZHOUYI_V3_1, config := 1304,
          cluster_cnt := part_cap.cluster_cnt + 1,
          clusters := part_cap.clusters ++
            [{ core_cnt := (reg_val >>> 8) &&& 0xF, tec_cnt := reg_val &&& 0xF }] }
      parse_cluster_info_loop arch remaining (cluster_idx + 1) part_cap1
        { sim with
          regs := fun a => if a = addr then reg_val else sim.regs a,
          reg_writes := sim.reg_writes ++ [(addr, reg_val)],
          m_partition_cnt := sim.m_partition_cnt + 1,
          m_part_caps := sim.m_part_caps ++ [part_cap1] }

/-- Function `SimulatorV3_1::parse_cluster_info`. -/
def parse_cluster_info (arch : Nat) (sim : SimulatorV3_1) : SimulatorV3_1 :=
  let cnt := present_cluster_cnt sim.regs MAX_CLUSTER_CNT
  let zero_cap : aipu_partition_cap :=
    { id := 0, arch := 0, version := AIPU_ISA_VERSION_ZHOUYI_V1, config := 0,
      cluster_cnt := 0, clusters := [] }
  let sim1 := parse_cluster_info_loop arch cnt 0 zero_cap sim
  if sim1.m_partition_cnt > 0 then
    match sim1.m_part_caps with
    | [] => sim1
    | cap0 :: _ =>
      { sim1 with
        m_cluster_cnt := cap0.cluster_cnt,
        m_core_cnt := match cap0.clusters with
          | [] => 0
          | c :: _ => c.core_cnt }
  else sim1

/-- Function `SimulatorV3_1::get_cluster_id`: the returned status and the value
stored in `cluster_in_part` (`none` when nothing is stored).
`sizeof_cluster_in_part` is `sizeof(m_cluster_in_part)`, the size in bytes of
the array, `m_cluster_in_part` the array itself. The result is `none` when the
function indexes the array past its end. -/
def get_cluster_id (sizeof_cluster_in_part : Nat) (m_cluster_in_part : List (List Nat))
    (part_id : Nat) : Option (aipu_status_t × Option (List Nat)) :=
  if part_id > sizeof_cluster_in_part then
    some (AIPU_STATUS_ERROR_INVALID_PARTITION_ID, none)
  else
    match m_cluster_in_part[part_id]? with
    | none => none
    | some cluster_in_part => some (AIPU_STATUS_SUCCESS, some cluster_in_part)

/-- The two tick-counter commands of `Aipu::ioctl_cmd`. -/
inductive TickCounterCmd where
  | AIPU_IOCTL_ENABLE_TICK_COUNTER
  | AIPU_IOCTL_DISABLE_TICK_COUNTER
  deriving DecidableEq, Repr

/-- The result of a tick-counter command: the returned code, the flag
`m_tick_counter` after the call and whether the kernel request was issued. -/
structure TickCounterRun where
  ret : aipu_ll_status_t
  m_tick_counter : Bool
  issued : Bool
  deriving DecidableEq, Repr

/-- The cases `AIPU_IOCTL_ENABLE_TICK_COUNTER` and
`AIPU_IOCTL_DISABLE_TICK_COUNTER` of the `switch` of `Aipu::ioctl_cmd`. `kret`
is what the kernel request returns when it is issued. -/
def Aipu.ioctl_cmd_tick_counter (m_tick_counter : Bool) (cmd : TickCounterCmd) (kret : Int) :
    TickCounterRun :=
  match cmd with
  | .AIPU_IOCTL_ENABLE_TICK_COUNTER =>
    if !m_tick_counter then
      { ret := if kret < 0 then AIPU_LL_STATUS_ERROR_IOCTL_TICK_COUNTER
               else AIPU_LL_STATUS_SUCCESS,
        m_tick_counter := true, issued := true }
    else { ret := AIPU_LL_STATUS_SUCCESS, m_tick_counter := m_tick_counter, issued := false }
  | .AIPU_IOCTL_DISABLE_TICK_COUNTER =>
    if m_tick_counter then
      { ret := if kret < 0 then AIPU_LL_STATUS_ERROR_IOCTL_TICK_COUNTER
               else AIPU_LL_STATUS_SUCCESS,
        m_tick_counter := false, issued := true }
    else { ret := AIPU_LL_STATUS_SUCCESS, m_tick_counter := m_tick_counter, issued := false }

/-! ## Concrete inputs of the worked examples -/

/-- An address mapping that maps every buffer at its physical address. -/
def ex_pa_to_va : Nat → Nat → Nat := fun pa _ => pa

/-- A memory holding zero everywhere. -/
def ex_mem : Mem := fun _ => 0

/-- A 64-byte rodata buffer at address 4096. -/
def ex_rodata : BufferDesc :=
  { pa := 4096, size := 64, req_size := 64, asid_base := 0, align_asid_pa := 4096 }

/-- A 64-byte descriptor buffer at address 12288. -/
def ex_dcr : BufferDesc :=
  { pa := 12288, size := 64, req_size := 64, asid_base := 0, align_asid_pa := 12288 }

/-- A graph text buffer at address 1048576 under an ASID base of 65536. -/
def ex_text : BufferDesc :=
  { pa := 1048576, size := 256, req_size := 256, asid_base := 65536, align_asid_pa := 983040 }

/-- One per-job buffer, at ASID-relative address 8192. -/
def ex_reuse : List BufferDesc :=
  [{ pa := 8192, size := 4096, req_size := 4096, asid_base := 0, align_asid_pa := 8192 }]

/-- One graph-constant buffer, at ASID-relative address 16384. -/
def ex_static : List BufferDesc :=
  [{ pa := 16384, size := 4096, req_size := 4096, asid_base := 0, align_asid_pa := 16384 }]

/-- A REUSE entry for per-job buffer 0, patched into rodata offset 0 with a
full mask. -/
def ex_entry_reuse : GraphParamMapLoadDesc :=
  { offset_in_map := 0, load_type := PARAM_MAP_LOAD_TYPE_REUSE, buf_type := 0,
    ref_section_iter := 0, ref_sub_section_iter := 0, sub_section_offset := 16,
    addr_mask := 4294967295 }

/-- A STATIC entry for constant buffer 0, patched into descriptor offset 4
(map offset 68) with a mask that keeps the low 12 bits of the field. -/
def ex_entry_static : GraphParamMapLoadDesc :=
  { offset_in_map := 68, load_type := PARAM_MAP_LOAD_TYPE_STATIC, buf_type := 0,
    ref_section_iter := 0, ref_sub_section_iter := 0, sub_section_offset := 32,
    addr_mask := 4294963200 }

/-- A REUSE entry whose buffer index 1 is past the end of `ex_reuse`. -/
def ex_entry_out_of_range : GraphParamMapLoadDesc :=
  { offset_in_map := 4, load_type := PARAM_MAP_LOAD_TYPE_REUSE, buf_type := 0,
    ref_section_iter := 1, ref_sub_section_iter := 0, sub_section_offset := 0,
    addr_mask := 4294967295 }

/-- Section-type values used by the remap example. -/
def ex_ids : SectionTypeIds :=
  { SECTION_TYPE_RODATA := 0, SECTION_TYPE_DESCRIPTOR := 1, SECTION_TYPE_TEXT := 3 }

/-- A remap entry: the pointer slot at rodata offset 8 receives the address
of text offset 4. -/
def ex_remap : RemapEntry :=
  { type := 0, next_addr_entry_offset := 8, next_type := 3, next_offset := 4 }

/-- Two tensor descriptors carved from per-job buffer 0. -/
def ex_desc : List GraphIOTensorDesc :=
  [{ id := 0, size := 16, data_type := 2, ref_section_iter := 0, offset_in_section := 0 },
   { id := 1, size := 32, data_type := 3, ref_section_iter := 0, offset_in_section := 64 }]

/-- An input binding in ordinary device memory. -/
def ex_iobuf : JobIOBuffer := JobIOBuffer.init 0 4 0 4096 4096 0

/-- An input binding backed by the shared DMA buffer behind descriptor 3. -/
def ex_iobuf_dma : JobIOBuffer :=
  { id := 0, size := 4, type := 0, pa := 4096, align_asid_pa := 4096, ref_section_iter := 0,
    dmabuf_fd := 3, dmabuf_size := 4096, offset_in_dmabuf := 0, dump_ignore_flag := false }

/-- A job with the given status and the given input bindings, and no other
tensors. -/
def ex_job (status : aipu_job_status_t) (inputs : List JobIOBuffer) : JobBase :=
  { m_status := status, m_inputs := inputs, m_outputs := [], m_inter_dumps := [],
    m_profiler := [], m_printf := [], m_layer_counter := [], m_err_code := [],
    m_segmmus := [], m_outputs_shape := [] }

/-- An environment with zeroed device memory and zeroed shared buffers, in which
every `mmap` has the given outcome. -/
def ex_env (map_ok : Bool) : TensorEnv :=
  { mem := fun _ => 0, mmap_ok := fun _ _ => map_ok, dmabuf := fun _ _ => 0 }

/-- A caller buffer filled with the byte 171. -/
def ex_data : Mem := fun _ => 171

/-- A job with the given status whose input 0 and output 0 are both backed by
the shared DMA buffer behind descriptor 3. -/
def ex_job_dma (status : aipu_job_status_t) : JobBase :=
  { ex_job status [ex_iobuf_dma] with m_outputs := [ex_iobuf_dma] }

/-- A job with id 7, the given status, a registered completion callback and the
given number of executable subgraphs. -/
def ex_job_cb (status : aipu_job_status_t) (subgraph_cnt : Nat) : JobBase :=
  { ex_job status [] with m_id := 7, m_job_cb := true, m_subgraph_cnt := subgraph_cnt }

/-- A device reply: the call succeeded, stored no record and left the job with
the given status. -/
def ex_dev (status : aipu_job_status_t) : DevReply :=
  { ret := AIPU_STATUS_SUCCESS, jobs_status := [], m_status := status }

/-- A job table that knows the single job id 7, behind pointer 0. -/
def ex_get_job : Nat → Option Nat := fun id => if id = 7 then some 0 else none

/-- Job objects: behind every pointer, the job `ex_job_cb status 1`. -/
def ex_jobs (status : aipu_job_status_t) : Nat → JobBase := fun _ => ex_job_cb status 1

/-- A completion record: job 7 is done. -/
def ex_record : aipu_job_status_desc := { job_id := 7, state := AIPU_JOB_STATUS_DONE }

/-- A section whose bytes are all zero, of the given size. -/
def ex_section (size : Nat) : BinSection := { va := fun _ => 0, size := size }

/-- A graph with nothing set. -/
def ex_graph : Graph :=
  { const_size := 0, zerocpy_const_size := 0, m_bglobalparam := ex_section 0,
    m_dynamic_shape := false, m_input_shape_constraint := [], m_input_shape_threshhold := [] }

/-- A section made of the given 32-bit words, little-endian, and four times as
many bytes. -/
def ex_words (ws : List Nat) : BinSection :=
  { va := fun a => (ws.getD (a / 4) 0 / 256 ^ (a % 4)) % 256, size := 4 * ws.length }

/-- A bitmap with every group id taken. -/
def ex_bitmap : Nat → Bool := fun _ => true

/-- A simulator in shared-pool mode with nothing discovered yet, in which only
cluster 1 is present (configuration register 0xC20) while the control registers
of clusters 0 and 1 (0xC04, 0xC24) both have the enable bit. -/
def ex_sim : SimulatorV3_1 :=
  { m_partition_mode := 1, m_partition_cnt := 0, m_part_caps := [], m_cluster_cnt := 0,
    m_core_cnt := 0,
    regs := fun a => if a = 0xC20 ∨ a = 0xC04 ∨ a = 0xC24 then 0x1000 else 0,
    reg_writes := [] }

/-- A simulator in shared-pool mode with nothing discovered yet, in which
clusters 0 and 1 are present (configuration registers 0xC00, 0xC20) and only
cluster 0 is enabled, with one core and two TECs (control register 0xC04). -/
def ex_sim_two : SimulatorV3_1 :=
  { m_partition_mode := 1, m_partition_cnt := 0, m_part_caps := [], m_cluster_cnt := 0,
    m_core_cnt := 0,
    regs := fun a => if a = 0xC00 ∨ a = 0xC20 then 0x1000 else if a = 0xC04 then 0x1102 else 0,
    reg_writes := [] }

/-! ## Memory lemmas -/

/-- A byte read from memory is below 256. -/
theorem Mem.read8_lt (m : Mem) (a : Nat) : m.read8 a < 256 :=
  Nat.mod_lt _ (by decide)

/-- A word read from memory fits 32 bits. -/
theorem Mem.read32_lt (m : Mem) (a : Nat) : m.read32 a < 2 ^ 32 := by
  have h0 := m.read8_lt a
  have h1 := m.read8_lt (a + 1)
  have h2 := m.read8_lt (a + 2)
  have h3 := m.read8_lt (a + 3)
  unfold Mem.read32
  omega

/-- Reading back the field just written gives the low 32 bits of the value. -/
theorem Mem.read32_write32_same (m : Mem) (a v : Nat) :
    (m.write32 a v).read32 a = v % 2 ^ 32 := by
  simp only [Mem.read32, Mem.write32, Mem.read8, Mem.write8]
  simp
  omega

/-- A 32-bit store changes no byte outside its 4-byte field. -/
theorem Mem.write32_other (m : Mem) (a v x : Nat) (h : x < a ∨ a + 4 ≤ x) :
    (m.write32 a v) x = m x := by
  simp only [Mem.write32, Mem.write8]
  have h0 : x ≠ a := by omega
  have h1 : x ≠ a + 1 := by omega
  have h2 : x ≠ a + 2 := by omega
  have h3 : x ≠ a + 3 := by omega
  simp [h0, h1, h2, h3]

/-! ## Lemmas on `setup_rodata` -/

/-- The complement of a `uint32_t` fits 32 bits. -/
theorem not32_lt (x : Nat) : not32 x < 2 ^ 32 := by
  unfold not32; omega

/-- The combined word fits 32 bits when the source address does. -/
theorem rodata_finl_val_lt (s k i : Nat) (hs : s < 2 ^ 32) :
    rodata_finl_val s k i < 2 ^ 32 := by
  unfold rodata_finl_val
  apply Nat.or_lt_two_pow
  · exact Nat.lt_of_le_of_lt Nat.and_le_left hs
  · exact Nat.and_lt_two_pow _ (not32_lt k)

/-- The source address computed by `setup_rodata` fits 32 bits. -/
theorem rodata_sub_sec_pa_32_lt {reuse_buf static_buf : List BufferDesc}
    {p : GraphParamMapLoadDesc} {s : Nat}
    (h : rodata_sub_sec_pa_32 reuse_buf static_buf p = some s) : s < 2 ^ 32 := by
  unfold rodata_sub_sec_pa_32 get_low_32 at h
  split_ifs at h <;> simp at h <;> omega

/-- With an empty mask the combined word is the old field. -/
theorem rodata_finl_val_mask_zero (s i : Nat) (hi : i < 2 ^ 32) :
    rodata_finl_val s 0 i = i := by
  unfold rodata_finl_val not32
  simp
  have : (4294967295 : Nat) = 2 ^ 32 - 1 := by norm_num
  rw [this, Nat.and_pow_two_sub_one_of_lt_two_pow hi]

/-- With a full mask the combined word is the source address. -/
theorem rodata_finl_val_mask_full (s i : Nat) (hs : s < 2 ^ 32) :
    rodata_finl_val s 4294967295 i = s := by
  unfold rodata_finl_val not32
  simp
  have : (4294967295 : Nat) = 2 ^ 32 - 1 := by norm_num
  rw [this, Nat.and_pow_two_sub_one_of_lt_two_pow hs]

/-- One iteration on an entry that the filter passes over. -/
theorem setup_rodata_loop_cons_skipped (reuse_buf static_buf : List BufferDesc)
    (rodata : BufferDesc) (ro_va : Nat) (dcr_va : Option Nat) (f : Option (List Nat))
    (p : GraphParamMapLoadDesc) (ps : List GraphParamMapLoadDesc) (m : Mem)
    (h : rodata_skipped f p = true) :
    setup_rodata_loop reuse_buf static_buf rodata ro_va dcr_va f (p :: ps) m =
      setup_rodata_loop reuse_buf static_buf rodata ro_va dcr_va f ps m := by
  simp [setup_rodata_loop, h]

/-- One iteration on an entry whose bounds check fails. -/
theorem setup_rodata_loop_cons_failed (reuse_buf static_buf : List BufferDesc)
    (rodata : BufferDesc) (ro_va : Nat) (dcr_va : Option Nat) (f : Option (List Nat))
    (p : GraphParamMapLoadDesc) (ps : List GraphParamMapLoadDesc) (m : Mem)
    (h : rodata_skipped f p = false) (hs : rodata_sub_sec_pa_32 reuse_buf static_buf p = none) :
    setup_rodata_loop reuse_buf static_buf rodata ro_va dcr_va f (p :: ps) m =
      (some AIPU_STATUS_ERROR_INVALID_SIZE, m) := by
  simp [setup_rodata_loop, h, hs]

/-- One iteration on an in-range entry whose destination is computed from the
null descriptor pointer: the call does not return. -/
theorem setup_rodata_loop_cons_faulted (reuse_buf static_buf : List BufferDesc)
    (rodata : BufferDesc) (ro_va : Nat) (dcr_va : Option Nat) (f : Option (List Nat))
    (p : GraphParamMapLoadDesc) (ps : List GraphParamMapLoadDesc) (m : Mem) (s : Nat)
    (h : rodata_skipped f p = false) (hs : rodata_sub_sec_pa_32 reuse_buf static_buf p = some s)
    (he : rodata_entry ro_va dcr_va rodata p = none) :
    setup_rodata_loop reuse_buf static_buf rodata ro_va dcr_va f (p :: ps) m = (none, m) := by
  simp [setup_rodata_loop, h, hs, he]

/-- One iteration on an entry that is patched. -/
theorem setup_rodata_loop_cons_patched (reuse_buf static_buf : List BufferDesc)
    (rodata : BufferDesc) (ro_va : Nat) (dcr_va : Option Nat) (f : Option (List Nat))
    (p : GraphParamMapLoadDesc) (ps : List GraphParamMapLoadDesc) (m : Mem) (s e : Nat)
    (h : rodata_skipped f p = false) (hs : rodata_sub_sec_pa_32 reuse_buf static_buf p = some s)
    (he : rodata_entry ro_va dcr_va rodata p = some e) :
    setup_rodata_loop reuse_buf static_buf rodata ro_va dcr_va f (p :: ps) m =
      setup_rodata_loop reuse_buf static_buf rodata ro_va dcr_va f ps
        (m.write32 e (rodata_finl_val s p.addr_mask (m.read32 e))) := by
  simp [setup_rodata_loop, h, hs, he]

/-- The loop over a concatenation: the second part runs on the memory left by
the first when the first succeeds, and is not reached otherwise. -/
theorem setup_rodata_loop_append (reuse_buf static_buf : List BufferDesc) (rodata : BufferDesc)
    (ro_va : Nat) (dcr_va : Option Nat) (f : Option (List Nat))
    (pre post : List GraphParamMapLoadDesc) (m : Mem) :
    setup_rodata_loop reuse_buf static_buf rodata ro_va dcr_va f (pre ++ post) m =
      if (setup_rodata_loop reuse_buf static_buf rodata ro_va dcr_va f pre m).1
          = some AIPU_STATUS_SUCCESS then
        setup_rodata_loop reuse_buf static_buf rodata ro_va dcr_va f post
          (setup_rodata_loop reuse_buf static_buf rodata ro_va dcr_va f pre m).2
      else setup_rodata_loop reuse_buf static_buf rodata ro_va dcr_va f pre m := by
  induction pre generalizing m with
  | nil => simp [setup_rodata_loop]
  | cons p ps ih =>
    rw [List.cons_append]
    cases hk : rodata_skipped f p with
    | true =>
      rw [setup_rodata_loop_cons_skipped _ _ _ _ _ _ _ _ _ hk,
        setup_rodata_loop_cons_skipped _ _ _ _ _ _ _ _ _ hk]
      exact ih m
    | false =>
      cases hs : rodata_sub_sec_pa_32 reuse_buf static_buf p with
      | none =>
        rw [setup_rodata_loop_cons_failed _ _ _ _ _ _ _ _ _ hk hs,
          setup_rodata_loop_cons_failed _ _ _ _ _ _ _ _ _ hk hs]
        simp
      | some s =>
        cases he : rodata_entry ro_va dcr_va rodata p with
        | none =>
          rw [setup_rodata_loop_cons_faulted _ _ _ _ _ _ _ _ _ _ hk hs he,
            setup_rodata_loop_cons_faulted _ _ _ _ _ _ _ _ _ _ hk hs he]
          simp
        | some e =>
          rw [setup_rodata_loop_cons_patched _ _ _ _ _ _ _ _ _ _ _ hk hs he,
            setup_rodata_loop_cons_patched _ _ _ _ _ _ _ _ _ _ _ hk hs he]
          exact ih _

/-- Without a filter no entry is passed over. -/
theorem rodata_skipped_none (p : GraphParamMapLoadDesc) : rodata_skipped none p = false := rfl

/-- With a filter, the entries not passed over are the REUSE entries whose index
is in it. -/
theorem rodata_skipped_some_iff (s : List Nat) (p : GraphParamMapLoadDesc) :
    rodata_skipped (some s) p = false ↔
      (p.load_type = PARAM_MAP_LOAD_TYPE_REUSE ∧ p.ref_section_iter ∈ s) := by
  simp [rodata_skipped, List.count_eq_zero]
  tauto

/-- The bounds check fails exactly on a REUSE or STATIC entry whose index is past
the end of its buffer vector. -/
theorem rodata_sub_sec_pa_32_none_iff (reuse_buf static_buf : List BufferDesc)
    (p : GraphParamMapLoadDesc) :
    rodata_sub_sec_pa_32 reuse_buf static_buf p = none ↔
      ((p.load_type = PARAM_MAP_LOAD_TYPE_REUSE ∧ reuse_buf.length ≤ p.ref_section_iter) ∨
       (p.load_type = PARAM_MAP_LOAD_TYPE_STATIC ∧ static_buf.length ≤ p.ref_section_iter)) := by
  unfold rodata_sub_sec_pa_32 PARAM_MAP_LOAD_TYPE_REUSE PARAM_MAP_LOAD_TYPE_STATIC
  split_ifs <;> simp <;> omega

/-- The descriptor pointer is null exactly when no descriptor buffer, or one of
size 0, is given. -/
theorem rodata_dcr_va_none_iff (pa_to_va : Nat → Nat → Nat) (dcr : Option BufferDesc) :
    rodata_dcr_va pa_to_va dcr = none ↔ (dcr = none ∨ ∃ d, dcr = some d ∧ d.size = 0) := by
  cases dcr with
  | none => simp [rodata_dcr_va]
  | some d =>
    by_cases h : d.size = 0 <;> simp [rodata_dcr_va, h]

/-- The pointer `entry` points into no buffer exactly when the map offset is in
the descriptor range and the descriptor pointer is null. -/
theorem rodata_entry_none_iff (ro_va : Nat) (dcr_va : Option Nat) (rodata : BufferDesc)
    (p : GraphParamMapLoadDesc) :
    rodata_entry ro_va dcr_va rodata p = none ↔
      (¬ p.offset_in_map < rodata.req_size ∧ dcr_va = none) := by
  unfold rodata_entry
  by_cases h : p.offset_in_map < rodata.req_size
  · simp [h]
  · cases dcr_va <;> simp [h]

/-- The loop returns one of two status codes or does not return. -/
theorem setup_rodata_loop_status (reuse_buf static_buf : List BufferDesc) (rodata : BufferDesc)
    (ro_va : Nat) (dcr_va : Option Nat) (f : Option (List Nat))
    (ps : List GraphParamMapLoadDesc) (m : Mem) :
    (setup_rodata_loop reuse_buf static_buf rodata ro_va dcr_va f ps m).1
      = some AIPU_STATUS_SUCCESS ∨
    (setup_rodata_loop reuse_buf static_buf rodata ro_va dcr_va f ps m).1
      = some AIPU_STATUS_ERROR_INVALID_SIZE ∨
    (setup_rodata_loop reuse_buf static_buf rodata ro_va dcr_va f ps m).1 = none := by
  induction ps generalizing m with
  | nil => left; rfl
  | cons p ps ih =>
    cases hk : rodata_skipped f p with
    | true =>
      rw [setup_rodata_loop_cons_skipped _ _ _ _ _ _ _ _ _ hk]
      exact ih m
    | false =>
      cases hs : rodata_sub_sec_pa_32 reuse_buf static_buf p with
      | none =>
        rw [setup_rodata_loop_cons_failed _ _ _ _ _ _ _ _ _ hk hs]
        right; left; rfl
      | some v =>
        cases he : rodata_entry ro_va dcr_va rodata p with
        | none =>
          rw [setup_rodata_loop_cons_faulted _ _ _ _ _ _ _ _ _ _ hk hs he]
          right; right; rfl
        | some e =>
          rw [setup_rodata_loop_cons_patched _ _ _ _ _ _ _ _ _ _ _ hk hs he]
          exact ih _

/-- The loop succeeds exactly when no entry that the filter lets through is
out of range or has its destination behind the null descriptor pointer; the
invalid-size error comes from an out-of-range entry, a call that does not
return from an in-range entry with such a destination. -/
theorem setup_rodata_loop_outcome (reuse_buf static_buf : List BufferDesc) (rodata : BufferDesc)
    (ro_va : Nat) (dcr_va : Option Nat) (f : Option (List Nat))
    (ps : List GraphParamMapLoadDesc) (m : Mem) :
    ((setup_rodata_loop reuse_buf static_buf rodata ro_va dcr_va f ps m).1
        = some AIPU_STATUS_SUCCESS ↔
      ¬ ∃ p ∈ ps, rodata_skipped f p = false ∧
        (rodata_sub_sec_pa_32 reuse_buf static_buf p = none ∨
          rodata_entry ro_va dcr_va rodata p = none)) ∧
    ((setup_rodata_loop reuse_buf static_buf rodata ro_va dcr_va f ps m).1
        = some AIPU_STATUS_ERROR_INVALID_SIZE →
      ∃ p ∈ ps, rodata_skipped f p = false ∧
        rodata_sub_sec_pa_32 reuse_buf static_buf p = none) ∧
    ((setup_rodata_loop reuse_buf static_buf rodata ro_va dcr_va f ps m).1 = none →
      ∃ p ∈ ps, rodata_skipped f p = false ∧
        rodata_sub_sec_pa_32 reuse_buf static_buf p ≠ none ∧
        rodata_entry ro_va dcr_va rodata p = none) := by
  induction ps generalizing m with
  | nil => simp [setup_rodata_loop]
  | cons p ps ih =>
    cases hk : rodata_skipped f p with
    | true =>
      rw [setup_rodata_loop_cons_skipped _ _ _ _ _ _ _ _ _ hk]
      obtain ⟨h1, h2, h3⟩ := ih m
      refine ⟨?_, ?_, ?_⟩
      · rw [h1]; simp [hk]
      · intro h
        obtain ⟨q, hq, hq1⟩ := h2 h
        exact ⟨q, List.mem_cons_of_mem _ hq, hq1⟩
      · intro h
        obtain ⟨q, hq, hq1⟩ := h3 h
        exact ⟨q, List.mem_cons_of_mem _ hq, hq1⟩
    | false =>
      cases hs : rodata_sub_sec_pa_32 reuse_buf static_buf p with
      | none =>
        rw [setup_rodata_loop_cons_failed _ _ _ _ _ _ _ _ _ hk hs]
        refine ⟨?_, ?_, ?_⟩
        · simp only [Option.some.injEq, reduceCtorEq, false_iff, not_not]
          exact ⟨p, List.mem_cons_self _ _, hk, Or.inl hs⟩
        · intro _
          exact ⟨p, List.mem_cons_self _ _, hk, hs⟩
        · intro h; simp at h
      | some v =>
        cases he : rodata_entry ro_va dcr_va rodata p with
        | none =>
          rw [setup_rodata_loop_cons_faulted _ _ _ _ _ _ _ _ _ _ hk hs he]
          refine ⟨?_, ?_, ?_⟩
          · simp only [reduceCtorEq, false_iff, not_not]
            exact ⟨p, List.mem_cons_self _ _, hk, Or.inr he⟩
          · intro h; simp at h
          · intro _
            exact ⟨p, List.mem_cons_self _ _, hk, by rw [hs]; simp, he⟩
        | some e =>
          rw [setup_rodata_loop_cons_patched _ _ _ _ _ _ _ _ _ _ _ hk hs he]
          obtain ⟨h1, h2, h3⟩ := ih (m.write32 e (rodata_finl_val v p.addr_mask (m.read32 e)))
          refine ⟨?_, ?_, ?_⟩
          · rw [h1]; simp [hk, hs, he]
          · intro h
            obtain ⟨q, hq, hq1⟩ := h2 h
            exact ⟨q, List.mem_cons_of_mem _ hq, hq1⟩
          · intro h
            obtain ⟨q, hq, hq1⟩ := h3 h
            exact ⟨q, List.mem_cons_of_mem _ hq, hq1⟩

/-! ## Claims on `setup_rodata` -/

/-- Claim C1: when `setup_rodata` patches an entry `p` (not passed over by the
filter, buffer index in range, so that the source address `src` is defined, and
with a destination `dest` in the rodata or descriptor mapping) after the
entries `pre` before it have been bound, the call still succeeds and the 32-bit
field at `dest` holds `(src & addr_mask) | (old & ~addr_mask)`, where `old` is
the field as it was just before the write; with `addr_mask = 0` the field is
unchanged and with `addr_mask = 0xFFFFFFFF` it equals the source address. An
entry whose destination is computed from the null descriptor pointer is not
patched: the call does not return and the memory stays as the entries before
it left it. -/
theorem setup_rodata_patched_field_value (pa_to_va : Nat → Nat → Nat)
    (pre : List GraphParamMapLoadDesc) (p : GraphParamMapLoadDesc)
    (reuse_buf static_buf : List BufferDesc) (rodata : BufferDesc) (dcr : Option BufferDesc)
    (dma_buf_idx : Option (List Nat)) (m m1 : Mem) (src : Nat)
    (hpre : setup_rodata pa_to_va pre reuse_buf static_buf rodata dcr dma_buf_idx m
      = (some AIPU_STATUS_SUCCESS, m1))
    (hk : rodata_skipped dma_buf_idx p = false)
    (hs : rodata_sub_sec_pa_32 reuse_buf static_buf p = some src) :
    (∀ dest : Nat,
      rodata_entry (pa_to_va rodata.pa rodata.size) (rodata_dcr_va pa_to_va dcr) rodata p
        = some dest →
      (setup_rodata pa_to_va (pre ++ [p]) reuse_buf static_buf rodata dcr dma_buf_idx m).1
        = some AIPU_STATUS_SUCCESS ∧
      ((setup_rodata pa_to_va (pre ++ [p]) reuse_buf static_buf rodata dcr dma_buf_idx m).2).read32
          dest = (src &&& p.addr_mask) ||| (m1.read32 dest &&& not32 p.addr_mask) ∧
      (p.addr_mask = 0 →
        ((setup_rodata pa_to_va (pre ++ [p]) reuse_buf static_buf rodata dcr dma_buf_idx
          m).2).read32 dest = m1.read32 dest) ∧
      (p.addr_mask = 4294967295 →
        ((setup_rodata pa_to_va (pre ++ [p]) reuse_buf static_buf rodata dcr dma_buf_idx
          m).2).read32 dest = src)) ∧
    (rodata_entry (pa_to_va rodata.pa rodata.size) (rodata_dcr_va pa_to_va dcr) rodata p = none →
      setup_rodata pa_to_va (pre ++ [p]) reuse_buf static_buf rodata dcr dma_buf_idx m
        = (none, m1)) := by
  unfold setup_rodata at hpre ⊢
  rw [setup_rodata_loop_append, hpre]
  simp only [if_true]
  constructor
  · intro dest he
    rw [setup_rodata_loop_cons_patched _ _ _ _ _ _ _ _ _ _ _ hk hs he]
    simp only [setup_rodata_loop]
    have hsl := rodata_sub_sec_pa_32_lt hs
    have key := Mem.read32_write32_same m1 dest
      (rodata_finl_val src p.addr_mask (m1.read32 dest))
    rw [Nat.mod_eq_of_lt (rodata_finl_val_lt _ _ _ hsl)] at key
    refine ⟨trivial, ?_, ?_, ?_⟩
    · rw [key]; rfl
    · intro h0
      rw [key, h0, rodata_finl_val_mask_zero _ _ (Mem.read32_lt _ _)]
    · intro h1
      rw [key, h1, rodata_finl_val_mask_full _ _ hsl]
  · intro he
    rw [setup_rodata_loop_cons_faulted _ _ _ _ _ _ _ _ _ _ hk hs he]

/-- Worked instance of C1: after the REUSE entry of the example, the STATIC
entry with mask `0xFFFFF000` puts `16416 & 0xFFFFF000 = 16384` into the
descriptor field at address 12292, which held 0. -/
theorem setup_rodata_patched_field_value_witness :
    setup_rodata ex_pa_to_va [ex_entry_reuse] ex_reuse ex_static ex_rodata (some ex_dcr) none
        ex_mem = (some AIPU_STATUS_SUCCESS, ex_mem.write32 4096 8208) ∧
    rodata_skipped none ex_entry_static = false ∧
    rodata_sub_sec_pa_32 ex_reuse ex_static ex_entry_static = some 16416 ∧
    rodata_entry (ex_pa_to_va ex_rodata.pa ex_rodata.size)
        (rodata_dcr_va ex_pa_to_va (some ex_dcr)) ex_rodata ex_entry_static = some 12292 ∧
    ((setup_rodata ex_pa_to_va ([ex_entry_reuse] ++ [ex_entry_static]) ex_reuse ex_static
        ex_rodata (some ex_dcr) none ex_mem).2).read32 12292
      = (16416 &&& ex_entry_static.addr_mask) |||
        ((ex_mem.write32 4096 8208).read32 12292 &&& not32 ex_entry_static.addr_mask) :=
  ⟨rfl, rfl, rfl, rfl,
    ((setup_rodata_patched_field_value ex_pa_to_va [ex_entry_reuse] ex_entry_static ex_reuse
      ex_static ex_rodata (some ex_dcr) none ex_mem (ex_mem.write32 4096 8208) 16416
      rfl rfl rfl).1 12292 rfl).2.1⟩

/-- Counterexample to C2 as stated: the STATIC entry of the example has map
offset 68, not below the 64 bytes of rodata, and is neither passed over nor out
of range; when no descriptor buffer is given, or one of size 0, its destination
lies in no buffer (the pointer is computed from the null `dcr_va`) and the call
does not return. The two cases of the claim do not cover it. -/
theorem setup_rodata_descriptor_entry_without_descriptor :
    ¬ ex_entry_static.offset_in_map < ex_rodata.req_size ∧
    rodata_skipped none ex_entry_static = false ∧
    rodata_sub_sec_pa_32 ex_reuse ex_static ex_entry_static = some 16416 ∧
    rodata_entry (ex_pa_to_va ex_rodata.pa ex_rodata.size) (rodata_dcr_va ex_pa_to_va none)
      ex_rodata ex_entry_static = none ∧
    (setup_rodata ex_pa_to_va [ex_entry_static] ex_reuse ex_static ex_rodata none none
      ex_mem).1 = none ∧
    rodata_entry (ex_pa_to_va ex_rodata.pa ex_rodata.size)
      (rodata_dcr_va ex_pa_to_va (some { ex_dcr with size := 0 })) ex_rodata ex_entry_static
      = none ∧
    (setup_rodata ex_pa_to_va [ex_entry_static] ex_reuse ex_static ex_rodata
      (some { ex_dcr with size := 0 }) none ex_mem).1 = none := by
  decide

/-- Claim C2, amended: for an entry `p` that `setup_rodata` reaches after the
entries `pre` (not passed over by the filter, buffer index in range) there are
three cases. When `offset_in_map < rodata.req_size` the call writes one 32-bit
word at byte offset `offset_in_map` of the rodata mapping. Otherwise, when a
descriptor buffer of non-zero size is given, it writes one 32-bit word at byte
offset `offset_in_map - rodata.req_size` of the descriptor mapping. In both
cases no byte outside the 4-byte field changes and the call succeeds.
Otherwise, with no descriptor buffer or one of size 0, the entry has no
destination and the call does not return; the memory stays as the entries
before it left it. -/
theorem setup_rodata_destination_by_offset_and_descriptor (pa_to_va : Nat → Nat → Nat)
    (pre : List GraphParamMapLoadDesc) (p : GraphParamMapLoadDesc)
    (reuse_buf static_buf : List BufferDesc) (rodata : BufferDesc) (dcr : Option BufferDesc)
    (dma_buf_idx : Option (List Nat)) (m m1 : Mem) (src : Nat)
    (hpre : setup_rodata pa_to_va pre reuse_buf static_buf rodata dcr dma_buf_idx m
      = (some AIPU_STATUS_SUCCESS, m1))
    (hk : rodata_skipped dma_buf_idx p = false)
    (hs : rodata_sub_sec_pa_32 reuse_buf static_buf p = some src) :
    (p.offset_in_map < rodata.req_size →
      ∃ v : Nat,
        setup_rodata pa_to_va (pre ++ [p]) reuse_buf static_buf rodata dcr dma_buf_idx m
          = (some AIPU_STATUS_SUCCESS,
              m1.write32 (pa_to_va rodata.pa rodata.size + p.offset_in_map) v) ∧
        ∀ x, x < pa_to_va rodata.pa rodata.size + p.offset_in_map ∨
            pa_to_va rodata.pa rodata.size + p.offset_in_map + 4 ≤ x →
          (m1.write32 (pa_to_va rodata.pa rodata.size + p.offset_in_map) v) x = m1 x) ∧
    (∀ d : BufferDesc, ¬ p.offset_in_map < rodata.req_size → dcr = some d → d.size ≠ 0 →
      ∃ v : Nat,
        setup_rodata pa_to_va (pre ++ [p]) reuse_buf static_buf rodata dcr dma_buf_idx m
          = (some AIPU_STATUS_SUCCESS,
              m1.write32 (pa_to_va d.pa d.size + (p.offset_in_map - rodata.req_size)) v) ∧
        ∀ x, x < pa_to_va d.pa d.size + (p.offset_in_map - rodata.req_size) ∨
            pa_to_va d.pa d.size + (p.offset_in_map - rodata.req_size) + 4 ≤ x →
          (m1.write32 (pa_to_va d.pa d.size + (p.offset_in_map - rodata.req_size)) v) x
            = m1 x) ∧
    (¬ p.offset_in_map < rodata.req_size → (dcr = none ∨ ∃ d, dcr = some d ∧ d.size = 0) →
      rodata_entry (pa_to_va rodata.pa rodata.size) (rodata_dcr_va pa_to_va dcr) rodata p
        = none ∧
      setup_rodata pa_to_va (pre ++ [p]) reuse_buf static_buf rodata dcr dma_buf_idx m
        = (none, m1)) := by
  have hrun : ∀ e : Nat,
      rodata_entry (pa_to_va rodata.pa rodata.size) (rodata_dcr_va pa_to_va dcr) rodata p
        = some e →
      setup_rodata pa_to_va (pre ++ [p]) reuse_buf static_buf rodata dcr dma_buf_idx m
        = (some AIPU_STATUS_SUCCESS,
            m1.write32 e (rodata_finl_val src p.addr_mask (m1.read32 e))) := by
    intro e he
    unfold setup_rodata at hpre ⊢
    rw [setup_rodata_loop_append, hpre]
    simp only [if_true]
    rw [setup_rodata_loop_cons_patched _ _ _ _ _ _ _ _ _ _ _ hk hs he]
    rfl
  refine ⟨?_, ?_, ?_⟩
  · intro h
    refine ⟨_, hrun _ (by simp [rodata_entry, h]), ?_⟩
    intro x hx
    exact Mem.write32_other _ _ _ _ hx
  · intro d h hd hsz
    have he : rodata_entry (pa_to_va rodata.pa rodata.size) (rodata_dcr_va pa_to_va dcr)
        rodata p = some (pa_to_va d.pa d.size + (p.offset_in_map - rodata.req_size)) := by
      simp only [rodata_entry, if_neg h, rodata_dcr_va, hd, hsz, ne_eq, not_false_eq_true,
        if_true, Option.some.injEq]
      omega
    refine ⟨_, hrun _ he, ?_⟩
    intro x hx
    exact Mem.write32_other _ _ _ _ hx
  · intro h hd
    have he : rodata_entry (pa_to_va rodata.pa rodata.size) (rodata_dcr_va pa_to_va dcr)
        rodata p = none :=
      (rodata_entry_none_iff _ _ _ _).mpr ⟨h, (rodata_dcr_va_none_iff _ _).mpr hd⟩
    refine ⟨he, ?_⟩
    unfold setup_rodata at hpre ⊢
    rw [setup_rodata_loop_append, hpre]
    simp only [if_true]
    rw [setup_rodata_loop_cons_faulted _ _ _ _ _ _ _ _ _ _ hk hs he]

/-- Worked instance of amended C2: the STATIC entry of the example has map
offset 68, past the 64 bytes of rodata, so with the descriptor buffer mapped at
12288 its field is at offset 4 of that buffer. -/
theorem setup_rodata_destination_by_offset_and_descriptor_witness :
    setup_rodata ex_pa_to_va [ex_entry_reuse] ex_reuse ex_static ex_rodata (some ex_dcr) none
        ex_mem = (some AIPU_STATUS_SUCCESS, ex_mem.write32 4096 8208) ∧
    rodata_skipped none ex_entry_static = false ∧
    rodata_sub_sec_pa_32 ex_reuse ex_static ex_entry_static = some 16416 ∧
    ¬ ex_entry_static.offset_in_map < ex_rodata.req_size ∧
    ex_dcr.size ≠ 0 ∧
    ∃ v : Nat,
      setup_rodata ex_pa_to_va ([ex_entry_reuse] ++ [ex_entry_static]) ex_reuse ex_static
        ex_rodata (some ex_dcr) none ex_mem
        = (some AIPU_STATUS_SUCCESS,
            (ex_mem.write32 4096 8208).write32
              (ex_pa_to_va ex_dcr.pa ex_dcr.size
                + (ex_entry_static.offset_in_map - ex_rodata.req_size)) v) :=
  ⟨rfl, rfl, rfl, by decide, by decide,
    let ⟨v, h1, _⟩ :=
      (setup_rodata_destination_by_offset_and_descriptor ex_pa_to_va [ex_entry_reuse]
        ex_entry_static ex_reuse ex_static ex_rodata (some ex_dcr) none ex_mem
        (ex_mem.write32 4096 8208) 16416 rfl rfl rfl).2.1 ex_dcr (by decide) rfl (by decide)
    ⟨v, h1⟩⟩

/-- Claim C3: in `setup_rodata` the source address of a REUSE entry and of a
STATIC entry is the same computation against the respective buffer vector:
with an in-range `ref_section_iter`, both load types yield
`(align_asid_pa + sub_section_offset) mod 2^32` of the indexed buffer, for
every `align_asid_pa` and `sub_section_offset` (the REUSE path adds to the low
32 bits with 32-bit wrap-around, the STATIC path takes the low 32 bits of the
64-bit sum). -/
theorem setup_rodata_source_address_same_computation (reuse_buf static_buf : List BufferDesc)
    (p : GraphParamMapLoadDesc) :
    (p.load_type = PARAM_MAP_LOAD_TYPE_REUSE → p.ref_section_iter < reuse_buf.length →
      rodata_sub_sec_pa_32 reuse_buf static_buf p =
        some (((reuse_buf.getD p.ref_section_iter default).align_asid_pa
          + p.sub_section_offset) % 2 ^ 32)) ∧
    (p.load_type = PARAM_MAP_LOAD_TYPE_STATIC → p.ref_section_iter < static_buf.length →
      rodata_sub_sec_pa_32 reuse_buf static_buf p =
        some (((static_buf.getD p.ref_section_iter default).align_asid_pa
          + p.sub_section_offset) % 2 ^ 32)) := by
  constructor
  · intro ht hr
    simp only [rodata_sub_sec_pa_32, ht, if_true, if_neg (Nat.not_le.mpr hr), get_low_32]
    congr 1
    omega
  · intro ht hr
    have hne : ¬ p.load_type = PARAM_MAP_LOAD_TYPE_REUSE := by
      rw [ht]; decide
    unfold rodata_sub_sec_pa_32
    rw [if_neg hne, if_pos ht, if_neg (Nat.not_le.mpr hr)]
    simp only [get_low_32]
    congr 1
    omega

/-- Worked instance of C3: a buffer at ASID-relative address `2^32 - 8` and a
sub-section offset of 24 give the wrapped address 16 on the REUSE path and on
the STATIC path alike. -/
theorem setup_rodata_source_address_same_computation_witness :
    rodata_sub_sec_pa_32
        [{ pa := 0, size := 64, req_size := 64, asid_base := 0, align_asid_pa := 4294967288 }]
        [{ pa := 0, size := 64, req_size := 64, asid_base := 0, align_asid_pa := 4294967288 }]
        { offset_in_map := 0, load_type := PARAM_MAP_LOAD_TYPE_REUSE, buf_type := 0,
          ref_section_iter := 0, ref_sub_section_iter := 0, sub_section_offset := 24,
          addr_mask := 4294967295 } = some ((4294967288 + 24) % 2 ^ 32) ∧
    rodata_sub_sec_pa_32
        [{ pa := 0, size := 64, req_size := 64, asid_base := 0, align_asid_pa := 4294967288 }]
        [{ pa := 0, size := 64, req_size := 64, asid_base := 0, align_asid_pa := 4294967288 }]
        { offset_in_map := 0, load_type := PARAM_MAP_LOAD_TYPE_STATIC, buf_type := 0,
          ref_section_iter := 0, ref_sub_section_iter := 0, sub_section_offset := 24,
          addr_mask := 4294967295 } = some ((4294967288 + 24) % 2 ^ 32) :=
  ⟨(setup_rodata_source_address_same_computation _ _ _).1 rfl (by decide),
   (setup_rodata_source_address_same_computation _ _ _).2 rfl (by decide)⟩

/-- Claim C4: with a DMA-buffer-index filter `s`, `setup_rodata` does exactly
what the unfiltered call does on the sub-list of REUSE entries whose
`ref_section_iter` is in `s`, so only those entries are patched; and an entry
that is not such (a STATIC entry, or a REUSE entry whose index is not in `s`)
can be removed from the map without changing the returned status or any byte
of memory: its field is left untouched and no bounds check is made on it. -/
theorem setup_rodata_filter_patches_only_reuse_members (pa_to_va : Nat → Nat → Nat)
    (reuse_buf static_buf : List BufferDesc) (rodata : BufferDesc) (dcr : Option BufferDesc)
    (s : List Nat) (m : Mem) :
    (∀ param_map : List GraphParamMapLoadDesc,
      setup_rodata pa_to_va param_map reuse_buf static_buf rodata dcr (some s) m =
        setup_rodata pa_to_va
          (param_map.filter (fun p =>
            p.load_type = PARAM_MAP_LOAD_TYPE_REUSE ∧ p.ref_section_iter ∈ s))
          reuse_buf static_buf rodata dcr none m) ∧
    (∀ (pre post : List GraphParamMapLoadDesc) (p : GraphParamMapLoadDesc),
      ¬ (p.load_type = PARAM_MAP_LOAD_TYPE_REUSE ∧ p.ref_section_iter ∈ s) →
      setup_rodata pa_to_va (pre ++ p :: post) reuse_buf static_buf rodata dcr (some s) m =
        setup_rodata pa_to_va (pre ++ post) reuse_buf static_buf rodata dcr (some s) m) := by
  have key : ∀ (param_map : List GraphParamMapLoadDesc) (m : Mem),
      setup_rodata pa_to_va param_map reuse_buf static_buf rodata dcr (some s) m =
        setup_rodata pa_to_va
          (param_map.filter (fun p =>
            p.load_type = PARAM_MAP_LOAD_TYPE_REUSE ∧ p.ref_section_iter ∈ s))
          reuse_buf static_buf rodata dcr none m := by
    intro param_map
    unfold setup_rodata
    induction param_map with
    | nil => intro m; rfl
    | cons p ps ih =>
      intro m
      by_cases hsel : p.load_type = PARAM_MAP_LOAD_TYPE_REUSE ∧ p.ref_section_iter ∈ s
      · have hk : rodata_skipped (some s) p = false := (rodata_skipped_some_iff s p).mpr hsel
        rw [List.filter_cons_of_pos (by simpa using hsel)]
        cases hs : rodata_sub_sec_pa_32 reuse_buf static_buf p with
        | none =>
          rw [setup_rodata_loop_cons_failed _ _ _ _ _ _ _ _ _ hk hs,
            setup_rodata_loop_cons_failed _ _ _ _ _ _ _ _ _ (rodata_skipped_none p) hs]
        | some v =>
          cases he : rodata_entry (pa_to_va rodata.pa rodata.size)
              (rodata_dcr_va pa_to_va dcr) rodata p with
          | none =>
            rw [setup_rodata_loop_cons_faulted _ _ _ _ _ _ _ _ _ _ hk hs he,
              setup_rodata_loop_cons_faulted _ _ _ _ _ _ _ _ _ _ (rodata_skipped_none p) hs he]
          | some e =>
            rw [setup_rodata_loop_cons_patched _ _ _ _ _ _ _ _ _ _ _ hk hs he,
              setup_rodata_loop_cons_patched _ _ _ _ _ _ _ _ _ _ _ (rodata_skipped_none p) hs
                he]
            exact ih _
      · have hk : rodata_skipped (some s) p = true := by
          cases h : rodata_skipped (some s) p with
          | true => rfl
          | false => exact absurd ((rodata_skipped_some_iff s p).mp h) hsel
        rw [List.filter_cons_of_neg (by simpa using hsel),
          setup_rodata_loop_cons_skipped _ _ _ _ _ _ _ _ _ hk]
        exact ih m
  refine ⟨fun pm => key pm m, ?_⟩
  intro pre post p hsel
  rw [key, key (pre ++ post)]
  simp only [List.filter_append]
  rw [List.filter_cons_of_neg (by simpa using hsel)]

/-- Worked instance of C4: with the filter `[0]`, the STATIC entry of the
example is passed over. -/
theorem setup_rodata_filter_patches_only_reuse_members_witness :
    ¬ (ex_entry_static.load_type = PARAM_MAP_LOAD_TYPE_REUSE ∧
        ex_entry_static.ref_section_iter ∈ [0]) ∧
    setup_rodata ex_pa_to_va ([ex_entry_reuse] ++ ex_entry_static :: []) ex_reuse ex_static
        ex_rodata (some ex_dcr) (some [0]) ex_mem =
      setup_rodata ex_pa_to_va ([ex_entry_reuse] ++ []) ex_reuse ex_static ex_rodata
        (some ex_dcr) (some [0]) ex_mem :=
  ⟨by decide,
    (setup_rodata_filter_patches_only_reuse_members ex_pa_to_va ex_reuse ex_static ex_rodata
      (some ex_dcr) [0] ex_mem).2 [ex_entry_reuse] [] ex_entry_static (by decide)⟩

/-- Counterexample to C5 as stated: the map holds the single STATIC entry of
the example, whose buffer index 0 is in range, so no entry is out of range; its
map offset 68 is in the descriptor range and the descriptor buffer given has
size 0. The call returns neither `AIPU_STATUS_SUCCESS` nor the invalid-size
error: it does not return. -/
theorem setup_rodata_no_status_on_null_descriptor :
    ex_entry_static.load_type = PARAM_MAP_LOAD_TYPE_STATIC ∧
    ex_entry_static.ref_section_iter < ex_static.length ∧
    rodata_skipped none ex_entry_static = false ∧
    (setup_rodata ex_pa_to_va [ex_entry_static] ex_reuse ex_static ex_rodata
      (some { ex_dcr with size := 0 }) none ex_mem).1 ≠ some AIPU_STATUS_SUCCESS ∧
    (setup_rodata ex_pa_to_va [ex_entry_static] ex_reuse ex_static ex_rodata
      (some { ex_dcr with size := 0 }) none ex_mem).1 ≠ some AIPU_STATUS_ERROR_INVALID_SIZE ∧
    (setup_rodata ex_pa_to_va [ex_entry_static] ex_reuse ex_static ex_rodata
      (some { ex_dcr with size := 0 }) none ex_mem).1 = none := by
  decide

/-- Claim C5, amended. When every entry that the filter does not pass over has
its destination in the rodata buffer or in a descriptor buffer of non-zero
size, `setup_rodata` returns `AIPU_STATUS_ERROR_INVALID_SIZE` if and only if
some such entry has load type REUSE with `ref_section_iter >= reuse_buf.size()`
or load type STATIC with `ref_section_iter >= static_buf.size()`, and
`AIPU_STATUS_SUCCESS` if and only if there is none. In general the outcome is
that of the first entry, not passed over, that is out of range or has its
destination behind an absent descriptor buffer: the call returns
`AIPU_STATUS_SUCCESS` exactly when there is no such entry, the invalid-size
error when the first one is out of range, and it does not return when the
first one is in range. -/
theorem setup_rodata_status_by_first_stopping_entry (pa_to_va : Nat → Nat → Nat)
    (param_map : List GraphParamMapLoadDesc) (reuse_buf static_buf : List BufferDesc)
    (rodata : BufferDesc) (dcr : Option BufferDesc) (dma_buf_idx : Option (List Nat))
    (m : Mem) :
    ((∀ p ∈ param_map, rodata_skipped dma_buf_idx p = false →
        p.offset_in_map < rodata.req_size ∨ ∃ d, dcr = some d ∧ d.size ≠ 0) →
      ((setup_rodata pa_to_va param_map reuse_buf static_buf rodata dcr dma_buf_idx m).1
          = some AIPU_STATUS_ERROR_INVALID_SIZE ↔
        ∃ p ∈ param_map, rodata_skipped dma_buf_idx p = false ∧
          ((p.load_type = PARAM_MAP_LOAD_TYPE_REUSE ∧ reuse_buf.length ≤ p.ref_section_iter) ∨
           (p.load_type = PARAM_MAP_LOAD_TYPE_STATIC ∧
             static_buf.length ≤ p.ref_section_iter))) ∧
      ((setup_rodata pa_to_va param_map reuse_buf static_buf rodata dcr dma_buf_idx m).1
          = some AIPU_STATUS_SUCCESS ↔
        ¬ ∃ p ∈ param_map, rodata_skipped dma_buf_idx p = false ∧
          ((p.load_type = PARAM_MAP_LOAD_TYPE_REUSE ∧ reuse_buf.length ≤ p.ref_section_iter) ∨
           (p.load_type = PARAM_MAP_LOAD_TYPE_STATIC ∧
             static_buf.length ≤ p.ref_section_iter)))) ∧
    ((setup_rodata pa_to_va param_map reuse_buf static_buf rodata dcr dma_buf_idx m).1
        = some AIPU_STATUS_SUCCESS ↔
      ¬ ∃ p ∈ param_map, rodata_skipped dma_buf_idx p = false ∧
        (((p.load_type = PARAM_MAP_LOAD_TYPE_REUSE ∧ reuse_buf.length ≤ p.ref_section_iter) ∨
          (p.load_type = PARAM_MAP_LOAD_TYPE_STATIC ∧
            static_buf.length ≤ p.ref_section_iter)) ∨
         (¬ p.offset_in_map < rodata.req_size ∧
           (dcr = none ∨ ∃ d, dcr = some d ∧ d.size = 0)))) ∧
    (∀ (pre post : List GraphParamMapLoadDesc) (p : GraphParamMapLoadDesc),
      param_map = pre ++ p :: post →
      (setup_rodata pa_to_va pre reuse_buf static_buf rodata dcr dma_buf_idx m).1
        = some AIPU_STATUS_SUCCESS →
      rodata_skipped dma_buf_idx p = false →
      (((p.load_type = PARAM_MAP_LOAD_TYPE_REUSE ∧ reuse_buf.length ≤ p.ref_section_iter) ∨
          (p.load_type = PARAM_MAP_LOAD_TYPE_STATIC ∧
            static_buf.length ≤ p.ref_section_iter)) →
        (setup_rodata pa_to_va param_map reuse_buf static_buf rodata dcr dma_buf_idx m).1
          = some AIPU_STATUS_ERROR_INVALID_SIZE) ∧
      (¬ ((p.load_type = PARAM_MAP_LOAD_TYPE_REUSE ∧ reuse_buf.length ≤ p.ref_section_iter) ∨
          (p.load_type = PARAM_MAP_LOAD_TYPE_STATIC ∧
            static_buf.length ≤ p.ref_section_iter)) →
        ¬ p.offset_in_map < rodata.req_size →
        (dcr = none ∨ ∃ d, dcr = some d ∧ d.size = 0) →
        (setup_rodata pa_to_va param_map reuse_buf static_buf rodata dcr dma_buf_idx m).1
          = none)) := by
  have hentry : ∀ p : GraphParamMapLoadDesc,
      rodata_entry (pa_to_va rodata.pa rodata.size) (rodata_dcr_va pa_to_va dcr) rodata p = none ↔
        (¬ p.offset_in_map < rodata.req_size ∧
          (dcr = none ∨ ∃ d, dcr = some d ∧ d.size = 0)) := by
    intro p
    rw [rodata_entry_none_iff, rodata_dcr_va_none_iff]
  obtain ⟨h1, h2, h3⟩ := setup_rodata_loop_outcome reuse_buf static_buf rodata
    (pa_to_va rodata.pa rodata.size) (rodata_dcr_va pa_to_va dcr) dma_buf_idx param_map m
  have hsucc : (setup_rodata pa_to_va param_map reuse_buf static_buf rodata dcr dma_buf_idx
        m).1 = some AIPU_STATUS_SUCCESS ↔
      ¬ ∃ p ∈ param_map, rodata_skipped dma_buf_idx p = false ∧
        (((p.load_type = PARAM_MAP_LOAD_TYPE_REUSE ∧ reuse_buf.length ≤ p.ref_section_iter) ∨
          (p.load_type = PARAM_MAP_LOAD_TYPE_STATIC ∧
            static_buf.length ≤ p.ref_section_iter)) ∨
         (¬ p.offset_in_map < rodata.req_size ∧
           (dcr = none ∨ ∃ d, dcr = some d ∧ d.size = 0))) := by
    unfold setup_rodata
    rw [h1]
    simp only [rodata_sub_sec_pa_32_none_iff, hentry]
  refine ⟨?_, hsucc, ?_⟩
  · intro hdest
    have hne : ∀ p ∈ param_map, rodata_skipped dma_buf_idx p = false →
        ¬ (¬ p.offset_in_map < rodata.req_size ∧
          (dcr = none ∨ ∃ d, dcr = some d ∧ d.size = 0)) := by
      intro p hp hk ⟨hoff, hd⟩
      rcases hdest p hp hk with h | ⟨d, hd1, hd2⟩
      · exact hoff h
      · rcases hd with hd | ⟨d1, hd3, hd4⟩
        · rw [hd] at hd1; exact Option.noConfusion hd1
        · rw [hd3] at hd1
          have : d1 = d := Option.some.inj hd1
          rw [this] at hd4
          exact hd2 hd4
    have hsucc1 : (setup_rodata pa_to_va param_map reuse_buf static_buf rodata dcr dma_buf_idx
          m).1 = some AIPU_STATUS_SUCCESS ↔
        ¬ ∃ p ∈ param_map, rodata_skipped dma_buf_idx p = false ∧
          ((p.load_type = PARAM_MAP_LOAD_TYPE_REUSE ∧ reuse_buf.length ≤ p.ref_section_iter) ∨
           (p.load_type = PARAM_MAP_LOAD_TYPE_STATIC ∧
             static_buf.length ≤ p.ref_section_iter)) := by
      rw [hsucc]
      constructor
      · intro h ⟨p, hp, hk, ho⟩
        exact h ⟨p, hp, hk, Or.inl ho⟩
      · intro h ⟨p, hp, hk, ho⟩
        rcases ho with ho | ho
        · exact h ⟨p, hp, hk, ho⟩
        · exact hne p hp hk ho
    refine ⟨?_, hsucc1⟩
    constructor
    · intro h
      obtain ⟨p, hp, hk, hs⟩ := h2 h
      exact ⟨p, hp, hk, (rodata_sub_sec_pa_32_none_iff _ _ _).mp hs⟩
    · intro hex
      rcases setup_rodata_loop_status reuse_buf static_buf rodata
        (pa_to_va rodata.pa rodata.size) (rodata_dcr_va pa_to_va dcr) dma_buf_idx param_map m
        with h | h | h
      · exact absurd hex (hsucc1.mp h)
      · exact h
      · obtain ⟨p, hp, hk, _, he⟩ := h3 h
        exact absurd ((hentry p).mp he) (hne p hp hk)
  · intro pre post p hsplit hpre hk
    unfold setup_rodata at hpre ⊢
    rw [hsplit, setup_rodata_loop_append, if_pos hpre]
    constructor
    · intro ho
      rw [setup_rodata_loop_cons_failed _ _ _ _ _ _ _ _ _ hk
        ((rodata_sub_sec_pa_32_none_iff _ _ _).mpr ho)]
    · intro ho hoff hd
      cases hs : rodata_sub_sec_pa_32 reuse_buf static_buf p with
      | none => exact absurd ((rodata_sub_sec_pa_32_none_iff _ _ _).mp hs) ho
      | some s =>
        rw [setup_rodata_loop_cons_faulted _ _ _ _ _ _ _ _ _ _ hk hs
          ((hentry p).mpr ⟨hoff, hd⟩)]

/-- Worked instance of amended C5: with the descriptor buffer of the example,
the map made of the REUSE entry and the out-of-range entry returns the
invalid-size error. -/
theorem setup_rodata_status_by_first_stopping_entry_witness :
    (∀ p ∈ [ex_entry_reuse, ex_entry_out_of_range], rodata_skipped none p = false →
        p.offset_in_map < ex_rodata.req_size ∨ ∃ d, some ex_dcr = some d ∧ d.size ≠ 0) ∧
    (∃ p ∈ [ex_entry_reuse, ex_entry_out_of_range], rodata_skipped none p = false ∧
      ((p.load_type = PARAM_MAP_LOAD_TYPE_REUSE ∧ ex_reuse.length ≤ p.ref_section_iter) ∨
       (p.load_type = PARAM_MAP_LOAD_TYPE_STATIC ∧ ex_static.length ≤ p.ref_section_iter))) ∧
    (setup_rodata ex_pa_to_va [ex_entry_reuse, ex_entry_out_of_range] ex_reuse ex_static
      ex_rodata (some ex_dcr) none ex_mem).1 = some AIPU_STATUS_ERROR_INVALID_SIZE :=
  ⟨fun _ _ _ => Or.inr ⟨ex_dcr, rfl, by decide⟩,
    ⟨ex_entry_out_of_range, by simp, rfl, Or.inl ⟨rfl, by decide⟩⟩,
    ((setup_rodata_status_by_first_stopping_entry ex_pa_to_va
      [ex_entry_reuse, ex_entry_out_of_range] ex_reuse ex_static ex_rodata (some ex_dcr) none
      ex_mem).1 (fun _ _ _ => Or.inr ⟨ex_dcr, rfl, by decide⟩)).1.mpr
      ⟨ex_entry_out_of_range, by simp, rfl, Or.inl ⟨rfl, by decide⟩⟩⟩

/-- Claim C6, refuted as stated: the map `[ex_entry_reuse, ex_entry_out_of_range]`
makes `setup_rodata` return the invalid-size error, yet the first byte of the
rodata buffer (address 4096), which was 0 before the call, is 16 after it: the
entry before the out-of-range one has been patched. -/
theorem setup_rodata_failed_bind_commits_earlier_entries :
    (setup_rodata ex_pa_to_va [ex_entry_reuse, ex_entry_out_of_range] ex_reuse [] ex_rodata
        none none ex_mem).1 = some AIPU_STATUS_ERROR_INVALID_SIZE ∧
    (setup_rodata ex_pa_to_va [ex_entry_reuse, ex_entry_out_of_range] ex_reuse [] ex_rodata
        none none ex_mem).2 4096 = 16 ∧
    ex_mem 4096 = 0 := by
  decide

/-- Claim C6, amended: when `setup_rodata` returns the invalid-size error, the
parameter map splits at the first out-of-range entry `p` that the filter does
not pass over; binding the entries before `p` alone succeeds, and the memory
after the failed call is the memory after that successful bind: the entries
before `p` are patched, `p` and the entries after it are not. -/
theorem setup_rodata_failed_bind_keeps_patches_before_failure (pa_to_va : Nat → Nat → Nat)
    (param_map : List GraphParamMapLoadDesc) (reuse_buf static_buf : List BufferDesc)
    (rodata : BufferDesc) (dcr : Option BufferDesc) (dma_buf_idx : Option (List Nat))
    (m : Mem)
    (hfail : (setup_rodata pa_to_va param_map reuse_buf static_buf rodata dcr dma_buf_idx m).1
      = some AIPU_STATUS_ERROR_INVALID_SIZE) :
    ∃ (pre post : List GraphParamMapLoadDesc) (p : GraphParamMapLoadDesc),
      param_map = pre ++ p :: post ∧
      rodata_skipped dma_buf_idx p = false ∧
      rodata_sub_sec_pa_32 reuse_buf static_buf p = none ∧
      (setup_rodata pa_to_va pre reuse_buf static_buf rodata dcr dma_buf_idx m).1
        = some AIPU_STATUS_SUCCESS ∧
      (setup_rodata pa_to_va param_map reuse_buf static_buf rodata dcr dma_buf_idx m).2
        = (setup_rodata pa_to_va pre reuse_buf static_buf rodata dcr dma_buf_idx m).2 := by
  unfold setup_rodata at hfail ⊢
  induction param_map generalizing m with
  | nil => simp [setup_rodata_loop] at hfail
  | cons q qs ih =>
    cases hk : rodata_skipped dma_buf_idx q with
    | true =>
      rw [setup_rodata_loop_cons_skipped _ _ _ _ _ _ _ _ _ hk] at hfail
      obtain ⟨pre, post, p, hsplit, hpk, hps, hok, hmem⟩ := ih m hfail
      refine ⟨q :: pre, post, p, by simp [hsplit], hpk, hps, ?_, ?_⟩
      · rw [setup_rodata_loop_cons_skipped _ _ _ _ _ _ _ _ _ hk]; exact hok
      · rw [setup_rodata_loop_cons_skipped _ _ _ _ _ _ _ _ _ hk,
          setup_rodata_loop_cons_skipped _ _ _ _ _ _ _ _ _ hk]; exact hmem
    | false =>
      cases hs : rodata_sub_sec_pa_32 reuse_buf static_buf q with
      | none =>
        refine ⟨[], qs, q, rfl, hk, hs, rfl, ?_⟩
        rw [setup_rodata_loop_cons_failed _ _ _ _ _ _ _ _ _ hk hs]
        rfl
      | some v =>
        cases he : rodata_entry (pa_to_va rodata.pa rodata.size)
            (rodata_dcr_va pa_to_va dcr) rodata q with
        | none =>
          rw [setup_rodata_loop_cons_faulted _ _ _ _ _ _ _ _ _ _ hk hs he] at hfail
          simp at hfail
        | some e =>
          rw [setup_rodata_loop_cons_patched _ _ _ _ _ _ _ _ _ _ _ hk hs he] at hfail
          obtain ⟨pre, post, p, hsplit, hpk, hps, hok, hmem⟩ := ih _ hfail
          refine ⟨q :: pre, post, p, by simp [hsplit], hpk, hps, ?_, ?_⟩
          · rw [setup_rodata_loop_cons_patched _ _ _ _ _ _ _ _ _ _ _ hk hs he]; exact hok
          · rw [setup_rodata_loop_cons_patched _ _ _ _ _ _ _ _ _ _ _ hk hs he,
              setup_rodata_loop_cons_patched _ _ _ _ _ _ _ _ _ _ _ hk hs he]; exact hmem

/-- Worked instance of the amended C6 on the map of the counterexample. -/
theorem setup_rodata_failed_bind_keeps_patches_before_failure_witness :
    (setup_rodata ex_pa_to_va [ex_entry_reuse, ex_entry_out_of_range] ex_reuse [] ex_rodata
        none none ex_mem).1 = some AIPU_STATUS_ERROR_INVALID_SIZE ∧
    ∃ (pre post : List GraphParamMapLoadDesc) (p : GraphParamMapLoadDesc),
      [ex_entry_reuse, ex_entry_out_of_range] = pre ++ p :: post ∧
      rodata_skipped none p = false ∧
      rodata_sub_sec_pa_32 ex_reuse [] p = none ∧
      (setup_rodata ex_pa_to_va pre ex_reuse [] ex_rodata none none ex_mem).1
        = some AIPU_STATUS_SUCCESS ∧
      (setup_rodata ex_pa_to_va [ex_entry_reuse, ex_entry_out_of_range] ex_reuse [] ex_rodata
          none none ex_mem).2
        = (setup_rodata ex_pa_to_va pre ex_reuse [] ex_rodata none none ex_mem).2 :=
  ⟨by decide,
    setup_rodata_failed_bind_keeps_patches_before_failure ex_pa_to_va
      [ex_entry_reuse, ex_entry_out_of_range] ex_reuse [] ex_rodata none none ex_mem
      (by decide)⟩

/-! ## Claims on `setup_remap` -/

/-- The remap loop over a concatenation is the composition of the two loops. -/
theorem setup_remap_append (ids : SectionTypeIds) (m_text rodata : BufferDesc)
    (descriptor : Option BufferDesc) (pre post : List RemapEntry) (mem : Mem) :
    setup_remap ids m_text rodata descriptor (pre ++ post) mem =
      setup_remap ids m_text rodata descriptor post
        (setup_remap ids m_text rodata descriptor pre mem) := by
  induction pre generalizing mem with
  | nil => rfl
  | cons e es ih => simp only [List.cons_append, setup_remap]; exact ih _

/-- With distinct enumerators, `get_base_pa` returns the physical address and the
ASID-relative address of the buffer that the section type selects. -/
theorem get_base_pa_selected (ids : SectionTypeIds) (m_text rodata : BufferDesc)
    (descriptor : Option BufferDesc) (t : Int) (b : BufferDesc)
    (hrd : ids.SECTION_TYPE_RODATA ≠ ids.SECTION_TYPE_DESCRIPTOR)
    (hrt : ids.SECTION_TYPE_RODATA ≠ ids.SECTION_TYPE_TEXT)
    (hdt : ids.SECTION_TYPE_DESCRIPTOR ≠ ids.SECTION_TYPE_TEXT)
    (h : (t = ids.SECTION_TYPE_RODATA ∧ b = rodata) ∨
         (t = ids.SECTION_TYPE_DESCRIPTOR ∧ descriptor = some b) ∨
         (t = ids.SECTION_TYPE_TEXT ∧ b = m_text)) :
    get_base_pa ids m_text t rodata descriptor false = b.pa ∧
    get_base_pa ids m_text t rodata descriptor true = sub64 b.pa b.asid_base := by
  rcases h with ⟨ht, hb⟩ | ⟨ht, hb⟩ | ⟨ht, hb⟩
  · subst ht hb; simp [get_base_pa]
  · subst ht hb; simp [get_base_pa, Ne.symm hrd]
  · subst ht hb
    cases descriptor <;> simp [get_base_pa, Ne.symm hrt, Ne.symm hdt]

/-- The 32-bit truncation of a wrapped 64-bit difference plus an offset, as an
integer expression modulo `2^32`. -/
theorem sub64_add_mod (a b c : Nat) :
    ((sub64 a b + c) % 2 ^ 64) % 2 ^ 32 = (((a : Int) - b + c) % 2 ^ 32).toNat := by
  unfold sub64
  omega

/-- Claim C7: for a remap entry `e` whose `type` selects the buffer `b1` and
whose `next_type` selects the buffer `b2` (RODATA the rodata buffer, DESCRIPTOR
the descriptor buffer when one is present, TEXT the graph text buffer; the
three enumerators being distinct), `setup_remap` writes one 32-bit word at
physical address `b1.pa + next_addr_entry_offset` (a 64-bit sum, equal to the
plain sum whenever that fits 64 bits), the word is
`((b2.pa - b2.asid_base) + next_offset) mod 2^32`, it replaces the whole field
whatever it held (no mask), and no byte outside the 4-byte field is changed by
that entry. -/
theorem setup_remap_writes_unmasked_word (ids : SectionTypeIds) (m_text rodata : BufferDesc)
    (descriptor : Option BufferDesc) (pre post : List RemapEntry) (e : RemapEntry) (mem : Mem)
    (b1 b2 : BufferDesc)
    (hrd : ids.SECTION_TYPE_RODATA ≠ ids.SECTION_TYPE_DESCRIPTOR)
    (hrt : ids.SECTION_TYPE_RODATA ≠ ids.SECTION_TYPE_TEXT)
    (hdt : ids.SECTION_TYPE_DESCRIPTOR ≠ ids.SECTION_TYPE_TEXT)
    (h1 : (e.type = ids.SECTION_TYPE_RODATA ∧ b1 = rodata) ∨
          (e.type = ids.SECTION_TYPE_DESCRIPTOR ∧ descriptor = some b1) ∨
          (e.type = ids.SECTION_TYPE_TEXT ∧ b1 = m_text))
    (h2 : (e.next_type = ids.SECTION_TYPE_RODATA ∧ b2 = rodata) ∨
          (e.next_type = ids.SECTION_TYPE_DESCRIPTOR ∧ descriptor = some b2) ∨
          (e.next_type = ids.SECTION_TYPE_TEXT ∧ b2 = m_text)) :
    setup_remap ids m_text rodata descriptor (pre ++ e :: post) mem =
      setup_remap ids m_text rodata descriptor post
        ((setup_remap ids m_text rodata descriptor pre mem).write32
          ((b1.pa + e.next_addr_entry_offset) % 2 ^ 64)
          ((((b2.pa : Int) - b2.asid_base + e.next_offset) % 2 ^ 32).toNat)) ∧
    ((setup_remap ids m_text rodata descriptor pre mem).write32
          ((b1.pa + e.next_addr_entry_offset) % 2 ^ 64)
          ((((b2.pa : Int) - b2.asid_base + e.next_offset) % 2 ^ 32).toNat)).read32
        ((b1.pa + e.next_addr_entry_offset) % 2 ^ 64)
      = (((b2.pa : Int) - b2.asid_base + e.next_offset) % 2 ^ 32).toNat ∧
    (∀ x, x < (b1.pa + e.next_addr_entry_offset) % 2 ^ 64 ∨
        (b1.pa + e.next_addr_entry_offset) % 2 ^ 64 + 4 ≤ x →
      ((setup_remap ids m_text rodata descriptor pre mem).write32
          ((b1.pa + e.next_addr_entry_offset) % 2 ^ 64)
          ((((b2.pa : Int) - b2.asid_base + e.next_offset) % 2 ^ 32).toNat)) x
        = (setup_remap ids m_text rodata descriptor pre mem) x) ∧
    (b1.pa + e.next_addr_entry_offset < 2 ^ 64 →
      (b1.pa + e.next_addr_entry_offset) % 2 ^ 64 = b1.pa + e.next_addr_entry_offset) := by
  have hd := (get_base_pa_selected ids m_text rodata descriptor e.type b1 hrd hrt hdt h1).1
  have hp := (get_base_pa_selected ids m_text rodata descriptor e.next_type b2 hrd hrt hdt h2).2
  refine ⟨?_, ?_, ?_, ?_⟩
  · rw [setup_remap_append]
    simp only [setup_remap, remap_dest, remap_pa, hd, hp, sub64_add_mod]
  · rw [Mem.read32_write32_same]
    omega
  · intro x hx
    exact Mem.write32_other _ _ _ _ hx
  · intro h
    exact Nat.mod_eq_of_lt h

/-- Worked instance of C7: the pointer slot at rodata address `4096 + 8`
receives the ASID-relative text address `1048576 - 65536 + 4`. -/
theorem setup_remap_writes_unmasked_word_witness :
    ex_ids.SECTION_TYPE_RODATA ≠ ex_ids.SECTION_TYPE_DESCRIPTOR ∧
    ex_ids.SECTION_TYPE_RODATA ≠ ex_ids.SECTION_TYPE_TEXT ∧
    ex_ids.SECTION_TYPE_DESCRIPTOR ≠ ex_ids.SECTION_TYPE_TEXT ∧
    setup_remap ex_ids ex_text ex_rodata (some ex_dcr) ([] ++ ex_remap :: []) ex_mem =
      setup_remap ex_ids ex_text ex_rodata (some ex_dcr) []
        ((setup_remap ex_ids ex_text ex_rodata (some ex_dcr) [] ex_mem).write32
          ((ex_rodata.pa + ex_remap.next_addr_entry_offset) % 2 ^ 64)
          ((((ex_text.pa : Int) - ex_text.asid_base + ex_remap.next_offset) % 2 ^ 32).toNat)) :=
  ⟨by decide, by decide, by decide,
    (setup_remap_writes_unmasked_word ex_ids ex_text ex_rodata (some ex_dcr) [] [] ex_remap
      ex_mem ex_rodata ex_text (by decide) (by decide) (by decide)
      (Or.inl ⟨rfl, rfl⟩) (Or.inr (Or.inr ⟨rfl, rfl⟩))).1⟩

/-! ## Claims on `create_io_buffers` -/

/-- With valid buffer indices the loop appends the image of the descriptors. -/
theorem create_io_buffers_loop_eq (reuses : List BufferDesc) (desc : List GraphIOTensorDesc)
    (bufs : List JobIOBuffer)
    (hvalid : ∀ d ∈ desc, d.ref_section_iter < reuses.length) :
    create_io_buffers_loop reuses desc bufs =
      some (bufs ++ desc.map (fun d =>
        JobIOBuffer.init d.id d.size d.data_type
          (((reuses.getD d.ref_section_iter default).pa + d.offset_in_section) % 2 ^ 64)
          (((reuses.getD d.ref_section_iter default).align_asid_pa + d.offset_in_section)
            % 2 ^ 64)
          d.ref_section_iter)) := by
  induction desc generalizing bufs with
  | nil => simp [create_io_buffers_loop]
  | cons d ds ih =>
    have hd : d.ref_section_iter < reuses.length := hvalid d (List.mem_cons_self _ _)
    have hget : reuses[d.ref_section_iter]? = some (reuses.getD d.ref_section_iter default) := by
      rw [List.getD_eq_getElem?_getD, List.getElem?_eq_getElem hd]
      rfl
    unfold create_io_buffers_loop
    rw [hget]
    simp only []
    rw [ih _ (fun x hx => hvalid x (List.mem_cons_of_mem _ hx))]
    simp

/-- Closed form of `create_io_buffers` on a list that the `uint32_t` count covers. -/
theorem create_io_buffers_eq (bufs : List JobIOBuffer) (desc : List GraphIOTensorDesc)
    (reuses : List BufferDesc) (hcnt : desc.length < 2 ^ 32)
    (hvalid : ∀ d ∈ desc, d.ref_section_iter < reuses.length) :
    create_io_buffers bufs desc reuses =
      some (bufs ++ desc.map (fun d =>
        JobIOBuffer.init d.id d.size d.data_type
          (((reuses.getD d.ref_section_iter default).pa + d.offset_in_section) % 2 ^ 64)
          (((reuses.getD d.ref_section_iter default).align_asid_pa + d.offset_in_section)
            % 2 ^ 64)
          d.ref_section_iter)) := by
  unfold create_io_buffers
  rw [Nat.mod_eq_of_lt hcnt, List.take_length]
  exact create_io_buffers_loop_eq reuses desc bufs hvalid

/-- Claim C8: for a list of fewer than `2^32` tensor descriptors whose
`ref_section_iter` values index valid entries of the reuse-buffer vector,
`create_io_buffers` returns the target list extended by exactly one binding per
descriptor, in descriptor order (new length = old length + descriptor count,
the old bindings kept in front), and the binding appended for descriptor `i`
has its id, size and data type, `pa = reuse[ref_section_iter].pa +
offset_in_section`, ASID-relative address `reuse[ref_section_iter].align_asid_pa
+ offset_in_section` (64-bit sums, equal to the plain sums whenever these fit
64 bits) and buffer index `ref_section_iter`. -/
theorem create_io_buffers_appends_one_binding_per_descriptor (bufs : List JobIOBuffer)
    (desc : List GraphIOTensorDesc) (reuses : List BufferDesc)
    (hcnt : desc.length < 2 ^ 32)
    (hvalid : ∀ d ∈ desc, d.ref_section_iter < reuses.length) :
    ∃ out : List JobIOBuffer,
      create_io_buffers bufs desc reuses = some out ∧
      out.length = bufs.length + desc.length ∧
      out.take bufs.length = bufs ∧
      ∀ i, i < desc.length →
        ∃ b d r, out[bufs.length + i]? = some b ∧ desc[i]? = some d ∧
          reuses[d.ref_section_iter]? = some r ∧
          b.id = d.id ∧ b.size = d.size ∧ b.type = d.data_type ∧
          b.pa = (r.pa + d.offset_in_section) % 2 ^ 64 ∧
          b.align_asid_pa = (r.align_asid_pa + d.offset_in_section) % 2 ^ 64 ∧
          b.ref_section_iter = d.ref_section_iter ∧
          (r.pa + d.offset_in_section < 2 ^ 64 → b.pa = r.pa + d.offset_in_section) ∧
          (r.align_asid_pa + d.offset_in_section < 2 ^ 64 →
            b.align_asid_pa = r.align_asid_pa + d.offset_in_section) := by
  refine ⟨_, create_io_buffers_eq bufs desc reuses hcnt hvalid, by simp, by simp, ?_⟩
  intro i hi
  have hd : desc[i].ref_section_iter < reuses.length := hvalid _ (List.getElem_mem hi)
  have hg : reuses.getD desc[i].ref_section_iter default = reuses[desc[i].ref_section_iter] := by
    rw [List.getD_eq_getElem?_getD, List.getElem?_eq_getElem hd]
    rfl
  refine ⟨JobIOBuffer.init desc[i].id desc[i].size desc[i].data_type
      (((reuses.getD desc[i].ref_section_iter default).pa + desc[i].offset_in_section) % 2 ^ 64)
      (((reuses.getD desc[i].ref_section_iter default).align_asid_pa
        + desc[i].offset_in_section) % 2 ^ 64)
      desc[i].ref_section_iter,
    desc[i], reuses[desc[i].ref_section_iter], ?_, List.getElem?_eq_getElem hi,
    List.getElem?_eq_getElem hd, ?_⟩
  · rw [List.getElem?_append_right (Nat.le_add_right _ _)]
    simp only [Nat.add_sub_cancel_left]
    rw [List.getElem?_map, List.getElem?_eq_getElem hi]
    rfl
  · simp only [JobIOBuffer.init, hg, true_and]
    exact ⟨fun h => Nat.mod_eq_of_lt h, fun h => Nat.mod_eq_of_lt h⟩

/-- Worked instance of C8: the two descriptors of the example are appended to
a list that already holds one binding. -/
theorem create_io_buffers_appends_one_binding_per_descriptor_witness :
    ex_desc.length < 2 ^ 32 ∧
    (∀ d ∈ ex_desc, d.ref_section_iter < ex_reuse.length) ∧
    ∃ out : List JobIOBuffer,
      create_io_buffers [ex_iobuf] ex_desc ex_reuse = some out ∧
      out.length = [ex_iobuf].length + ex_desc.length :=
  ⟨by decide, by decide,
    let ⟨out, h1, h2, _⟩ :=
      create_io_buffers_appends_one_binding_per_descriptor [ex_iobuf] ex_desc ex_reuse
        (by decide) (by decide)
    ⟨out, h1, h2⟩⟩

/-! ## Claims on `load_tensor` and `get_tensor` -/

/-- The order in which `load_tensor` decides its result, and that an error
leaves the environment as it was. -/
theorem load_tensor_result_order (job : JobBase) (env : TensorEnv) (tensor : Nat)
    (data : Option Mem) :
    (data = none → load_tensor job env tensor data = (AIPU_STATUS_ERROR_NULL_PTR, env)) ∧
    (data ≠ none → job.m_inputs.length ≤ tensor →
      load_tensor job env tensor data = (AIPU_STATUS_ERROR_INVALID_TENSOR_ID, env)) ∧
    (data ≠ none → tensor < job.m_inputs.length →
      ((load_tensor job env tensor data).1 = AIPU_STATUS_ERROR_INVALID_OP ↔
        (job.m_status ≠ AIPU_JOB_STATUS_INIT ∧ job.m_status ≠ AIPU_JOB_STATUS_DONE ∧
          job.m_status ≠ AIPU_JOB_STATUS_BIND)) ∧
      ((load_tensor job env tensor data).1 = AIPU_STATUS_SUCCESS ↔
        (job.m_status = AIPU_JOB_STATUS_INIT ∨ job.m_status = AIPU_JOB_STATUS_DONE ∨
          job.m_status = AIPU_JOB_STATUS_BIND))) ∧
    ((load_tensor job env tensor data).1 ≠ AIPU_STATUS_SUCCESS →
      (load_tensor job env tensor data).2 = env) := by
  cases data with
  | none => simp [load_tensor]
  | some d =>
    by_cases ht : job.m_inputs.length ≤ tensor
    · have ht' : ¬ tensor < job.m_inputs.length := Nat.not_lt.mpr ht
      simp [load_tensor, ht, ht']
    · have ht' : tensor < job.m_inputs.length := Nat.lt_of_not_le ht
      cases hst : job.m_status <;> simp [load_tensor, ht, ht', hst]

/-- Claim C9, evaluated at the failing input: the job is in INIT status and its
input tensor 0 is backed by the DMA buffer behind descriptor 3, whose `mmap`
fails. `load_tensor` returns `AIPU_STATUS_SUCCESS` and the environment is
unchanged: none of the tensor's 4 bytes has been written. -/
theorem load_tensor_success_without_write_on_failed_mapping :
    load_tensor (ex_job AIPU_JOB_STATUS_INIT [ex_iobuf_dma]) (ex_env false) 0 (some ex_data)
      = (AIPU_STATUS_SUCCESS, ex_env false) ∧
    ex_data 0 = 171 ∧ (ex_env false).dmabuf 3 0 = 0 := by
  refine ⟨rfl, rfl, rfl⟩

/-- Claim C10, refuted as stated: with a non-null data pointer, the supported
type INPUT and the valid index 0, `get_tensor` on a job in INIT status returns
`AIPU_STATUS_ERROR_INVALID_OP`, not success. -/
theorem get_tensor_rejects_init_status :
    (get_tensor (ex_job AIPU_JOB_STATUS_INIT [ex_iobuf]) (ex_env true)
        AIPU_ISA_VERSION_ZHOUYI_V1 AIPU_TENSOR_TYPE_INPUT 0 (some ex_data)).map Prod.fst
      = some AIPU_STATUS_ERROR_INVALID_OP ∧
    (0 : Nat) < (ex_job AIPU_JOB_STATUS_INIT [ex_iobuf]).m_inputs.length := by
  decide

/-- Claim C10, amended: `get_tensor` called with a non-null data pointer, a
tensor type for which the `switch` selects one of the job's lists and an index
valid in that list returns `AIPU_STATUS_SUCCESS` whenever the job status is
DONE; when the status is INIT or BIND it returns
`AIPU_STATUS_ERROR_INVALID_OP` and leaves the caller's buffer as it was. -/
theorem get_tensor_succeeds_in_done_status (job : JobBase) (env : TensorEnv)
    (isa : aipu_isa_version_t) (type : aipu_tensor_type_t) (tensor : Nat) (d : Mem)
    (iobuffer_vec : List JobIOBuffer)
    (hsel : get_tensor_select job isa type = TensorSelect.vec iobuffer_vec)
    (hidx : tensor < iobuffer_vec.length) :
    (job.m_status = AIPU_JOB_STATUS_DONE →
      (get_tensor job env isa type tensor (some d)).map Prod.fst = some AIPU_STATUS_SUCCESS) ∧
    (job.m_status = AIPU_JOB_STATUS_INIT ∨ job.m_status = AIPU_JOB_STATUS_BIND →
      get_tensor job env isa type tensor (some d)
        = some (AIPU_STATUS_ERROR_INVALID_OP, some d)) := by
  constructor
  · intro hst
    have hnot : ¬ iobuffer_vec.length ≤ tensor := Nat.not_le.mpr hidx
    have hge : ¬ tensor ≥ iobuffer_vec.length := hnot
    simp only [get_tensor, hst, hsel, ne_eq, not_true_eq_false, if_false, if_neg hge]
    split_ifs <;> rfl
  · intro hst
    rcases hst with hst | hst <;> simp [get_tensor, hst]

/-- Worked instance of the amended C10: reading input 0 of a job in DONE
status succeeds. -/
theorem get_tensor_succeeds_in_done_status_witness :
    get_tensor_select (ex_job AIPU_JOB_STATUS_DONE [ex_iobuf]) AIPU_ISA_VERSION_ZHOUYI_V1
        AIPU_TENSOR_TYPE_INPUT = TensorSelect.vec [ex_iobuf] ∧
    (0 : Nat) < [ex_iobuf].length ∧
    (get_tensor (ex_job AIPU_JOB_STATUS_DONE [ex_iobuf]) (ex_env true)
        AIPU_ISA_VERSION_ZHOUYI_V1 AIPU_TENSOR_TYPE_INPUT 0 (some ex_data)).map Prod.fst
      = some AIPU_STATUS_SUCCESS :=
  ⟨rfl, by decide,
    (get_tensor_succeeds_in_done_status (ex_job AIPU_JOB_STATUS_DONE [ex_iobuf]) (ex_env true)
      AIPU_ISA_VERSION_ZHOUYI_V1 AIPU_TENSOR_TYPE_INPUT 0 ex_data [ex_iobuf] rfl
      (by decide)).1 rfl⟩

/-! ## Claims on the state gate and the shared-memory path of the tensor transfers -/

/-- Claim C11: applications cannot get tensors from a job that is not done. For
every tensor type (supported or not, selecting a list or not), every index
(valid or not) and every non-null data pointer, `get_tensor` returns
`AIPU_STATUS_ERROR_INVALID_OP` whenever the job status differs from DONE, and
the caller's buffer is left as it was: the state check comes before the
tensor-type and tensor-index checks and nothing is read. -/
theorem get_tensor_invalid_op_unless_done (job : JobBase) (env : TensorEnv)
    (isa : aipu_isa_version_t) (type : aipu_tensor_type_t) (tensor : Nat) (d : Mem)
    (hst : job.m_status ≠ AIPU_JOB_STATUS_DONE) :
    get_tensor job env isa type tensor (some d) = some (AIPU_STATUS_ERROR_INVALID_OP, some d) := by
  simp [get_tensor, hst]

/-- Worked instance of C11: a job in SCHED status, an unsupported tensor type
and an out-of-range index still give the invalid-operation error. -/
theorem get_tensor_invalid_op_unless_done_witness :
    (ex_job AIPU_JOB_STATUS_SCHED [ex_iobuf]).m_status ≠ AIPU_JOB_STATUS_DONE ∧
    get_tensor (ex_job AIPU_JOB_STATUS_SCHED [ex_iobuf]) (ex_env true)
        AIPU_ISA_VERSION_ZHOUYI_V3 (AIPU_TENSOR_TYPE_OTHER 99) 5 (some ex_data)
      = some (AIPU_STATUS_ERROR_INVALID_OP, some ex_data) :=
  ⟨by decide, get_tensor_invalid_op_unless_done _ _ _ _ _ _ (by decide)⟩

/-- Claim C12: byte contents round-trip through the shared-memory path. For a
job in DONE status and an input tensor `t` backed by a DMA buffer
(`dmabuf_fd >= 0`, `offset_in_dmabuf + size <= dmabuf_size`, mapping succeeds),
`load_tensor(t, data)` followed by `get_tensor(INPUT, t, out)` both return
success, the first `size` bytes of `out` are then the first `size` bytes of
`data` (the rest of `out` is untouched), and the load changes no byte of the
shared buffer outside `[offset_in_dmabuf, offset_in_dmabuf + size)`, no other
shared buffer and no device memory. -/
theorem load_tensor_get_tensor_dma_round_trip (job : JobBase) (env : TensorEnv)
    (isa : aipu_isa_version_t) (t : Nat) (data out : Mem) (iobuf : JobIOBuffer)
    (hst : job.m_status = AIPU_JOB_STATUS_DONE)
    (hin : job.m_inputs[t]? = some iobuf)
    (hfd : 0 ≤ iobuf.dmabuf_fd)
    (_hfit : iobuf.offset_in_dmabuf + iobuf.size ≤ iobuf.dmabuf_size)
    (hmap : env.mmap_ok iobuf.dmabuf_fd iobuf.dmabuf_size = true) :
    ∃ (env1 : TensorEnv) (out1 : Mem),
      load_tensor job env t (some data) = (AIPU_STATUS_SUCCESS, env1) ∧
      get_tensor job env1 isa AIPU_TENSOR_TYPE_INPUT t (some out)
        = some (AIPU_STATUS_SUCCESS, some out1) ∧
      (∀ i, i < iobuf.size → out1 i = data.read8 i) ∧
      (∀ i, iobuf.size ≤ i → out1 i = out i) ∧
      (∀ x, x < iobuf.offset_in_dmabuf ∨ iobuf.offset_in_dmabuf + iobuf.size ≤ x →
        env1.dmabuf iobuf.dmabuf_fd x = env.dmabuf iobuf.dmabuf_fd x) ∧
      (∀ fd, fd ≠ iobuf.dmabuf_fd → env1.dmabuf fd = env.dmabuf fd) ∧
      env1.mem = env.mem := by
  have hlt : t < job.m_inputs.length := by
    by_contra h
    rw [List.getElem?_eq_none (Nat.le_of_not_lt h)] at hin
    exact Option.noConfusion hin
  have hget : job.m_inputs.getD t default = iobuf := by
    rw [List.getD_eq_getElem?_getD, hin]; rfl
  have hget' : job.m_inputs[t]?.getD default = iobuf := by
    rw [hin]; rfl
  have hnfd : ¬ iobuf.dmabuf_fd < 0 := Int.not_lt.mpr hfd
  have hge : ¬ t ≥ job.m_inputs.length := Nat.not_le.mpr hlt
  refine ⟨(readwrite_dma_buf env iobuf data false).2.1,
    (readwrite_dma_buf (readwrite_dma_buf env iobuf data false).2.1 iobuf out true).2.2,
    ?_, ?_, ?_, ?_, ?_, ?_, ?_⟩
  · simp [load_tensor, hge, hst, hget, hget', load_into, hnfd]
  · simp [get_tensor, hst, get_tensor_select, hge, hget, hget', hnfd]
  · intro i hi
    simp [readwrite_dma_buf, hmap, Mem.copy, Mem.read8, hi]
  · intro i hi
    have : ¬ i < iobuf.size := Nat.not_lt.mpr hi
    simp [readwrite_dma_buf, hmap, Mem.copy, this]
  · intro x hx
    have : ¬ (iobuf.offset_in_dmabuf ≤ x ∧ x < iobuf.offset_in_dmabuf + iobuf.size) := by omega
    simp [readwrite_dma_buf, hmap, Mem.copy, this]
  · intro fd hfd'
    simp [readwrite_dma_buf, hmap, hfd']
  · simp [readwrite_dma_buf, hmap]

/-- Worked instance of C12 on the DMA-backed tensor of the example. -/
theorem load_tensor_get_tensor_dma_round_trip_witness :
    (ex_job_dma AIPU_JOB_STATUS_DONE).m_status = AIPU_JOB_STATUS_DONE ∧
    (ex_job_dma AIPU_JOB_STATUS_DONE).m_inputs[0]? = some ex_iobuf_dma ∧
    0 ≤ ex_iobuf_dma.dmabuf_fd ∧
    ex_iobuf_dma.offset_in_dmabuf + ex_iobuf_dma.size ≤ ex_iobuf_dma.dmabuf_size ∧
    (ex_env true).mmap_ok ex_iobuf_dma.dmabuf_fd ex_iobuf_dma.dmabuf_size = true ∧
    ∃ (env1 : TensorEnv) (out1 : Mem),
      load_tensor (ex_job_dma AIPU_JOB_STATUS_DONE) (ex_env true) 0 (some ex_data)
        = (AIPU_STATUS_SUCCESS, env1) ∧
      get_tensor (ex_job_dma AIPU_JOB_STATUS_DONE) env1 AIPU_ISA_VERSION_ZHOUYI_V1
          AIPU_TENSOR_TYPE_INPUT 0 (some ex_mem) = some (AIPU_STATUS_SUCCESS, some out1) ∧
      (∀ i, i < ex_iobuf_dma.size → out1 i = ex_data.read8 i) :=
  ⟨rfl, rfl, by decide, by decide, rfl,
    let ⟨env1, out1, h1, h2, h3, _⟩ :=
      load_tensor_get_tensor_dma_round_trip (ex_job_dma AIPU_JOB_STATUS_DONE) (ex_env true)
        AIPU_ISA_VERSION_ZHOUYI_V1 0 ex_data ex_mem ex_iobuf_dma rfl rfl (by decide)
        (by decide) rfl
    ⟨env1, out1, h1, h2, h3⟩⟩

/-- Claim C13, evaluated at the failing input: every `mmap` fails and the job
(in DONE status) has its input 0 and output 0 backed by the DMA buffer behind
descriptor 3. `readwrite_dma_buf` reports the failure with -1, but
`load_tensor`, `load_output_tensor` and `get_tensor` all return
`AIPU_STATUS_SUCCESS`. -/
theorem dma_mapping_failure_reported_as_success :
    (readwrite_dma_buf (ex_env false) ex_iobuf_dma ex_data false).1 = -1 ∧
    (load_tensor (ex_job_dma AIPU_JOB_STATUS_DONE) (ex_env false) 0 (some ex_data)).1
      = AIPU_STATUS_SUCCESS ∧
    (load_output_tensor (ex_job_dma AIPU_JOB_STATUS_DONE) (ex_env false) 0 (some ex_data)).1
      = AIPU_STATUS_SUCCESS ∧
    (get_tensor (ex_job_dma AIPU_JOB_STATUS_DONE) (ex_env false) AIPU_ISA_VERSION_ZHOUYI_V1
        AIPU_TENSOR_TYPE_INPUT 0 (some ex_data)).map Prod.fst = some AIPU_STATUS_SUCCESS := by
  decide

/-! ## Claims on the job lifecycle -/

/-- Claim C14: re-scheduling is gated by the job state.
`validate_schedule_status` returns `AIPU_STATUS_SUCCESS` if and only if the job
status is INIT, DONE or BIND, returns `AIPU_STATUS_ERROR_INVALID_OP` if and
only if it is any other status, and leaves the job, its status included, as it
was. -/
theorem validate_schedule_status_gate (job : JobBase) :
    ((validate_schedule_status job).1 = AIPU_STATUS_SUCCESS ↔
      (job.m_status = AIPU_JOB_STATUS_INIT ∨ job.m_status = AIPU_JOB_STATUS_DONE ∨
        job.m_status = AIPU_JOB_STATUS_BIND)) ∧
    ((validate_schedule_status job).1 = AIPU_STATUS_ERROR_INVALID_OP ↔
      ¬ (job.m_status = AIPU_JOB_STATUS_INIT ∨ job.m_status = AIPU_JOB_STATUS_DONE ∨
        job.m_status = AIPU_JOB_STATUS_BIND)) ∧
    (validate_schedule_status job).2 = job ∧
    (validate_schedule_status job).2.m_status = job.m_status := by
  unfold validate_schedule_status
  split_ifs with h <;> simp [h]

/-- Claim C15: for a job whose graph has zero executable subgraphs, whatever
its status before the call, both status queries leave the job status equal to
DONE, hand DONE back in `*status`, and call neither `get_status` nor
`poll_status` (for any timeout) of the device. What the calls do is: the two
post-run dump hooks, preceded in the blocking query by the completion callback
when one is registered, and followed there by `dump_profiling` when
`en_fast_perf` is set. -/
theorem status_queries_of_empty_graph_skip_device (job : JobBase) (dev : DevReply)
    (time_out : Int) (parse_ret runtime_err_code : aipu_status_t)
    (h0 : job.m_subgraph_cnt = 0) :
    (job.get_status dev runtime_err_code).m_status = AIPU_JOB_STATUS_DONE ∧
    (job.get_status dev runtime_err_code).status = some AIPU_JOB_STATUS_DONE ∧
    JobEvent.dev_get_status ∉ (job.get_status dev runtime_err_code).trace ∧
    (∀ t, JobEvent.dev_poll_status t ∉ (job.get_status dev runtime_err_code).trace) ∧
    (job.get_status_blocking time_out dev parse_ret runtime_err_code).m_status
      = AIPU_JOB_STATUS_DONE ∧
    (job.get_status_blocking time_out dev parse_ret runtime_err_code).status
      = some AIPU_JOB_STATUS_DONE ∧
    JobEvent.dev_get_status ∉
      (job.get_status_blocking time_out dev parse_ret runtime_err_code).trace ∧
    (∀ t, JobEvent.dev_poll_status t ∉
      (job.get_status_blocking time_out dev parse_ret runtime_err_code).trace) ∧
    (job.get_status dev runtime_err_code).trace =
      [JobEvent.dump_job_private_buffers_after_run,
        JobEvent.dump_job_shared_buffers_after_run] ∧
    (job.get_status_blocking time_out dev parse_ret runtime_err_code).trace =
      (if job.m_job_cb then [JobEvent.job_callback job.m_id AIPU_JOB_STATUS_DONE] else [])
        ++ [JobEvent.dump_job_private_buffers_after_run,
          JobEvent.dump_job_shared_buffers_after_run]
        ++ (if job.en_fast_perf then [JobEvent.dev_dump_profiling] else []) := by
  simp only [JobBase.get_status, JobBase.get_status_blocking, h0]
  cases job.m_job_cb <;> cases job.en_fast_perf <;> simp

/-- Worked instance of C15: a job in INIT status with zero subgraphs is
reported DONE by the non-blocking query. -/
theorem status_queries_of_empty_graph_skip_device_witness :
    (ex_job_cb AIPU_JOB_STATUS_INIT 0).m_subgraph_cnt = 0 ∧
    ((ex_job_cb AIPU_JOB_STATUS_INIT 0).get_status (ex_dev AIPU_JOB_STATUS_INIT)
      AIPU_STATUS_SUCCESS).m_status = AIPU_JOB_STATUS_DONE :=
  ⟨rfl, (status_queries_of_empty_graph_skip_device (ex_job_cb AIPU_JOB_STATUS_INIT 0)
    (ex_dev AIPU_JOB_STATUS_INIT) 0 AIPU_STATUS_SUCCESS AIPU_STATUS_SUCCESS rfl).1⟩

/-- Claim C16, evaluated at the failing input: job 7 has zero executable
subgraphs and a registered completion callback. The non-blocking `get_status`
reports DONE and runs the two dump hooks, but never invokes the callback; the
blocking `get_status_blocking` on the same job invokes it once, with
`(7, DONE)`, before the hooks. -/
theorem get_status_of_empty_graph_skips_callback :
    ((ex_job_cb AIPU_JOB_STATUS_INIT 0).get_status (ex_dev AIPU_JOB_STATUS_INIT)
        AIPU_STATUS_SUCCESS) =
      { ret := AIPU_STATUS_SUCCESS, status := some AIPU_JOB_STATUS_DONE,
        m_status := AIPU_JOB_STATUS_DONE,
        trace := [JobEvent.dump_job_private_buffers_after_run,
          JobEvent.dump_job_shared_buffers_after_run] } ∧
    ((ex_job_cb AIPU_JOB_STATUS_INIT 0).get_status_blocking 0 (ex_dev AIPU_JOB_STATUS_INIT)
        AIPU_STATUS_SUCCESS AIPU_STATUS_SUCCESS) =
      { ret := AIPU_STATUS_SUCCESS, status := some AIPU_JOB_STATUS_DONE,
        m_status := AIPU_JOB_STATUS_DONE,
        trace := [JobEvent.job_callback 7 AIPU_JOB_STATUS_DONE,
          JobEvent.dump_job_private_buffers_after_run,
          JobEvent.dump_job_shared_buffers_after_run] } := by
  decide

/-- Claim C17: whenever a status query gets past the device query without an
early error return, the job's status is DONE for a graph without subgraphs,
the state of the first record that the device call stored (or, with no record,
the status the device call left) for `get_status`, and the status the device
call left for `get_status_blocking`. The value handed back in `*status` is
that status if it is DONE or EXCEPTION and `AIPU_JOB_STATUS_NO_STATUS`
otherwise, so it is always one of DONE, EXCEPTION, NO_STATUS; the call returns
`get_runtime_err_code()`; and after the device call (and, for the blocking
query, `parse_dynamic_out_shape`) it runs the private-buffer dump hook and
then the shared-buffer dump hook exactly when the status is DONE or
EXCEPTION, before it returns. -/
theorem status_queries_hand_back_terminal_status (job : JobBase) (dev : DevReply)
    (time_out : Int) (parse_ret runtime_err_code : aipu_status_t) :
    (job.m_subgraph_cnt = 0 →
      job.get_status dev runtime_err_code =
        { ret := runtime_err_code, status := some AIPU_JOB_STATUS_DONE,
          m_status := AIPU_JOB_STATUS_DONE,
          trace := [JobEvent.dump_job_private_buffers_after_run,
            JobEvent.dump_job_shared_buffers_after_run] }) ∧
    (∀ s : aipu_job_status_t, job.m_subgraph_cnt ≠ 0 → dev.ret = AIPU_STATUS_SUCCESS →
      (dev.jobs_status = [] → s = dev.m_status) →
      (∀ d ds, dev.jobs_status = d :: ds → s = d.state) →
      job.get_status dev runtime_err_code =
        { ret := runtime_err_code,
          status := some (if s = AIPU_JOB_STATUS_DONE ∨ s = AIPU_JOB_STATUS_EXCEPTION then s
            else AIPU_JOB_STATUS_NO_STATUS),
          m_status := s,
          trace := JobEvent.dev_get_status ::
            (if s = AIPU_JOB_STATUS_DONE ∨ s = AIPU_JOB_STATUS_EXCEPTION then
              [JobEvent.dump_job_private_buffers_after_run,
                JobEvent.dump_job_shared_buffers_after_run]
            else []) }) ∧
    (job.m_subgraph_cnt = 0 →
      job.get_status_blocking time_out dev parse_ret runtime_err_code =
        { ret := runtime_err_code, status := some AIPU_JOB_STATUS_DONE,
          m_status := AIPU_JOB_STATUS_DONE,
          trace := (if job.m_job_cb then
              [JobEvent.job_callback job.m_id AIPU_JOB_STATUS_DONE] else []) ++
            [JobEvent.dump_job_private_buffers_after_run,
              JobEvent.dump_job_shared_buffers_after_run] ++
            (if job.en_fast_perf then [JobEvent.dev_dump_profiling] else []) }) ∧
    (job.m_subgraph_cnt ≠ 0 → dev.ret = AIPU_STATUS_SUCCESS →
      parse_ret = AIPU_STATUS_SUCCESS →
      job.get_status_blocking time_out dev parse_ret runtime_err_code =
        { ret := runtime_err_code,
          status := some (if dev.m_status = AIPU_JOB_STATUS_DONE ∨
              dev.m_status = AIPU_JOB_STATUS_EXCEPTION then dev.m_status
            else AIPU_JOB_STATUS_NO_STATUS),
          m_status := dev.m_status,
          trace := [JobEvent.dev_poll_status time_out, JobEvent.parse_dynamic_out_shape] ++
            (if dev.m_status = AIPU_JOB_STATUS_DONE ∨
                dev.m_status = AIPU_JOB_STATUS_EXCEPTION then
              [JobEvent.dump_job_private_buffers_after_run,
                JobEvent.dump_job_shared_buffers_after_run] ++
              (if job.en_fast_perf then [JobEvent.dev_dump_profiling] else [])
            else []) }) ∧
    (job.m_subgraph_cnt = 0 ∨ dev.ret = AIPU_STATUS_SUCCESS →
      (job.get_status dev runtime_err_code).status = some AIPU_JOB_STATUS_DONE ∨
      (job.get_status dev runtime_err_code).status = some AIPU_JOB_STATUS_EXCEPTION ∨
      (job.get_status dev runtime_err_code).status = some AIPU_JOB_STATUS_NO_STATUS) ∧
    (job.m_subgraph_cnt = 0 ∨
        (dev.ret = AIPU_STATUS_SUCCESS ∧ parse_ret = AIPU_STATUS_SUCCESS) →
      (job.get_status_blocking time_out dev parse_ret runtime_err_code).status
        = some AIPU_JOB_STATUS_DONE ∨
      (job.get_status_blocking time_out dev parse_ret runtime_err_code).status
        = some AIPU_JOB_STATUS_EXCEPTION ∨
      (job.get_status_blocking time_out dev parse_ret runtime_err_code).status
        = some AIPU_JOB_STATUS_NO_STATUS) := by
  refine ⟨?_, ?_, ?_, ?_, ?_, ?_⟩
  · intro h0
    simp [JobBase.get_status, h0]
  · intro s h0 hr hnil hcons
    simp only [JobBase.get_status, h0, hr, if_false, ne_eq, not_true_eq_false]
    rcases hj : dev.jobs_status with _ | ⟨d, ds⟩
    · have hs := hnil hj
      subst hs
      simp only []
      split_ifs <;> rfl
    · have hs := hcons d ds hj
      subst hs
      simp only []
      split_ifs <;> rfl
  · intro h0
    simp only [JobBase.get_status_blocking, h0]
    cases job.m_job_cb <;> cases job.en_fast_perf <;> simp
  · intro h0 hr hp
    simp only [JobBase.get_status_blocking, h0, hr, hp, if_false, ne_eq, not_true_eq_false]
    split_ifs <;> simp
  · intro h
    by_cases h0 : job.m_subgraph_cnt = 0
    · simp [JobBase.get_status, h0]
    · have hr : dev.ret = AIPU_STATUS_SUCCESS := h.resolve_left h0
      simp only [JobBase.get_status, h0, hr]
      rcases hj : dev.jobs_status with _ | ⟨d, ds⟩
      · cases hs : dev.m_status <;> simp
      · cases hs : d.state <;> simp [hs]
  · intro h
    by_cases h0 : job.m_subgraph_cnt = 0
    · simp only [JobBase.get_status_blocking, h0]
      cases job.m_job_cb <;> cases job.en_fast_perf <;> simp
    · obtain ⟨hr, hp⟩ := h.resolve_left h0
      simp only [JobBase.get_status_blocking, h0, hr, hp]
      cases hs : dev.m_status <;> cases job.en_fast_perf <;> simp

/-- Worked instance of C17: the device call succeeds, stores no record and
leaves the job DONE, so the non-blocking query hands back DONE after the
device call and the two dump hooks. -/
theorem status_queries_hand_back_terminal_status_witness :
    (ex_job_cb AIPU_JOB_STATUS_SCHED 1).m_subgraph_cnt ≠ 0 ∧
    (ex_dev AIPU_JOB_STATUS_DONE).ret = AIPU_STATUS_SUCCESS ∧
    (ex_dev AIPU_JOB_STATUS_DONE).jobs_status = [] ∧
    (ex_job_cb AIPU_JOB_STATUS_SCHED 1).get_status (ex_dev AIPU_JOB_STATUS_DONE)
        AIPU_STATUS_SUCCESS =
      { ret := AIPU_STATUS_SUCCESS,
        status := some (if AIPU_JOB_STATUS_DONE = AIPU_JOB_STATUS_DONE ∨
            AIPU_JOB_STATUS_DONE = AIPU_JOB_STATUS_EXCEPTION then AIPU_JOB_STATUS_DONE
          else AIPU_JOB_STATUS_NO_STATUS),
        m_status := AIPU_JOB_STATUS_DONE,
        trace := JobEvent.dev_get_status ::
          (if AIPU_JOB_STATUS_DONE = AIPU_JOB_STATUS_DONE ∨
              AIPU_JOB_STATUS_DONE = AIPU_JOB_STATUS_EXCEPTION then
            [JobEvent.dump_job_private_buffers_after_run,
              JobEvent.dump_job_shared_buffers_after_run]
          else []) } :=
  ⟨by decide, rfl, rfl,
    (status_queries_hand_back_terminal_status (ex_job_cb AIPU_JOB_STATUS_SCHED 1)
      (ex_dev AIPU_JOB_STATUS_DONE) 0 AIPU_STATUS_SUCCESS AIPU_STATUS_SUCCESS).2.1
      AIPU_JOB_STATUS_DONE (by decide) rfl (fun _ => rfl)
      (fun d ds h => by simp [ex_dev] at h)⟩

/-! ## Lemmas on the device completion path -/

/-- One pass on a record whose job id is not in the job table. -/
theorem Aipu.get_status_loop_cons_unknown (get_job : Nat → Option Nat) (job : Nat)
    (r : aipu_job_status_desc) (rs : List aipu_job_status_desc) (ret : aipu_ll_status_t)
    (jobs : Nat → JobBase) (tr : List DevEvent) (h : get_job r.job_id = none) :
    Aipu.get_status_loop get_job job (r :: rs) ret jobs tr =
      Aipu.get_status_loop get_job job rs ret jobs tr := by
  simp [Aipu.get_status_loop, h]

/-- One pass on a record whose job is not in SCHED status: the call stays in
the `while`. -/
theorem Aipu.get_status_loop_cons_waiting (get_job : Nat → Option Nat) (job : Nat)
    (r : aipu_job_status_desc) (rs : List aipu_job_status_desc) (ret : aipu_ll_status_t)
    (jobs : Nat → JobBase) (tr : List DevEvent) (p : Nat) (h : get_job r.job_id = some p)
    (hs : (jobs p).m_status ≠ AIPU_JOB_STATUS_SCHED) :
    Aipu.get_status_loop get_job job (r :: rs) ret jobs tr =
      { ret := none, jobs := jobs, trace := tr } := by
  simp [Aipu.get_status_loop, h, hs]

/-- One pass on a record whose job is in SCHED status. -/
theorem Aipu.get_status_loop_cons_sched (get_job : Nat → Option Nat) (job : Nat)
    (r : aipu_job_status_desc) (rs : List aipu_job_status_desc) (ret : aipu_ll_status_t)
    (jobs : Nat → JobBase) (tr : List DevEvent) (p : Nat) (h : get_job r.job_id = some p)
    (hs : (jobs p).m_status = AIPU_JOB_STATUS_SCHED) :
    Aipu.get_status_loop get_job job (r :: rs) ret jobs tr =
      Aipu.get_status_loop get_job job rs
        (if p = job then AIPU_LL_STATUS_SUCCESS else ret)
        (update_job_status jobs p r.state)
        (tr ++ [DevEvent.update_job_status p AIPU_JOB_STATUS_SCHED r.state]
          ++ (if (jobs p).m_job_cb then [DevEvent.job_callback r.job_id r.state] else [])) := by
  simp [Aipu.get_status_loop, h, hs, update_job_status]

/-- The record loop over a concatenation: the second part runs from where the
first part ends, unless the first part never ends. -/
theorem Aipu.get_status_loop_append (get_job : Nat → Option Nat) (job : Nat)
    (pre post : List aipu_job_status_desc) (ret : aipu_ll_status_t)
    (jobs : Nat → JobBase) (tr : List DevEvent) :
    Aipu.get_status_loop get_job job (pre ++ post) ret jobs tr =
      match (Aipu.get_status_loop get_job job pre ret jobs tr).ret with
      | none => Aipu.get_status_loop get_job job pre ret jobs tr
      | some ret1 =>
        Aipu.get_status_loop get_job job post ret1
          (Aipu.get_status_loop get_job job pre ret jobs tr).jobs
          (Aipu.get_status_loop get_job job pre ret jobs tr).trace := by
  induction pre generalizing ret jobs tr with
  | nil => simp [Aipu.get_status_loop]
  | cons r rs ih =>
    rw [List.cons_append]
    cases h : get_job r.job_id with
    | none =>
      rw [Aipu.get_status_loop_cons_unknown _ _ _ _ _ _ _ h,
        Aipu.get_status_loop_cons_unknown _ _ _ _ _ _ _ h]
      exact ih _ _ _
    | some p =>
      by_cases hs : (jobs p).m_status = AIPU_JOB_STATUS_SCHED
      · rw [Aipu.get_status_loop_cons_sched _ _ _ _ _ _ _ _ h hs,
          Aipu.get_status_loop_cons_sched _ _ _ _ _ _ _ _ h hs]
        exact ih _ _ _
      · rw [Aipu.get_status_loop_cons_waiting _ _ _ _ _ _ _ _ h hs,
          Aipu.get_status_loop_cons_waiting _ _ _ _ _ _ _ _ h hs]

/-- The result of the record loop, when it ends: success exactly when it was
success before or some record is the polled job's. -/
theorem Aipu.get_status_loop_ret (get_job : Nat → Option Nat) (job : Nat)
    (batch : List aipu_job_status_desc) (ret0 ret : aipu_ll_status_t)
    (jobs : Nat → JobBase) (tr : List DevEvent)
    (h : (Aipu.get_status_loop get_job job batch ret0 jobs tr).ret = some ret) :
    (ret = AIPU_LL_STATUS_SUCCESS ∨ ret = ret0) ∧
    (ret = AIPU_LL_STATUS_SUCCESS ↔
      (ret0 = AIPU_LL_STATUS_SUCCESS ∨ ∃ r ∈ batch, get_job r.job_id = some job)) := by
  induction batch generalizing ret0 jobs tr with
  | nil =>
    simp only [Aipu.get_status_loop, Option.some.injEq] at h
    subst h
    simp
  | cons r rs ih =>
    cases hg : get_job r.job_id with
    | none =>
      rw [Aipu.get_status_loop_cons_unknown _ _ _ _ _ _ _ hg] at h
      have := ih _ _ _ h
      refine ⟨this.1, this.2.trans ?_⟩
      constructor
      · rintro (h1 | ⟨x, hx, hxj⟩)
        · exact Or.inl h1
        · exact Or.inr ⟨x, List.mem_cons_of_mem _ hx, hxj⟩
      · rintro (h1 | ⟨x, hx, hxj⟩)
        · exact Or.inl h1
        · rcases List.mem_cons.mp hx with rfl | hx
          · rw [hg] at hxj; exact Option.noConfusion hxj
          · exact Or.inr ⟨x, hx, hxj⟩
    | some p =>
      by_cases hs : (jobs p).m_status = AIPU_JOB_STATUS_SCHED
      · rw [Aipu.get_status_loop_cons_sched _ _ _ _ _ _ _ _ hg hs] at h
        have := ih _ _ _ h
        by_cases hp : p = job
        · simp only [hp, if_true, or_self, true_or, iff_true] at this
          subst hp
          refine ⟨Or.inl this.1, ?_⟩
          simp only [this.1, true_iff]
          exact Or.inr ⟨r, List.mem_cons_self _ _, hg⟩
        · simp only [hp, if_false] at this
          refine ⟨this.1, this.2.trans ?_⟩
          constructor
          · rintro (h1 | ⟨x, hx, hxj⟩)
            · exact Or.inl h1
            · exact Or.inr ⟨x, List.mem_cons_of_mem _ hx, hxj⟩
          · rintro (h1 | ⟨x, hx, hxj⟩)
            · exact Or.inl h1
            · rcases List.mem_cons.mp hx with rfl | hx
              · rw [hg] at hxj
                exact absurd (Option.some.inj hxj) hp
              · exact Or.inr ⟨x, hx, hxj⟩
      · rw [Aipu.get_status_loop_cons_waiting _ _ _ _ _ _ _ _ hg hs] at h
        exact Option.noConfusion h

/-- The record loop only overwrites a status that is SCHED, and a job whose
status has changed was in SCHED status before. -/
theorem Aipu.get_status_loop_updates (get_job : Nat → Option Nat) (job : Nat)
    (batch : List aipu_job_status_desc) (ret : aipu_ll_status_t) (jobs : Nat → JobBase)
    (tr : List DevEvent)
    (htr : ∀ p old new, DevEvent.update_job_status p old new ∈ tr →
      old = AIPU_JOB_STATUS_SCHED) :
    (∀ p old new, DevEvent.update_job_status p old new ∈
        (Aipu.get_status_loop get_job job batch ret jobs tr).trace →
      old = AIPU_JOB_STATUS_SCHED) ∧
    (∀ p, ((Aipu.get_status_loop get_job job batch ret jobs tr).jobs p).m_status
        ≠ (jobs p).m_status → (jobs p).m_status = AIPU_JOB_STATUS_SCHED) := by
  induction batch generalizing ret jobs tr with
  | nil =>
    simp only [Aipu.get_status_loop]
    exact ⟨htr, fun p h => absurd rfl h⟩
  | cons r rs ih =>
    cases hg : get_job r.job_id with
    | none =>
      rw [Aipu.get_status_loop_cons_unknown _ _ _ _ _ _ _ hg]
      exact ih _ _ _ htr
    | some q =>
      by_cases hs : (jobs q).m_status = AIPU_JOB_STATUS_SCHED
      · rw [Aipu.get_status_loop_cons_sched _ _ _ _ _ _ _ _ hg hs]
        have htr1 : ∀ p old new, DevEvent.update_job_status p old new ∈
            (tr ++ [DevEvent.update_job_status q AIPU_JOB_STATUS_SCHED r.state]
              ++ (if (jobs q).m_job_cb then [DevEvent.job_callback r.job_id r.state] else []))
            → old = AIPU_JOB_STATUS_SCHED := by
          intro p old new hmem
          rcases List.mem_append.mp hmem with h1 | h1
          · rcases List.mem_append.mp h1 with h2 | h2
            · exact htr p old new h2
            · simp only [List.mem_singleton, DevEvent.update_job_status.injEq] at h2
              exact h2.2.1
          · split_ifs at h1 <;> simp at h1
        have := ih (if q = job then AIPU_LL_STATUS_SUCCESS else ret)
          (update_job_status jobs q r.state) _ htr1
        refine ⟨this.1, ?_⟩
        intro p hp
        by_cases hpq : p = q
        · rw [hpq]; exact hs
        · have hsame : (update_job_status jobs q r.state p).m_status = (jobs p).m_status := by
            simp [update_job_status, hpq]
          have h2 := this.2 p (by rw [hsame]; exact hp)
          rw [hsame] at h2
          exact h2
      · rw [Aipu.get_status_loop_cons_waiting _ _ _ _ _ _ _ _ hg hs]
        exact ⟨htr, fun p h => absurd rfl h⟩

/-- The same for `Aipu::get_status`. -/
theorem Aipu.get_status_updates (get_job : Nat → Option Nat) (kret : Int)
    (batch : List aipu_job_status_desc) (job : Nat) (jobs : Nat → JobBase) :
    (∀ p old new, DevEvent.update_job_status p old new ∈
        (Aipu.get_status get_job kret batch job jobs).trace →
      old = AIPU_JOB_STATUS_SCHED) ∧
    (∀ p, ((Aipu.get_status get_job kret batch job jobs).jobs p).m_status
        ≠ (jobs p).m_status → (jobs p).m_status = AIPU_JOB_STATUS_SCHED) := by
  unfold Aipu.get_status
  split_ifs with hk
  · exact ⟨fun p old new h => by simp at h, fun p h => absurd rfl h⟩
  · exact Aipu.get_status_loop_updates get_job job batch _ jobs [] (fun p old new h => by simp at h)

/-- The same for the loop of `Aipu::poll_status`. -/
theorem Aipu.poll_status_loop_updates (get_job : Nat → Option Nat) (time_out : Int) (job : Nat)
    (rounds : List PollRound) (ret : aipu_ll_status_t) (jobs : Nat → JobBase)
    (tr : List DevEvent)
    (htr : ∀ p old new, DevEvent.update_job_status p old new ∈ tr →
      old = AIPU_JOB_STATUS_SCHED) :
    (∀ p old new, DevEvent.update_job_status p old new ∈
        (Aipu.poll_status_loop get_job time_out job rounds ret jobs tr).trace →
      old = AIPU_JOB_STATUS_SCHED) ∧
    (∀ p, ((Aipu.poll_status_loop get_job time_out job rounds ret jobs tr).jobs p).m_status
        ≠ (jobs p).m_status → (jobs p).m_status = AIPU_JOB_STATUS_SCHED) := by
  induction rounds generalizing ret jobs tr with
  | nil =>
    unfold Aipu.poll_status_loop
    split_ifs <;> exact ⟨htr, fun p h => absurd rfl h⟩
  | cons r rs ih =>
    have triv : (∀ p old new, DevEvent.update_job_status p old new ∈ tr →
        old = AIPU_JOB_STATUS_SCHED) ∧
        (∀ p, (jobs p).m_status ≠ (jobs p).m_status →
          (jobs p).m_status = AIPU_JOB_STATUS_SCHED) :=
      ⟨htr, fun p h => absurd rfl h⟩
    have hg := Aipu.get_status_updates get_job r.query_kret r.batch job jobs
    have hcat : ∀ p old new, DevEvent.update_job_status p old new ∈
        tr ++ (Aipu.get_status get_job r.query_kret r.batch job jobs).trace →
        old = AIPU_JOB_STATUS_SCHED := by
      intro p old new hmem
      rcases List.mem_append.mp hmem with h1 | h1
      · exact htr p old new h1
      · exact hg.1 p old new h1
    by_cases h1 : (jobs job).m_status ≠ AIPU_JOB_STATUS_SCHED
    · simp only [Aipu.poll_status_loop, h1, if_true]
      split_ifs <;> exact triv
    by_cases h3 : r.kret < 0
    · simp only [Aipu.poll_status_loop, h1, h3, if_true, if_false]
      exact triv
    by_cases h4 : r.kret = 0
    · simp only [Aipu.poll_status_loop, h1, h3, h4, if_true, if_false]
      exact triv
    cases h5 : r.pollin with
    | false =>
      by_cases h6 : time_out = -1
      · subst h6
        simp only [Aipu.poll_status_loop, h1, h3, h4, h5, Bool.false_eq_true, if_true, if_false]
        exact ih ret jobs tr htr
      · simp only [Aipu.poll_status_loop, h1, h3, h4, h5, h6, Bool.false_eq_true, if_true,
          if_false]
        exact triv
    | true =>
      cases hr : (Aipu.get_status get_job r.query_kret r.batch job jobs).ret with
      | none =>
        simp only [Aipu.poll_status_loop, h1, h3, h4, h5, hr, if_true, if_false]
        exact ⟨hcat, hg.2⟩
      | some ret1 =>
        by_cases h7 : ret1 = AIPU_LL_STATUS_SUCCESS
        · simp only [Aipu.poll_status_loop, h1, h3, h4, h5, hr, h7, if_true, if_false]
          exact ⟨hcat, hg.2⟩
        by_cases h6 : time_out = -1
        · subst h6
          simp only [Aipu.poll_status_loop, h1, h3, h4, h5, hr, h7, if_true, if_false]
          have := ih ret1 (Aipu.get_status get_job r.query_kret r.batch job jobs).jobs _ hcat
          refine ⟨this.1, ?_⟩
          intro p hp
          by_cases hch : ((Aipu.get_status get_job r.query_kret r.batch job jobs).jobs p).m_status
              = (jobs p).m_status
          · have h2 := this.2 p (by rw [hch]; exact hp)
            rw [hch] at h2
            exact h2
          · exact hg.2 p hch
        · simp only [Aipu.poll_status_loop, h1, h3, h4, h5, hr, h7, h6, if_true, if_false]
          exact ⟨hcat, hg.2⟩

/-- With the polled job in SCHED status, a failing first `poll` gives the
poll-failure code and a first `poll` that times out gives the poll-timeout
code. -/
theorem Aipu.poll_status_first_round (get_job : Nat → Option Nat) (time_out : Int) (job : Nat)
    (r : PollRound) (rs : List PollRound) (jobs : Nat → JobBase)
    (hs : (jobs job).m_status = AIPU_JOB_STATUS_SCHED) :
    (r.kret < 0 → Aipu.poll_status get_job time_out job (r :: rs) jobs =
      { ret := some AIPU_LL_STATUS_ERROR_POLL_FAIL, jobs := jobs, trace := [] }) ∧
    (r.kret = 0 → Aipu.poll_status get_job time_out job (r :: rs) jobs =
      { ret := some AIPU_LL_STATUS_ERROR_POLL_TIMEOUT, jobs := jobs, trace := [] }) := by
  have hd : ¬ (jobs job).m_status = AIPU_JOB_STATUS_DONE := by rw [hs]; decide
  constructor
  · intro hk
    simp [Aipu.poll_status, Aipu.poll_status_loop, hd, hs, hk]
  · intro hk
    simp [Aipu.poll_status, Aipu.poll_status_loop, hd, hs, hk]

/-- On a batch in which every record of a live job finds that job in SCHED
status and no two records are for the same job, the record loop ends, and it
leaves untouched every job that no record of the batch resolves to. -/
theorem Aipu.get_status_loop_returns (get_job : Nat → Option Nat) (job : Nat)
    (batch : List aipu_job_status_desc) (ret : aipu_ll_status_t) (jobs : Nat → JobBase)
    (tr : List DevEvent)
    (hsched : ∀ r ∈ batch, ∀ p, get_job r.job_id = some p →
      (jobs p).m_status = AIPU_JOB_STATUS_SCHED)
    (hnodup : (batch.filterMap (fun r => get_job r.job_id)).Nodup) :
    (∃ ret1, (Aipu.get_status_loop get_job job batch ret jobs tr).ret = some ret1) ∧
    (∀ q, q ∉ batch.filterMap (fun r => get_job r.job_id) →
      (Aipu.get_status_loop get_job job batch ret jobs tr).jobs q = jobs q) := by
  induction batch generalizing ret jobs tr with
  | nil =>
    exact ⟨⟨ret, rfl⟩, fun _ _ => rfl⟩
  | cons r rs ih =>
    cases hg : get_job r.job_id with
    | none =>
      rw [Aipu.get_status_loop_cons_unknown _ _ _ _ _ _ _ hg]
      have hfm : (r :: rs).filterMap (fun r => get_job r.job_id)
          = rs.filterMap (fun r => get_job r.job_id) := by
        simp [List.filterMap_cons, hg]
      rw [hfm] at hnodup ⊢
      exact ih ret jobs tr (fun x hx => hsched x (List.mem_cons_of_mem _ hx)) hnodup
    | some p =>
      have hfm : (r :: rs).filterMap (fun r => get_job r.job_id)
          = p :: rs.filterMap (fun r => get_job r.job_id) := by
        simp [List.filterMap_cons, hg]
      rw [hfm] at hnodup ⊢
      have hs : (jobs p).m_status = AIPU_JOB_STATUS_SCHED :=
        hsched r (List.mem_cons_self _ _) p hg
      rw [Aipu.get_status_loop_cons_sched _ _ _ _ _ _ _ _ hg hs]
      have hp : p ∉ rs.filterMap (fun r => get_job r.job_id) := (List.nodup_cons.mp hnodup).1
      have hrs := ih (if p = job then AIPU_LL_STATUS_SUCCESS else ret)
        (update_job_status jobs p r.state)
        (tr ++ [DevEvent.update_job_status p AIPU_JOB_STATUS_SCHED r.state]
          ++ (if (jobs p).m_job_cb then [DevEvent.job_callback r.job_id r.state] else []))
        (by
          intro x hx q hq
          have hqp : q ≠ p := by
            intro h
            apply hp
            rw [← h]
            exact List.mem_filterMap.mpr ⟨x, hx, hq⟩
          have : (update_job_status jobs p r.state q) = jobs q := by
            simp [update_job_status, hqp]
          rw [this]
          exact hsched x (List.mem_cons_of_mem _ hx) q hq)
        (List.nodup_cons.mp hnodup).2
      refine ⟨hrs.1, ?_⟩
      intro q hq
      have hq1 : q ≠ p := fun h => hq (by rw [h]; exact List.mem_cons_self _ _)
      have hq2 : q ∉ rs.filterMap (fun r => get_job r.job_id) :=
        fun h => hq (List.mem_cons_of_mem _ h)
      rw [hrs.2 q hq2]
      simp [update_job_status, hq1]


/-! ## Claims on the device completion path -/

/-- Claim C18: if the status-query request fails, `Aipu::get_status` returns
the query-status failure code, updates no job and runs no callback. For a
batch returned by a successful request, in which every record of a live job
is for a job in SCHED status (a job that was scheduled, so that the wait for
SCHED is passed) and no two records are for the same job, the call processes
the records in order and returns: after the records `pre`, a record whose id
resolves to no job changes nothing, and a record whose id resolves to a live
job sets that job's status to the record's state and then invokes that job's
callback (if registered) once with (record job id, record state). The result
is `AIPU_LL_STATUS_SUCCESS` if and only if some record resolves to the polled
job itself, and `AIPU_LL_STATUS_JOB_NO_DONE` if and only if none does
(including an empty batch). -/
theorem Aipu_get_status_processes_batch_in_order (get_job : Nat → Option Nat) (job : Nat)
    (jobs : Nat → JobBase) :
    (∀ (kret : Int) (batch : List aipu_job_status_desc), kret ≠ 0 →
      Aipu.get_status get_job kret batch job jobs =
        { ret := some AIPU_LL_STATUS_ERROR_IOCTL_QUERY_STATUS_FAIL, jobs := jobs, trace := [] }) ∧
    (∀ (pre : List aipu_job_status_desc) (r : aipu_job_status_desc),
      (∀ x ∈ pre ++ [r], ∀ p, get_job x.job_id = some p →
        (jobs p).m_status = AIPU_JOB_STATUS_SCHED) →
      ((pre ++ [r]).filterMap (fun x => get_job x.job_id)).Nodup →
      ∃ ret1, (Aipu.get_status get_job 0 pre job jobs).ret = some ret1 ∧
        (get_job r.job_id = none →
          Aipu.get_status get_job 0 (pre ++ [r]) job jobs
            = Aipu.get_status get_job 0 pre job jobs) ∧
        (∀ p, get_job r.job_id = some p →
          Aipu.get_status get_job 0 (pre ++ [r]) job jobs =
            { ret := some (if p = job then AIPU_LL_STATUS_SUCCESS else ret1),
              jobs :=
                update_job_status (Aipu.get_status get_job 0 pre job jobs).jobs p r.state,
              trace := (Aipu.get_status get_job 0 pre job jobs).trace
                ++ [DevEvent.update_job_status p AIPU_JOB_STATUS_SCHED r.state]
                ++ (if (jobs p).m_job_cb then [DevEvent.job_callback r.job_id r.state]
                    else []) })) ∧
    (∀ batch : List aipu_job_status_desc,
      (∀ x ∈ batch, ∀ p, get_job x.job_id = some p →
        (jobs p).m_status = AIPU_JOB_STATUS_SCHED) →
      (batch.filterMap (fun x => get_job x.job_id)).Nodup →
      ∃ ret, (Aipu.get_status get_job 0 batch job jobs).ret = some ret ∧
        (ret = AIPU_LL_STATUS_SUCCESS ↔ ∃ r ∈ batch, get_job r.job_id = some job) ∧
        (ret = AIPU_LL_STATUS_JOB_NO_DONE ↔ ¬ ∃ r ∈ batch, get_job r.job_id = some job)) := by
  refine ⟨?_, ?_, ?_⟩
  · intro kret batch hk
    simp [Aipu.get_status, hk]
  · intro pre r hsched hnodup
    have hsched1 : ∀ x ∈ pre, ∀ p, get_job x.job_id = some p →
        (jobs p).m_status = AIPU_JOB_STATUS_SCHED :=
      fun x hx => hsched x (List.mem_append_left _ hx)
    rw [List.filterMap_append] at hnodup
    have hnodup1 : (pre.filterMap (fun x => get_job x.job_id)).Nodup :=
      (List.nodup_append.mp hnodup).1
    obtain ⟨⟨ret1, hret1⟩, hframe⟩ := Aipu.get_status_loop_returns get_job job pre
      AIPU_LL_STATUS_JOB_NO_DONE jobs [] hsched1 hnodup1
    refine ⟨ret1, ?_, ?_, ?_⟩
    · simp only [Aipu.get_status, ne_eq, not_true_eq_false, if_false]
      exact hret1
    · intro hn
      simp only [Aipu.get_status, ne_eq, not_true_eq_false, if_false]
      rw [Aipu.get_status_loop_append, hret1]
      simp only []
      rw [Aipu.get_status_loop_cons_unknown _ _ _ _ _ _ _ hn]
      simp only [Aipu.get_status_loop]
      rw [← hret1]
    · intro p hp
      have hpn : p ∉ pre.filterMap (fun x => get_job x.job_id) := by
        intro hmem
        have hdis := (List.nodup_append.mp hnodup).2.2
        exact hdis hmem (by simp [List.filterMap_cons, hp])
      have hjob := hframe p hpn
      have hs : ((Aipu.get_status_loop get_job job pre AIPU_LL_STATUS_JOB_NO_DONE jobs []).jobs
          p).m_status = AIPU_JOB_STATUS_SCHED := by
        rw [hjob]
        exact hsched r (List.mem_append_right _ (List.mem_singleton_self _)) p hp
      simp only [Aipu.get_status, ne_eq, not_true_eq_false, if_false]
      rw [Aipu.get_status_loop_append, hret1]
      simp only []
      rw [Aipu.get_status_loop_cons_sched _ _ _ _ _ _ _ _ hp hs]
      simp only [Aipu.get_status_loop]
      rw [hjob]
  · intro batch hsched hnodup
    obtain ⟨⟨ret, hret⟩, _⟩ := Aipu.get_status_loop_returns get_job job batch
      AIPU_LL_STATUS_JOB_NO_DONE jobs [] hsched hnodup
    have key := Aipu.get_status_loop_ret get_job job batch _ ret jobs [] hret
    have hne : AIPU_LL_STATUS_JOB_NO_DONE ≠ AIPU_LL_STATUS_SUCCESS := by decide
    simp only [hne, false_or] at key
    refine ⟨ret, ?_, key.2, ?_⟩
    · simp only [Aipu.get_status, ne_eq, not_true_eq_false, if_false]
      exact hret
    · rw [← key.2]
      rcases key.1 with h1 | h1 <;> simp [h1]

/-- Worked instance of C18: the one record of the batch, for job 7, finds the
polled job in SCHED status, so the call sets it DONE, runs its callback and
returns success. -/
theorem Aipu_get_status_processes_batch_in_order_witness :
    (∀ x ∈ [ex_record], ∀ p, ex_get_job x.job_id = some p →
      (ex_jobs AIPU_JOB_STATUS_SCHED p).m_status = AIPU_JOB_STATUS_SCHED) ∧
    ([ex_record].filterMap (fun x => ex_get_job x.job_id)).Nodup ∧
    ∃ ret, (Aipu.get_status ex_get_job 0 [ex_record] 0 (ex_jobs AIPU_JOB_STATUS_SCHED)).ret
        = some ret ∧
      (ret = AIPU_LL_STATUS_SUCCESS ↔ ∃ r ∈ [ex_record], ex_get_job r.job_id = some 0) ∧
      (ret = AIPU_LL_STATUS_JOB_NO_DONE ↔ ¬ ∃ r ∈ [ex_record], ex_get_job r.job_id = some 0) :=
  ⟨fun _ _ _ _ => rfl, by decide,
    (Aipu_get_status_processes_batch_in_order ex_get_job 0
      (ex_jobs AIPU_JOB_STATUS_SCHED)).2.2 [ex_record] (fun _ _ _ _ => rfl) (by decide)⟩

/-- Claim C19: on the device completion path, run by one thread, the status of
a job is overwritten with a reported state only at a point where the job's
current status is SCHED. Every status overwrite made by `Aipu::get_status`, and
by `Aipu::poll_status` through it, replaces the status SCHED (so every DONE or
EXCEPTION written is immediately preceded by SCHED), and a job whose status
differs after the call was in SCHED status before it. -/
theorem completion_path_overwrites_only_sched (get_job : Nat → Option Nat) (job : Nat)
    (jobs : Nat → JobBase) :
    (∀ (kret : Int) (batch : List aipu_job_status_desc) (p : Nat)
        (old new : aipu_job_status_t),
      DevEvent.update_job_status p old new ∈
          (Aipu.get_status get_job kret batch job jobs).trace →
        old = AIPU_JOB_STATUS_SCHED) ∧
    (∀ (kret : Int) (batch : List aipu_job_status_desc) (p : Nat),
      ((Aipu.get_status get_job kret batch job jobs).jobs p).m_status ≠ (jobs p).m_status →
        (jobs p).m_status = AIPU_JOB_STATUS_SCHED) ∧
    (∀ (time_out : Int) (rounds : List PollRound) (p : Nat) (old new : aipu_job_status_t),
      DevEvent.update_job_status p old new ∈
          (Aipu.poll_status get_job time_out job rounds jobs).trace →
        old = AIPU_JOB_STATUS_SCHED) ∧
    (∀ (time_out : Int) (rounds : List PollRound) (p : Nat),
      ((Aipu.poll_status get_job time_out job rounds jobs).jobs p).m_status
          ≠ (jobs p).m_status →
        (jobs p).m_status = AIPU_JOB_STATUS_SCHED) := by
  have hpoll : ∀ (time_out : Int) (rounds : List PollRound),
      (∀ p old new, DevEvent.update_job_status p old new ∈
          (Aipu.poll_status get_job time_out job rounds jobs).trace →
        old = AIPU_JOB_STATUS_SCHED) ∧
      (∀ p, ((Aipu.poll_status get_job time_out job rounds jobs).jobs p).m_status
          ≠ (jobs p).m_status → (jobs p).m_status = AIPU_JOB_STATUS_SCHED) := by
    intro time_out rounds
    unfold Aipu.poll_status
    split_ifs with hd
    · exact ⟨fun p old new h => by simp at h, fun p h => absurd rfl h⟩
    · exact Aipu.poll_status_loop_updates get_job time_out job rounds _ jobs []
        (fun p old new h => by simp at h)
  exact ⟨fun kret batch => (Aipu.get_status_updates get_job kret batch job jobs).1,
    fun kret batch => (Aipu.get_status_updates get_job kret batch job jobs).2,
    fun time_out rounds => (hpoll time_out rounds).1,
    fun time_out rounds => (hpoll time_out rounds).2⟩

/-- Worked instance of C19: the record for job 7 overwrites SCHED with DONE. -/
theorem completion_path_overwrites_only_sched_witness :
    DevEvent.update_job_status 0 AIPU_JOB_STATUS_SCHED AIPU_JOB_STATUS_DONE ∈
      (Aipu.get_status ex_get_job 0 [ex_record] 0 (ex_jobs AIPU_JOB_STATUS_SCHED)).trace ∧
    ((Aipu.get_status ex_get_job 0 [ex_record] 0 (ex_jobs AIPU_JOB_STATUS_SCHED)).jobs 0).m_status
      ≠ (ex_jobs AIPU_JOB_STATUS_SCHED 0).m_status ∧
    (ex_jobs AIPU_JOB_STATUS_SCHED 0).m_status = AIPU_JOB_STATUS_SCHED :=
  ⟨by decide, by decide,
    (completion_path_overwrites_only_sched ex_get_job 0 (ex_jobs AIPU_JOB_STATUS_SCHED)).2.1
      0 [ex_record] 0 (by decide)⟩

/-- Claim C20, evaluated at two failing inputs. With a timeout of 0 and the
polled job in INIT status, `Aipu::poll_status` returns
`AIPU_LL_STATUS_SUCCESS` at once and the job is still in INIT status. With a
timeout of 100, the polled job in SCHED status and a wake-up of `poll` that
carries no `POLLIN`, it returns `AIPU_LL_STATUS_SUCCESS` and the job is still
in SCHED status. -/
theorem Aipu_poll_status_success_without_completion :
    (Aipu.poll_status ex_get_job 0 0 [] (ex_jobs AIPU_JOB_STATUS_INIT)).ret
      = some AIPU_LL_STATUS_SUCCESS ∧
    ((Aipu.poll_status ex_get_job 0 0 [] (ex_jobs AIPU_JOB_STATUS_INIT)).jobs 0).m_status
      = AIPU_JOB_STATUS_INIT ∧
    (Aipu.poll_status ex_get_job 100 0
        [{ kret := 1, pollin := false, query_kret := 0, batch := [] }]
        (ex_jobs AIPU_JOB_STATUS_SCHED)).ret = some AIPU_LL_STATUS_SUCCESS ∧
    ((Aipu.poll_status ex_get_job 100 0
        [{ kret := 1, pollin := false, query_kret := 0, batch := [] }]
        (ex_jobs AIPU_JOB_STATUS_SCHED)).jobs 0).m_status = AIPU_JOB_STATUS_SCHED := by
  decide

/-! ## Claims on the sizes and sections of `Graph` -/

/-- Claim C21: a graph that declares zero weight still reserves the 4 KiB
placeholder. For every zero-copy size `z`, after `set_const_size(0, 0, z)`
`get_const_size(0)` is 4096 and `get_zerocpy_const_size(0)` is `z`; for every
`c > 0`, after `set_const_size(0, c, z)` `get_const_size(0)` is `c` and
`get_zerocpy_const_size(0)` is `z`. -/
theorem set_const_size_reserves_placeholder (g : Graph) (z : Nat) :
    (g.set_const_size 0 0 z).get_const_size 0 = 4096 ∧
    (g.set_const_size 0 0 z).get_zerocpy_const_size 0 = z ∧
    (∀ c, 0 < c → (g.set_const_size 0 c z).get_const_size 0 = c ∧
      (g.set_const_size 0 c z).get_zerocpy_const_size 0 = z) := by
  refine ⟨by simp [Graph.set_const_size, Graph.get_const_size],
    by simp [Graph.set_const_size, Graph.get_zerocpy_const_size], ?_⟩
  intro c hc
  have hne : c ≠ 0 := Nat.pos_iff_ne_zero.mp hc
  simp [Graph.set_const_size, Graph.get_const_size, Graph.get_zerocpy_const_size, hne]

/-- Worked instance of C21: a constant size of 8192 and a zero-copy size of 64
are stored as given. -/
theorem set_const_size_reserves_placeholder_witness :
    (0 : Nat) < 8192 ∧ (ex_graph.set_const_size 0 8192 64).get_const_size 0 = 8192 ∧
      (ex_graph.set_const_size 0 8192 64).get_zerocpy_const_size 0 = 64 :=
  ⟨by decide, (set_const_size_reserves_placeholder ex_graph 64).2.2 8192 (by decide)⟩

/-- Claim C22: for every global-parameter section of at least 4 bytes, after
`set_modle_global_param` `is_dynamic_shape()` is true exactly when the first
32-bit field of the section is strictly less than the section size; when the
field is at least the size, `is_dynamic_shape()` is false,
`get_dynamic_shape_num()` is 0 and the stored global-parameter section is the
one the graph had before the call. -/
theorem set_modle_global_param_dynamic_iff_offset_in_section (g : Graph)
    (mgp_section : BinSection) (_hsize : 4 ≤ mgp_section.size) :
    ((g.set_modle_global_param mgp_section).is_dynamic_shape = true ↔
      mgp_section.va.read32 0 < mgp_section.size) ∧
    (mgp_section.size ≤ mgp_section.va.read32 0 →
      (g.set_modle_global_param mgp_section).is_dynamic_shape = false ∧
      (g.set_modle_global_param mgp_section).get_dynamic_shape_num = 0 ∧
      (g.set_modle_global_param mgp_section).m_bglobalparam = g.m_bglobalparam) := by
  unfold Graph.set_modle_global_param
  by_cases h : mgp_section.va.read32 0 ≥ mgp_section.size
  · have h' : ¬ mgp_section.va.read32 0 < mgp_section.size := Nat.not_lt.mpr h
    simp [h, h', Graph.is_dynamic_shape, Graph.get_dynamic_shape_num]
  · have h' : mgp_section.va.read32 0 < mgp_section.size := Nat.lt_of_not_le h
    have h2 : ¬ mgp_section.size ≤ mgp_section.va.read32 0 := h
    simp [h2, h', Graph.is_dynamic_shape]

/-- Worked instance of C22: an 8-byte section whose first field is 16 leaves
the graph static-shape. -/
theorem set_modle_global_param_dynamic_iff_offset_in_section_witness :
    4 ≤ (ex_words [16, 0]).size ∧
    (ex_words [16, 0]).size ≤ (ex_words [16, 0]).va.read32 0 ∧
    (ex_graph.set_modle_global_param (ex_words [16, 0])).is_dynamic_shape = false :=
  ⟨by decide, by decide,
    ((set_modle_global_param_dynamic_iff_offset_in_section ex_graph (ex_words [16, 0])
      (by decide)).2 (by decide)).1⟩

/-! ## Lemmas on `put_start_group_id` -/

/-- The release loop over a block that ends at or below 65535 ends after `k`
rounds, with the block cleared and its indices written in increasing order. -/
theorem put_start_group_id_loop_ends (k : Nat) :
    ∀ (i fuel : Nat) (bitmap : Nat → Bool) (writes : List Nat),
      i + k ≤ 65535 → k < fuel →
      put_start_group_id_loop ((i : Int) + (k : Int)) fuel i bitmap writes =
        some (fun j => if i ≤ j ∧ j < i + k then false else bitmap j,
          writes ++ List.range' i k) := by
  induction k with
  | zero =>
    intro i fuel bitmap writes _ hf
    obtain ⟨f, rfl⟩ : ∃ f, fuel = f + 1 := ⟨fuel - 1, by omega⟩
    have hlt : ¬ ((i : Int) < (i : Int) + ((0 : Nat) : Int)) := by omega
    simp only [put_start_group_id_loop, hlt, if_false, List.range'_zero, List.append_nil,
      Nat.add_zero]
    congr 2
    funext j
    have : ¬ (i ≤ j ∧ j < i) := by omega
    simp [this]
  | succ k ih =>
    intro i fuel bitmap writes hfit hf
    obtain ⟨f, rfl⟩ : ∃ f, fuel = f + 1 := ⟨fuel - 1, by omega⟩
    have hlt : (i : Int) < (i : Int) + ((k + 1 : Nat) : Int) := by omega
    have hwrap : (i + 1) % 2 ^ 16 = i + 1 := Nat.mod_eq_of_lt (by omega)
    have hb : (i : Int) + ((k + 1 : Nat) : Int) = ((i + 1 : Nat) : Int) + (k : Int) := by
      push_cast; ring
    simp only [put_start_group_id_loop, hlt, if_true, hwrap]
    rw [hb, ih (i + 1) f _ _ (by omega) (by omega)]
    congr 2
    · funext j
      by_cases h1 : i + 1 ≤ j ∧ j < i + 1 + k
      · have h2 : i ≤ j ∧ j < i + (k + 1) := by omega
        simp [h1, h2]
      · by_cases h3 : j = i
        · have h2 : i ≤ j ∧ j < i + (k + 1) := by omega
          simp [h1, h2, h3]
        · have h2 : ¬ (i ≤ j ∧ j < i + (k + 1)) := by omega
          simp [h1, h2, h3]
    · simp [List.range'_succ]

/-- A bound of 65536 or more is never reached by the 16-bit counter: the loop
does not end, whatever the fuel. -/
theorem put_start_group_id_loop_none (bound : Int) (hb : 65536 ≤ bound) (fuel : Nat) :
    ∀ (i : Nat) (bitmap : Nat → Bool) (writes : List Nat), i < 65536 →
      put_start_group_id_loop bound fuel i bitmap writes = none := by
  induction fuel with
  | zero => intro i bitmap writes _; rfl
  | succ f ih =>
    intro i bitmap writes hi
    have hlt : (i : Int) < bound := by omega
    simp only [put_start_group_id_loop, hlt, if_true]
    exact ih _ _ _ (Nat.mod_lt _ (by norm_num))

/-- A bound at or below the start ends the loop at its first test. -/
theorem put_start_group_id_loop_empty (bound : Int) (i fuel : Nat) (bitmap : Nat → Bool)
    (writes : List Nat) (hb : bound ≤ (i : Int)) (hf : 0 < fuel) :
    put_start_group_id_loop bound fuel i bitmap writes = some (bitmap, writes) := by
  obtain ⟨f, rfl⟩ : ∃ f, fuel = f + 1 := ⟨fuel - 1, by omega⟩
  have hlt : ¬ ((i : Int) < bound) := by omega
  simp only [put_start_group_id_loop, hlt, if_false]

/-- Closed form of `put_start_group_id` on a block that ends at or below
65535. -/
theorem put_start_group_id_eq (bitmap : Nat → Bool) (start cnt fuel : Nat)
    (hfit : start + cnt ≤ 65535) (hfuel : cnt < fuel) :
    put_start_group_id fuel bitmap start (cnt : Int) =
      some (0, fun j => if start ≤ j ∧ j < start + cnt then false else bitmap j,
        List.range' start cnt) := by
  unfold put_start_group_id
  rw [put_start_group_id_loop_ends cnt start fuel bitmap [] hfit hfuel]
  simp

/-! ## Claims on the release of group ids -/

/-- Claim C23: for every `start_group_id` and `group_cnt ≥ 0` with
`start_group_id + group_cnt ≤ MAX_GROUP_ID`, `put_start_group_id` returns 0
(the loop ends within `group_cnt + 1` tests of its condition), sets the
bitmap to false at every index of `[start_group_id, start_group_id +
group_cnt)`, writes exactly those indices, leaves every other entry of the
bitmap unchanged, and a second call on the resulting bitmap gives the same
bitmap again. -/
theorem put_start_group_id_releases_block (bitmap : Nat → Bool) (start_group_id group_cnt : Nat)
    (fuel : Nat) (hfit : start_group_id + group_cnt ≤ MAX_GROUP_ID) (hfuel : group_cnt < fuel) :
    ∃ bitmap1 : Nat → Bool,
      put_start_group_id fuel bitmap start_group_id (group_cnt : Int)
        = some (0, bitmap1, List.range' start_group_id group_cnt) ∧
      (∀ i, start_group_id ≤ i → i < start_group_id + group_cnt → bitmap1 i = false) ∧
      (∀ i, i < start_group_id ∨ start_group_id + group_cnt ≤ i → bitmap1 i = bitmap i) ∧
      put_start_group_id fuel bitmap1 start_group_id (group_cnt : Int)
        = some (0, bitmap1, List.range' start_group_id group_cnt) := by
  have hfit' : start_group_id + group_cnt ≤ 65535 := by
    unfold MAX_GROUP_ID at hfit; omega
  refine ⟨fun j => if start_group_id ≤ j ∧ j < start_group_id + group_cnt then false
      else bitmap j, put_start_group_id_eq bitmap start_group_id group_cnt fuel hfit' hfuel,
    ?_, ?_, ?_⟩
  · intro i h1 h2
    simp [h1, h2]
  · intro i h
    have : ¬ (start_group_id ≤ i ∧ i < start_group_id + group_cnt) := by omega
    simp [this]
  · rw [put_start_group_id_eq _ start_group_id group_cnt fuel hfit' hfuel]
    congr 3
    funext j
    by_cases h : start_group_id ≤ j ∧ j < start_group_id + group_cnt <;> simp [h]

/-- Worked instance of C23: releasing the block of 3 group ids that starts at
100. -/
theorem put_start_group_id_releases_block_witness :
    100 + 3 ≤ MAX_GROUP_ID ∧ 3 < 4 ∧
    ∃ bitmap1 : Nat → Bool,
      put_start_group_id 4 ex_bitmap 100 ((3 : Nat) : Int)
        = some (0, bitmap1, List.range' 100 3) ∧
      (∀ i, 100 ≤ i → i < 100 + 3 → bitmap1 i = false) :=
  ⟨by decide, by decide,
    let ⟨b, h1, h2, _⟩ := put_start_group_id_releases_block ex_bitmap 100 3 4 (by decide)
      (by decide)
    ⟨b, h1, h2⟩⟩

/-- Counterexample to C29 as stated. With `start_group_id = 40000` and
`group_cnt = 1` the loop writes index 40000, which is not below
`MAX_GROUP_ID`; with `start_group_id = 65535` and `group_cnt = 1` the bound is
65536, the 16-bit counter wraps from 65535 to 0 and the loop never ends. -/
theorem put_start_group_id_leaves_bitmap_or_never_ends :
    (put_start_group_id 5 ex_bitmap 40000 1).map (fun r => r.2.2) = some [40000] ∧
    ¬ (40000 < MAX_GROUP_ID) ∧
    (∀ fuel, put_start_group_id fuel ex_bitmap 65535 1 = none) := by
  refine ⟨by decide, by decide, ?_⟩
  intro fuel
  unfold put_start_group_id
  rw [put_start_group_id_loop_none _ (by norm_num) fuel 65535 _ _ (by norm_num)]

/-- Claim C29, amended: for a 16-bit `start_group_id` and an `int` `group_cnt`
whose sum fits an `int`, there are three cases. When `group_cnt ≤ 0` the
release loop ends at its first test and writes nothing. When `group_cnt > 0`
and `start_group_id + group_cnt ≤ 65535` the loop ends after `group_cnt`
writes, at exactly the indices of `[start_group_id, start_group_id +
group_cnt)`; these are all below `MAX_GROUP_ID` when `start_group_id +
group_cnt ≤ MAX_GROUP_ID`, and otherwise the last of them,
`start_group_id + group_cnt - 1`, is written and lies outside the bitmap. When
`start_group_id + group_cnt ≥ 65536` the 16-bit counter never reaches the
bound and the loop never ends. -/
theorem put_start_group_id_total_on_valid_blocks (bitmap : Nat → Bool) (start_group_id : Nat)
    (group_cnt : Int) (hstart : start_group_id < 2 ^ 16)
    (_hsum : (start_group_id : Int) + group_cnt < 2 ^ 31) :
    (group_cnt ≤ 0 → ∀ fuel, 0 < fuel →
      put_start_group_id fuel bitmap start_group_id group_cnt = some (0, bitmap, [])) ∧
    (∀ cnt : Nat, group_cnt = (cnt : Int) → 0 < cnt → start_group_id + cnt ≤ 65535 →
      ∀ fuel, cnt < fuel →
      put_start_group_id fuel bitmap start_group_id group_cnt
        = some (0, fun j => if start_group_id ≤ j ∧ j < start_group_id + cnt then false
            else bitmap j, List.range' start_group_id cnt) ∧
      (start_group_id + cnt ≤ MAX_GROUP_ID →
        ∀ i ∈ List.range' start_group_id cnt, i < MAX_GROUP_ID) ∧
      (MAX_GROUP_ID < start_group_id + cnt →
        start_group_id + cnt - 1 ∈ List.range' start_group_id cnt ∧
        MAX_GROUP_ID ≤ start_group_id + cnt - 1)) ∧
    ((start_group_id : Int) + group_cnt ≥ 65536 → ∀ fuel,
      put_start_group_id fuel bitmap start_group_id group_cnt = none) := by
  refine ⟨?_, ?_, ?_⟩
  · intro hneg fuel hf
    unfold put_start_group_id
    rw [put_start_group_id_loop_empty _ _ _ _ _ (by omega) hf]
  · intro cnt hc hpos hfit fuel hfuel
    refine ⟨by rw [hc]; exact put_start_group_id_eq bitmap start_group_id cnt fuel hfit hfuel,
      ?_, ?_⟩
    · intro hmax i hi
      rw [List.mem_range'_1] at hi
      omega
    · intro hmax
      rw [List.mem_range'_1]
      unfold MAX_GROUP_ID at hmax ⊢
      omega
  · intro hbig fuel
    unfold put_start_group_id
    rw [put_start_group_id_loop_none _ hbig fuel start_group_id _ _ (by norm_num at hstart; omega)]

/-- Worked instance of amended C29: the block of 3 group ids that starts at 100
is released within 4 tests of the loop condition, all writes inside the
bitmap. -/
theorem put_start_group_id_total_on_valid_blocks_witness :
    100 < 2 ^ 16 ∧ ((100 : Nat) : Int) + ((3 : Nat) : Int) < 2 ^ 31 ∧ 0 < 3 ∧
    100 + 3 ≤ 65535 ∧ 3 < 4 ∧ 100 + 3 ≤ MAX_GROUP_ID ∧
    (put_start_group_id 4 ex_bitmap 100 ((3 : Nat) : Int)).map (fun r => r.2.2)
      = some (List.range' 100 3) ∧
    ∀ i ∈ List.range' 100 3, i < MAX_GROUP_ID :=
  ⟨by decide, by decide, by decide, by decide, by decide, by decide,
    congrArg (Option.map (fun r => r.2.2))
      ((put_start_group_id_total_on_valid_blocks ex_bitmap 100 ((3 : Nat) : Int) (by decide)
        (by decide)).2.1 3 rfl (by decide) (by decide) 4 (by decide)).1,
    ((put_start_group_id_total_on_valid_blocks ex_bitmap 100 ((3 : Nat) : Int) (by decide)
        (by decide)).2.1 3 rfl (by decide) (by decide) 4 (by decide)).2.1 (by decide)⟩

/-! ## Claims on cluster discovery, partition lookup and the tick counter -/

/-- The second loop of `parse_cluster_info` visits the cluster indices it is
given in order and, for each whose control register has the enable bit,
rewrites that register and records one partition; a write to one control
register does not change what is read from the registers of later indices. -/
theorem parse_cluster_info_loop_records (arch : Nat) (regs0 : Nat → Nat) (remaining : Nat) :
    ∀ (cluster_idx : Nat) (part_cap : aipu_partition_cap) (sim : SimulatorV3_1),
      (∀ j, cluster_idx ≤ j →
        sim.regs (CLUSTER0_CTRL + 0x20 * j) = regs0 (CLUSTER0_CTRL + 0x20 * j)) →
      (parse_cluster_info_loop arch remaining cluster_idx part_cap sim).reg_writes =
        sim.reg_writes ++
          ((List.range' cluster_idx remaining).filter
            (fun i => decide (regs0 (CLUSTER0_CTRL + 0x20 * i) &&& CLUSTER_ENABLE ≠ 0))).map
            (fun i => (CLUSTER0_CTRL + 0x20 * i,
              (regs0 (CLUSTER0_CTRL + 0x20 * i) ||| (sim.m_partition_mode <<< 13) % 2 ^ 32)
                % 2 ^ 32)) ∧
      (parse_cluster_info_loop arch remaining cluster_idx part_cap sim).m_partition_cnt =
        sim.m_partition_cnt +
          ((List.range' cluster_idx remaining).filter
            (fun i => decide (regs0 (CLUSTER0_CTRL + 0x20 * i) &&& CLUSTER_ENABLE ≠ 0))).length ∧
      (parse_cluster_info_loop arch remaining cluster_idx part_cap sim).m_part_caps.length =
        sim.m_part_caps.length +
          ((List.range' cluster_idx remaining).filter
            (fun i => decide (regs0 (CLUSTER0_CTRL + 0x20 * i) &&& CLUSTER_ENABLE ≠ 0))).length := by
  induction remaining with
  | zero =>
    intro cluster_idx part_cap sim _
    simp [parse_cluster_info_loop]
  | succ n ih =>
    intro cluster_idx part_cap sim hregs
    have hread := hregs cluster_idx (Nat.le_refl _)
    by_cases hen : regs0 (CLUSTER0_CTRL + 0x20 * cluster_idx) &&& CLUSTER_ENABLE = 0
    · have hstep : parse_cluster_info_loop arch (n + 1) cluster_idx part_cap sim =
          parse_cluster_info_loop arch n (cluster_idx + 1) part_cap sim := by
        simp only [parse_cluster_info_loop, hread, hen, if_true]
      rw [hstep]
      have := ih (cluster_idx + 1) part_cap sim (fun j hj => hregs j (by omega))
      have hd : decide (regs0 (CLUSTER0_CTRL + 0x20 * cluster_idx) &&& CLUSTER_ENABLE ≠ 0)
          = false := by simp [hen]
      simp only [List.range'_succ, List.filter_cons, hd, Bool.false_eq_true, if_false]
      exact this
    · obtain ⟨cap1, sim1, hstep, hregs1, hw, hc, hp, hm⟩ :
          ∃ (cap1 : aipu_partition_cap) (sim1 : SimulatorV3_1),
            parse_cluster_info_loop arch (n + 1) cluster_idx part_cap sim =
              parse_cluster_info_loop arch n (cluster_idx + 1) cap1 sim1 ∧
            (∀ j, cluster_idx + 1 ≤ j →
              sim1.regs (CLUSTER0_CTRL + 0x20 * j) = regs0 (CLUSTER0_CTRL + 0x20 * j)) ∧
            sim1.reg_writes = sim.reg_writes ++ [(CLUSTER0_CTRL + 0x20 * cluster_idx,
              (regs0 (CLUSTER0_CTRL + 0x20 * cluster_idx) |||
                (sim.m_partition_mode <<< 13) % 2 ^ 32) % 2 ^ 32)] ∧
            sim1.m_partition_cnt = sim.m_partition_cnt + 1 ∧
            sim1.m_part_caps.length = sim.m_part_caps.length + 1 ∧
            sim1.m_partition_mode = sim.m_partition_mode := by
        refine ⟨?cap1, ?sim1, ?hstep, ?hregs1, ?hw, ?hc, ?hp, ?hm⟩
        case hstep =>
          simp only [parse_cluster_info_loop, hread, hen, if_false]
          exact rfl
        case hw => rfl
        case hc => rfl
        case hp => simp
        case hm => rfl
        intro j hj
        have hne : CLUSTER0_CTRL + 0x20 * j ≠ CLUSTER0_CTRL + 0x20 * cluster_idx := by omega
        show (if CLUSTER0_CTRL + 0x20 * j = CLUSTER0_CTRL + 0x20 * cluster_idx then _
          else sim.regs (CLUSTER0_CTRL + 0x20 * j)) = _
        rw [if_neg hne]
        exact hregs j (by omega)
      rw [hstep]
      obtain ⟨h1, h2, h3⟩ := ih (cluster_idx + 1) cap1 sim1 hregs1
      have hd : decide (regs0 (CLUSTER0_CTRL + 0x20 * cluster_idx) &&& CLUSTER_ENABLE ≠ 0)
          = true := by simp [hen]
      simp only [List.range'_succ, List.filter_cons, hd, if_true, List.map_cons,
        List.length_cons]
      refine ⟨?_, ?_, ?_⟩
      · rw [h1, hw, hm]; simp
      · rw [h2, hc]; omega
      · rw [h3, hp]; omega

/-- The first loop of `parse_cluster_info` counts at most the registers it
reads. -/
theorem present_cluster_cnt_le (regs : Nat → Nat) (n : Nat) : present_cluster_cnt regs n ≤ n := by
  induction n with
  | zero => simp [present_cluster_cnt]
  | succ n ih =>
    simp only [present_cluster_cnt]
    split_ifs <;> omega

/-- The members that the last `if` of `parse_cluster_info` leaves as the second
loop set them. -/
theorem parse_cluster_info_fields (arch : Nat) (sim : SimulatorV3_1) :
    (parse_cluster_info arch sim).reg_writes =
      (parse_cluster_info_loop arch (present_cluster_cnt sim.regs MAX_CLUSTER_CNT) 0
        { id := 0, arch := 0, version := AIPU_ISA_VERSION_ZHOUYI_V1, config := 0,
          cluster_cnt := 0, clusters := [] } sim).reg_writes ∧
    (parse_cluster_info arch sim).m_partition_cnt =
      (parse_cluster_info_loop arch (present_cluster_cnt sim.regs MAX_CLUSTER_CNT) 0
        { id := 0, arch := 0, version := AIPU_ISA_VERSION_ZHOUYI_V1, config := 0,
          cluster_cnt := 0, clusters := [] } sim).m_partition_cnt ∧
    (parse_cluster_info arch sim).m_part_caps =
      (parse_cluster_info_loop arch (present_cluster_cnt sim.regs MAX_CLUSTER_CNT) 0
        { id := 0, arch := 0, version := AIPU_ISA_VERSION_ZHOUYI_V1, config := 0,
          cluster_cnt := 0, clusters := [] } sim).m_part_caps := by
  unfold parse_cluster_info
  simp only []
  split_ifs
  · split <;> exact ⟨rfl, rfl, rfl⟩
  · exact ⟨rfl, rfl, rfl⟩

/-- Filtering the first `m` indices by `q` restricted to the indices below `n`
is filtering the first `n` indices by `q`, for `n` at most `m`. -/
theorem filter_range_below (q : Nat → Bool) (n m : Nat) (h : n ≤ m) :
    (List.range m).filter (fun i => decide (i < n) && q i) = (List.range n).filter q := by
  induction m with
  | zero =>
    have : n = 0 := by omega
    subst this; rfl
  | succ k ih =>
    rw [List.range_succ, List.filter_append]
    by_cases hk : n ≤ k
    · rw [ih hk]
      have : ¬ k < n := by omega
      simp [this]
    · have hn : n = k + 1 := by omega
      subst hn
      rw [List.range_succ, List.filter_append]
      congr 1
      · apply List.filter_congr
        intro i hi
        have : i < k + 1 := by
          have := List.mem_range.mp hi
          omega
        simp [this]
      · have hk1 : decide (k < k + 1) = true := by simp
        simp only [List.filter_cons, List.filter_nil, hk1, Bool.true_and]


/-- Counterexample to C24 as stated: cluster 0 is absent, cluster 1 is present,
and the control registers of both have the enable bit. The first loop of
`parse_cluster_info` counts one present cluster, the second loop visits index
0 only: the control register of the absent cluster 0 is rewritten with the
partition mode, one partition is recorded for it, and the control register of
the present and enabled cluster 1 is left as it was. -/
theorem parse_cluster_info_takes_count_for_indices :
    ex_sim.regs (CLUSTER0_CONFIG + 0x20 * 0) &&& CLUSTER_PRESENT = 0 ∧
    ex_sim.regs (CLUSTER0_CONFIG + 0x20 * 1) &&& CLUSTER_PRESENT ≠ 0 ∧
    ex_sim.regs (CLUSTER0_CTRL + 0x20 * 1) &&& CLUSTER_ENABLE ≠ 0 ∧
    (parse_cluster_info 0 ex_sim).reg_writes = [(CLUSTER0_CTRL + 0x20 * 0, 0x3000)] ∧
    (parse_cluster_info 0 ex_sim).m_partition_cnt = 1 ∧
    (parse_cluster_info 0 ex_sim).regs (CLUSTER0_CTRL + 0x20 * 1) = 0x1000 := by
  decide

/-- Claim C24, amended: `parse_cluster_info` counts the clusters whose
configuration register has the present bit and then examines the control
registers of the cluster indices below that count. For every assignment of
register values it rewrites the control register (with `partition_mode << 13`
OR-ed in) and records one partition capability, in index order, for each index
below the number of present clusters whose control register has the enable
bit, and for no other; the partition count grows by the number of such
indices. When a cluster is present exactly when its index is below the number
of present clusters (the present clusters are the first ones), these indices
are exactly the clusters that are present and enabled. -/
theorem parse_cluster_info_records_enabled_below_present_count (arch : Nat)
    (sim : SimulatorV3_1) :
    (parse_cluster_info arch sim).reg_writes =
      sim.reg_writes ++
        ((List.range (present_cluster_cnt sim.regs MAX_CLUSTER_CNT)).filter
          (fun i => decide (sim.regs (CLUSTER0_CTRL + 0x20 * i) &&& CLUSTER_ENABLE ≠ 0))).map
          (fun i => (CLUSTER0_CTRL + 0x20 * i,
            (sim.regs (CLUSTER0_CTRL + 0x20 * i) ||| (sim.m_partition_mode <<< 13) % 2 ^ 32)
              % 2 ^ 32)) ∧
    (parse_cluster_info arch sim).m_partition_cnt =
      sim.m_partition_cnt +
        ((List.range (present_cluster_cnt sim.regs MAX_CLUSTER_CNT)).filter
          (fun i => decide (sim.regs (CLUSTER0_CTRL + 0x20 * i) &&& CLUSTER_ENABLE ≠ 0))).length ∧
    (parse_cluster_info arch sim).m_part_caps.length =
      sim.m_part_caps.length +
        ((List.range (present_cluster_cnt sim.regs MAX_CLUSTER_CNT)).filter
          (fun i => decide (sim.regs (CLUSTER0_CTRL + 0x20 * i) &&& CLUSTER_ENABLE ≠ 0))).length ∧
    ((∀ i, i < MAX_CLUSTER_CNT →
        (sim.regs (CLUSTER0_CONFIG + 0x20 * i) &&& CLUSTER_PRESENT ≠ 0 ↔
          i < present_cluster_cnt sim.regs MAX_CLUSTER_CNT)) →
      (List.range (present_cluster_cnt sim.regs MAX_CLUSTER_CNT)).filter
          (fun i => decide (sim.regs (CLUSTER0_CTRL + 0x20 * i) &&& CLUSTER_ENABLE ≠ 0)) =
        (List.range MAX_CLUSTER_CNT).filter
          (fun i => decide (sim.regs (CLUSTER0_CONFIG + 0x20 * i) &&& CLUSTER_PRESENT ≠ 0) &&
            decide (sim.regs (CLUSTER0_CTRL + 0x20 * i) &&& CLUSTER_ENABLE ≠ 0))) := by
  obtain ⟨f1, f2, f3⟩ := parse_cluster_info_fields arch sim
  obtain ⟨l1, l2, l3⟩ := parse_cluster_info_loop_records arch sim.regs
    (present_cluster_cnt sim.regs MAX_CLUSTER_CNT) 0
    { id := 0, arch := 0, version := AIPU_ISA_VERSION_ZHOUYI_V1, config := 0,
      cluster_cnt := 0, clusters := [] } sim (fun _ _ => rfl)
  rw [← List.range_eq_range'] at l1 l2 l3
  refine ⟨f1.trans l1, f2.trans l2, by rw [f3]; exact l3, ?_⟩
  intro hfirst
  rw [← filter_range_below _ _ MAX_CLUSTER_CNT (present_cluster_cnt_le _ _)]
  apply List.filter_congr
  intro i hi
  have hlt := List.mem_range.mp hi
  have := hfirst i hlt
  by_cases hp : sim.regs (CLUSTER0_CONFIG + 0x20 * i) &&& CLUSTER_PRESENT ≠ 0
  · have h2 := this.mp hp
    simp [hp, h2]
  · have h2 : ¬ i < present_cluster_cnt sim.regs MAX_CLUSTER_CNT := fun h => hp (this.mpr h)
    simp [hp, h2]

/-- Worked instance of amended C24: clusters 0 and 1 are present and only
cluster 0 is enabled, so one partition is recorded, for cluster 0. -/
theorem parse_cluster_info_records_enabled_below_present_count_witness :
    (∀ i, i < MAX_CLUSTER_CNT →
      (ex_sim_two.regs (CLUSTER0_CONFIG + 0x20 * i) &&& CLUSTER_PRESENT ≠ 0 ↔
        i < present_cluster_cnt ex_sim_two.regs MAX_CLUSTER_CNT)) ∧
    (List.range (present_cluster_cnt ex_sim_two.regs MAX_CLUSTER_CNT)).filter
        (fun i => decide (ex_sim_two.regs (CLUSTER0_CTRL + 0x20 * i) &&& CLUSTER_ENABLE ≠ 0)) =
      (List.range MAX_CLUSTER_CNT).filter
        (fun i => decide (ex_sim_two.regs (CLUSTER0_CONFIG + 0x20 * i) &&& CLUSTER_PRESENT ≠ 0)
          && decide (ex_sim_two.regs (CLUSTER0_CTRL + 0x20 * i) &&& CLUSTER_ENABLE ≠ 0)) ∧
    (parse_cluster_info 0 ex_sim_two).m_partition_cnt = 1 :=
  ⟨by decide,
    (parse_cluster_info_records_enabled_below_present_count 0 ex_sim_two).2.2.2 (by decide),
    by decide⟩

/-- Claim C28, evaluated at failing inputs: the array `m_cluster_in_part` has
`MAX_PART_CNT = 1` element, yet `get_cluster_id` does not reject `part_id = 1`
(whether `sizeof(m_cluster_in_part)` is 24 or even 1) nor `part_id = 24`: it
indexes the array past its end. Only a `part_id` above
`sizeof(m_cluster_in_part)` is rejected. -/
theorem get_cluster_id_accepts_partition_one :
    ([[0]] : List (List Nat)).length = MAX_PART_CNT ∧
    get_cluster_id 24 [[0]] 1 = none ∧
    get_cluster_id 1 [[0]] 1 = none ∧
    get_cluster_id 24 [[0]] 24 = none ∧
    get_cluster_id 24 [[0]] 25 = some (AIPU_STATUS_ERROR_INVALID_PARTITION_ID, none) := by
  decide

/-- Claim C25, evaluated at a failing input: when the kernel request of
`ioctl_cmd(AIPU_IOCTL_ENABLE_TICK_COUNTER)` fails, the call returns the
tick-counter error but leaves `m_tick_counter` true, so the next
`ioctl_cmd(AIPU_IOCTL_ENABLE_TICK_COUNTER)` issues no kernel request and
returns success. -/
theorem enable_tick_counter_not_reissued_after_failure :
    Aipu.ioctl_cmd_tick_counter false TickCounterCmd.AIPU_IOCTL_ENABLE_TICK_COUNTER (-1) =
      { ret := AIPU_LL_STATUS_ERROR_IOCTL_TICK_COUNTER, m_tick_counter := true,
        issued := true } ∧
    Aipu.ioctl_cmd_tick_counter true TickCounterCmd.AIPU_IOCTL_ENABLE_TICK_COUNTER 0 =
      { ret := AIPU_LL_STATUS_SUCCESS, m_tick_counter := true, issued := false } := by
  decide

/-! ## Claim on the frame of `setup_rodata` -/

/-- The loop of `setup_rodata` leaves unchanged every byte that lies outside the
destination fields of the entries that are neither skipped nor out of
range. -/
theorem setup_rodata_loop_frame (reuse_buf static_buf : List BufferDesc) (rodata : BufferDesc)
    (ro_va : Nat) (dcr_va : Option Nat) (f : Option (List Nat))
    (ps : List GraphParamMapLoadDesc) (m : Mem) (x : Nat)
    (hx : ∀ p ∈ ps, rodata_skipped f p = false →
      rodata_sub_sec_pa_32 reuse_buf static_buf p ≠ none →
      ∀ e, rodata_entry ro_va dcr_va rodata p = some e → x < e ∨ e + 4 ≤ x) :
    (setup_rodata_loop reuse_buf static_buf rodata ro_va dcr_va f ps m).2 x = m x := by
  induction ps generalizing m with
  | nil => rfl
  | cons p ps ih =>
    have hrest : ∀ q ∈ ps, rodata_skipped f q = false →
        rodata_sub_sec_pa_32 reuse_buf static_buf q ≠ none →
        ∀ e, rodata_entry ro_va dcr_va rodata q = some e → x < e ∨ e + 4 ≤ x :=
      fun q hq => hx q (List.mem_cons_of_mem _ hq)
    cases hk : rodata_skipped f p with
    | true =>
      rw [setup_rodata_loop_cons_skipped _ _ _ _ _ _ _ _ _ hk]
      exact ih m hrest
    | false =>
      cases hs : rodata_sub_sec_pa_32 reuse_buf static_buf p with
      | none =>
        rw [setup_rodata_loop_cons_failed _ _ _ _ _ _ _ _ _ hk hs]
      | some v =>
        cases he : rodata_entry ro_va dcr_va rodata p with
        | none =>
          rw [setup_rodata_loop_cons_faulted _ _ _ _ _ _ _ _ _ _ hk hs he]
        | some e =>
          rw [setup_rodata_loop_cons_patched _ _ _ _ _ _ _ _ _ _ _ hk hs he, ih _ hrest]
          exact Mem.write32_other _ _ _ _
            (hx p (List.mem_cons_self _ _) hk (by rw [hs]; exact Option.some_ne_none v) e he)

/-- When the filter skips every entry the loop returns success and the memory
it was given. -/
theorem setup_rodata_loop_all_skipped (reuse_buf static_buf : List BufferDesc)
    (rodata : BufferDesc) (ro_va : Nat) (dcr_va : Option Nat) (f : Option (List Nat))
    (ps : List GraphParamMapLoadDesc) (m : Mem)
    (h : ∀ p ∈ ps, rodata_skipped f p = true) :
    setup_rodata_loop reuse_buf static_buf rodata ro_va dcr_va f ps m
      = (some AIPU_STATUS_SUCCESS, m) := by
  induction ps with
  | nil => rfl
  | cons p ps ih =>
    rw [setup_rodata_loop_cons_skipped _ _ _ _ _ _ _ _ _ (h p (List.mem_cons_self _ _))]
    exact ih (fun q hq => h q (List.mem_cons_of_mem _ hq))

/-- Claim C26: `setup_rodata` changes nothing but the patched fields. For every
parameter map, a byte that lies outside the 4-byte destination fields of the
entries that are neither skipped nor out of range is unchanged (an entry
without a destination has no field and writes nothing); the entries from a
failing one on write nothing, so only fields of processed entries change; for
an empty parameter map, and for a filter that excludes every entry, the result
is success and the memory is unchanged. The reuse and static buffer
descriptors are read-only arguments of the function. -/
theorem setup_rodata_changes_only_patched_fields (pa_to_va : Nat → Nat → Nat)
    (reuse_buf static_buf : List BufferDesc) (rodata : BufferDesc) (dcr : Option BufferDesc)
    (dma_buf_idx : Option (List Nat)) (m : Mem) :
    (∀ (param_map : List GraphParamMapLoadDesc) (x : Nat),
      (∀ p ∈ param_map, rodata_skipped dma_buf_idx p = false →
        rodata_sub_sec_pa_32 reuse_buf static_buf p ≠ none →
        ∀ e, rodata_entry (pa_to_va rodata.pa rodata.size) (rodata_dcr_va pa_to_va dcr) rodata p
            = some e →
          x < e ∨ e + 4 ≤ x) →
      (setup_rodata pa_to_va param_map reuse_buf static_buf rodata dcr dma_buf_idx m).2 x
        = m x) ∧
    (∀ (pre post : List GraphParamMapLoadDesc) (p : GraphParamMapLoadDesc),
      (setup_rodata pa_to_va pre reuse_buf static_buf rodata dcr dma_buf_idx m).1
        = some AIPU_STATUS_SUCCESS →
      rodata_skipped dma_buf_idx p = false →
      rodata_sub_sec_pa_32 reuse_buf static_buf p = none →
      (setup_rodata pa_to_va (pre ++ p :: post) reuse_buf static_buf rodata dcr dma_buf_idx m).2
        = (setup_rodata pa_to_va pre reuse_buf static_buf rodata dcr dma_buf_idx m).2) ∧
    setup_rodata pa_to_va [] reuse_buf static_buf rodata dcr dma_buf_idx m
      = (some AIPU_STATUS_SUCCESS, m) ∧
    (∀ param_map : List GraphParamMapLoadDesc,
      (∀ p ∈ param_map, rodata_skipped dma_buf_idx p = true) →
      setup_rodata pa_to_va param_map reuse_buf static_buf rodata dcr dma_buf_idx m
        = (some AIPU_STATUS_SUCCESS, m)) := by
  refine ⟨?_, ?_, rfl, ?_⟩
  · intro param_map x hx
    exact setup_rodata_loop_frame _ _ _ _ _ _ _ _ _ hx
  · intro pre post p hpre hk hs
    unfold setup_rodata at hpre ⊢
    rw [setup_rodata_loop_append, if_pos hpre,
      setup_rodata_loop_cons_failed _ _ _ _ _ _ _ _ _ hk hs]
  · intro param_map h
    exact setup_rodata_loop_all_skipped _ _ _ _ _ _ _ _ h

/-- Worked instance of C26: patching the field of one reuse entry leaves byte
4100 as it was. -/
theorem setup_rodata_changes_only_patched_fields_witness :
    (∀ p ∈ [ex_entry_reuse], rodata_skipped none p = false →
        rodata_sub_sec_pa_32 ex_reuse ex_static p ≠ none →
        ∀ e, rodata_entry (ex_pa_to_va ex_rodata.pa ex_rodata.size)
            (rodata_dcr_va ex_pa_to_va (some ex_dcr)) ex_rodata p = some e →
          4100 < e ∨ e + 4 ≤ 4100) ∧
    (setup_rodata ex_pa_to_va [ex_entry_reuse] ex_reuse ex_static ex_rodata (some ex_dcr) none
        ex_mem).2 4100 = ex_mem 4100 :=
  ⟨by
      intro p hp _ _ e he
      rw [List.mem_singleton] at hp
      subst hp
      have h4096 : e = 4096 := by
        have : rodata_entry (ex_pa_to_va ex_rodata.pa ex_rodata.size)
            (rodata_dcr_va ex_pa_to_va (some ex_dcr)) ex_rodata ex_entry_reuse = some 4096 := rfl
        rw [this] at he
        exact (Option.some.inj he).symm
      omega,
    (setup_rodata_changes_only_patched_fields ex_pa_to_va ex_reuse ex_static ex_rodata
      (some ex_dcr) none ex_mem).1 [ex_entry_reuse] 4100 (by
        intro p hp _ _ e he
        rw [List.mem_singleton] at hp
        subst hp
        have h4096 : e = 4096 := by
          have : rodata_entry (ex_pa_to_va ex_rodata.pa ex_rodata.size)
              (rodata_dcr_va ex_pa_to_va (some ex_dcr)) ex_rodata ex_entry_reuse = some 4096 :=
            rfl
          rw [this] at he
          exact (Option.some.inj he).symm
        omega)⟩

/-! ## Claim on the list selected by `get_tensor` -/

/-- Claim C27, evaluated at a failing input: for a DONE job, non-null data,
type PRINTF and ISA version V3, `get_tensor` selects no list (the pointer
stays null) and then reads the size of the list through that pointer. -/
theorem get_tensor_printf_on_v3_uses_null_list :
    get_tensor_select (ex_job AIPU_JOB_STATUS_DONE [ex_iobuf]) AIPU_ISA_VERSION_ZHOUYI_V3
        AIPU_TENSOR_TYPE_PRINTF = TensorSelect.null_vec ∧
    (get_tensor (ex_job AIPU_JOB_STATUS_DONE [ex_iobuf]) (ex_env true)
        AIPU_ISA_VERSION_ZHOUYI_V3 AIPU_TENSOR_TYPE_PRINTF 0 (some ex_data)).isNone = true := by
  exact ⟨rfl, rfl⟩

/-! ## Lemmas on `set_input_shape_constrait` -/

end aipudrv
